import Mathlib

/-!
# DHR: vitals trend aggregation and BMI derivation

A shallow embedding of

* `getVitalsTrends`, `recordVitals` and `updateVitals`
  (`DHRBackend/controllers/vitalsController.js`),
* `VitalsModel.create` and `VitalsModel.update` (`DHRBackend/models/vitalsModel.js`),
* `loginDoctor`, `getDoctorProfile` and `updateDoctorProfile`
  (`DHRBackend/controllers/doctorController.js`, over `DHRBackend/models/doctorModel.js`),
* the date-of-birth branch of `validateForm` (`DHRFrontend/components/RegistrationForm.tsx`).

Conventions of the embedding.

* A JavaScript number is `Num`: `NaN`, the two infinities, or a finite double, held as the
  rational it is exactly.  `Num.ofRat` is the rounding of a real number to the nearest double
  (IEEE 754 binary64, ties to even, gradual underflow, overflow to an infinity), and `+`, `*`,
  `/`, numeric literals, `parseFloat`, `parseInt` and `ToNumber` all round with it.  The sign
  of a zero is not kept: every divisor of the code is a positive constant, a counter or a
  square, and a zero is written out as `0` whatever its sign.
* The sums of the integer columns are sums of 32-bit integers over at most a few thousand rows;
  they are exact in doubles and are kept as exact rationals, as is the `Math.round` of their
  quotient by the count.
* A JavaScript value that can sit in a JSON body or in a row returned by the store is `Val`:
  `undefined`, `null`, a boolean, a number or a string.  Arrays and nested objects are not
  modelled.
* The integer columns of the `vitals` table (`vitalsSchema.fields`: blood pressure, heart rate,
  oxygen saturation) are `Option ℤ` in a row read back from the store (`none` is SQL `NULL`);
  the decimal columns (temperature, weight) are a `Val`, because the controller itself passes
  them through `parseFloat`.
* The store is an external service: a call to it is recorded, its answer is a parameter.
* The clock and the time zone of the browser are parameters: today's local calendar date and
  the offset of local time from UTC.
-/

namespace DHR

/-! ## The rationals and the integers -/

/-- The ring structure of `ℚ`, taken from its algebraic construction rather than found through
its normed-field structure: arithmetic over `ℚ` then rests on the algebra of the rationals
alone. -/
instance ratRing : Ring ℚ := Rat.commRing.toRing

/-- The commutative ring structure of `ℚ` without its unit, from the same construction. -/
instance ratNonUnitalCommRing : NonUnitalCommRing ℚ := Rat.commRing.toNonUnitalCommRing

/-- The commutative ring structure of `ℤ` without its unit, from the ring of integers. -/
instance intNonUnitalCommRing : NonUnitalCommRing ℤ := Int.instCommRing.toNonUnitalCommRing

/-! ## JavaScript numbers and values -/

/-- A JavaScript number: `NaN`, an infinity, or a finite double held as the rational it is. -/
inductive Num where
  | nan
  | posInf
  | negInf
  | fin (q : ℚ)
  deriving DecidableEq

/-- Rounding to the nearest integer, a tie going to the even one. -/
def roundHalfEven (x : ℚ) : ℤ :=
  if x - ⌊x⌋ < 1 / 2 then ⌊x⌋
  else if 1 / 2 < x - ⌊x⌋ then ⌊x⌋ + 1
  else if ⌊x⌋ % 2 = 0 then ⌊x⌋ else ⌊x⌋ + 1

/-- The exponent of the unit in the last place of the doubles next to `q`: 52 below the
exponent of `q` (53 significant bits), and never below `-1074` (the subnormal doubles). -/
def ulpExponent (q : ℚ) : ℤ := max (Int.log 2 |q| - 52) (-1074)

/-- The real number `q` rounded to a multiple of the unit in the last place, ties to even. -/
def roundedValue (q : ℚ) : ℚ :=
  (roundHalfEven (q / 2 ^ ulpExponent q) : ℚ) * 2 ^ ulpExponent q

namespace Num

/-- The Number value for the real number `q`: the nearest double, a tie going to the one with
an even significand, and an infinity when the rounded magnitude reaches `2^1024`. -/
def ofRat (q : ℚ) : Num :=
  if 2 ^ 1024 ≤ roundedValue q then posInf
  else if roundedValue q ≤ -2 ^ 1024 then negInf
  else fin (roundedValue q)

/-- The number is truthy: neither `NaN` nor zero. -/
def truthy : Num → Bool
  | nan => false
  | fin q => decide (q ≠ 0)
  | _ => true

/-- Unary minus. -/
def neg : Num → Num
  | nan => nan
  | posInf => negInf
  | negInf => posInf
  | fin q => fin (-q)

/-- The `+` of two numbers: the exact sum of two finite numbers, rounded. -/
def add : Num → Num → Num
  | nan, _ => nan
  | _, nan => nan
  | posInf, negInf => nan
  | negInf, posInf => nan
  | posInf, _ => posInf
  | _, posInf => posInf
  | negInf, _ => negInf
  | _, negInf => negInf
  | fin a, fin b => ofRat (a + b)

/-- The sign of a finite or infinite number as seen by `*` and `/`: `1`, `0` or `-1`. -/
def sgn : Num → ℤ
  | nan => 0
  | posInf => 1
  | negInf => -1
  | fin q => if 0 < q then 1 else if q < 0 then -1 else 0

/-- An infinity of the given sign (`NaN` for sign `0`). -/
def infOfSign (s : ℤ) : Num :=
  if 0 < s then posInf else if s < 0 then negInf else nan

/-- The `*` of two numbers: the exact product of two finite numbers, rounded. -/
def mul : Num → Num → Num
  | nan, _ => nan
  | _, nan => nan
  | fin a, fin b => ofRat (a * b)
  | a, b => infOfSign (sgn a * sgn b)

/-- The `/` of two numbers: the exact quotient of two finite numbers, rounded; a zero divisor
is the positive zero. -/
def div : Num → Num → Num
  | nan, _ => nan
  | _, nan => nan
  | fin a, fin b => if b = 0 then infOfSign (sgn (fin a)) else ofRat (a / b)
  | fin _, _ => fin 0
  | a, fin b => infOfSign (sgn a * (if b < 0 then -1 else 1))
  | _, _ => nan

/-- `Math.round`: the nearest integer, a tie going to the larger one. The result is exact: a
double of magnitude `2^52` or more is an integer already, and a smaller one rounds to an
integer below `2^53`. -/
def round : Num → Num
  | fin q => fin ((⌊q + 1 / 2⌋ : ℤ) : ℚ)
  | n => n

end Num

/-- A JavaScript value of a JSON body or of a row of the store. -/
inductive Val where
  | undefined
  | null
  | bool (b : Bool)
  | num (n : Num)
  | str (s : String)
  deriving DecidableEq

/-- The value of a numeric literal: the double nearest to the number written. -/
def Val.ofRat (q : ℚ) : Val := Val.num (Num.ofRat q)

/-! ## Numeric strings -/

/-- White space and line terminators (`StrWhiteSpaceChar`). -/
def isStrWhiteSpaceChar (c : Char) : Bool :=
  (c.toNat ∈ [0x09, 0x0A, 0x0B, 0x0C, 0x0D, 0x20, 0xA0, 0x1680, 0x2028, 0x2029, 0x202F,
    0x205F, 0x3000, 0xFEFF]) || (0x2000 ≤ c.toNat && c.toNat ≤ 0x200A)

/-- The value of a run of decimal digits. -/
def digitsValue (ds : List Char) : ℕ :=
  ds.foldl (fun n c => 10 * n + (c.toNat - 48)) 0

/-- An `ExponentPart` at the head of the input: its value and the rest of the input. -/
def parseExponent : List Char → Option (ℤ × List Char)
  | c :: r =>
    if c = 'e' ∨ c = 'E' then
      let signed : ℤ × List Char :=
        match r with
        | '+' :: t => (1, t)
        | '-' :: t => (-1, t)
        | _ => (1, r)
      let ds := signed.2.span Char.isDigit
      if ds.1 = [] then none else some (signed.1 * (digitsValue ds.1 : ℤ), ds.2)
    else none
  | [] => none

/-- The longest `StrUnsignedDecimalLiteral` at the head of the input: its value, which is the
number written rounded to a double, and the rest of the input. (Past twenty significant digits
the language lets an engine round a truncated numeral; the engines round the full one.) -/
def parseUnsignedDecimal (cs : List Char) : Option (Num × List Char) :=
  if "Infinity".data <+: cs then some (Num.posInf, cs.drop 8)
  else
    let ip := cs.span Char.isDigit
    let fp : List Char × List Char :=
      match ip.2 with
      | '.' :: t => t.span Char.isDigit
      | _ => ([], ip.2)
    if ip.1 = [] ∧ fp.1 = [] then none
    else
      let mant : ℚ := (digitsValue ip.1 : ℚ) + (digitsValue fp.1 : ℚ) / 10 ^ fp.1.length
      match parseExponent fp.2 with
      | some (e, r) => some (Num.ofRat (mant * 10 ^ e), r)
      | none => some (Num.ofRat mant, fp.2)

/-- The longest `StrDecimalLiteral` at the head of the input. -/
def parseDecimal : List Char → Option (Num × List Char)
  | [] => parseUnsignedDecimal []
  | c :: r =>
    if c = '+' then parseUnsignedDecimal r
    else if c = '-' then (parseUnsignedDecimal r).map (fun p => (p.1.neg, p.2))
    else parseUnsignedDecimal (c :: r)

/-- `parseFloat` of a string: leading white space is skipped, then the longest prefix that is
a decimal literal is read; `NaN` if there is none. -/
def parseFloatString (s : String) : Num :=
  match parseDecimal (s.data.dropWhile isStrWhiteSpaceChar) with
  | some p => p.1
  | none => Num.nan

/-- `parseFloat`: the argument is converted to a string and read back; a number reads back as
itself, every other non-string value reads as `NaN`. -/
def parseFloat : Val → Num
  | Val.num n => n
  | Val.str s => parseFloatString s
  | _ => Num.nan

namespace Val

/-- JavaScript truthiness (`ToBoolean`). -/
def truthy : Val → Bool
  | undefined => false
  | null => false
  | bool b => b
  | num n => n.truthy
  | str s => decide (s ≠ "")

end Val

/-! ## `Number.prototype.toFixed(1)` -/

/-- The decimal digits of a natural number, without its trailing zeros (`[]` for `0`). -/
def significantDigits (n : ℕ) : List Char :=
  ((Nat.toDigits 10 n).reverse.dropWhile (fun c => c = '0')).reverse

/-- The exponent notation of an integer `n ≥ 10^21`: the significant digits, a point after the
first of them when there are several, then `e+` and the decimal exponent. -/
def exponentialString (n : ℕ) : List Char :=
  let e := (Nat.toDigits 10 ((Nat.toDigits 10 n).length - 1))
  match significantDigits n with
  | [] => ['0']
  | [d] => d :: 'e' :: '+' :: e
  | d :: ds => d :: '.' :: (ds ++ 'e' :: '+' :: e)

/-- The decimal integer with at most `k` significant digits that `Number::toString` would print
for the double `x ≥ 10^21`, if there is one: `x` is cut after its `k`-th digit (`lo`) and
stepped up by one unit of that digit (`hi`); the one that rounds back to `x` is taken, the
nearer of the two when both do, and at equal distance the one whose last digit is even. -/
def shortestDigitsAt (x : ℚ) (k : ℕ) : Option ℕ :=
  let unit : ℕ := 10 ^ ((Nat.toDigits 10 ⌊x⌋.toNat).length - k)
  let lo : ℕ := ⌊x⌋.toNat / unit * unit
  let hi : ℕ := lo + unit
  let okLo : Bool := decide (Num.ofRat (lo : ℚ) = Num.fin x)
  let okHi : Bool := decide (Num.ofRat (hi : ℚ) = Num.fin x)
  if okLo && okHi then
    (if x - lo < hi - x then some lo
     else if hi - x < x - lo then some hi
     else if (lo / unit) % 2 = 0 then some lo else some hi)
  else if okLo then some lo
  else if okHi then some hi
  else none

/-- The digits `Number::toString` prints for a double `x ≥ 10^21`, as the integer they write:
the decimal integer with the fewest significant digits that rounds back to `x` (seventeen
digits always do for a double). -/
def shortestRoundTrip (x : ℚ) : ℕ :=
  ((List.range 17).findSome? (fun i => shortestDigitsAt x (i + 1))).getD ⌊x⌋.toNat

/-- `x.toFixed(1)`.  A negative `x` gives a minus sign and the text of `-x`.  Below `10^21` the
text is that of the integer `n` nearest to `10 x` (the larger one at a tie) with a point before
its last digit.  From `10^21` on `toFixed` gives up fixed-point notation and returns
`Number::toString`, which is exponent notation at that size. -/
def toFixed1 : Num → String
  | Num.nan => "NaN"
  | Num.posInf => "Infinity"
  | Num.negInf => "-Infinity"
  | Num.fin q =>
    let s : List Char := if q < 0 then ['-'] else []
    let x : ℚ := if q < 0 then -q else q
    if (10 : ℚ) ^ 21 ≤ x then String.mk (s ++ exponentialString (shortestRoundTrip x))
    else
      let n : ℕ := ⌊x * 10 + 1 / 2⌋.toNat
      String.mk (s ++ Nat.toDigits 10 (n / 10) ++ ['.'] ++ Nat.toDigits 10 (n % 10))

/-! ## Vitals trends (`getVitalsTrends`) -/

/-- A row of the `vitals` table as `getByPatientId` returns it, with the columns the trends
read. -/
structure Vital where
  recorded_at : String
  blood_pressure_systolic : Option ℤ
  blood_pressure_diastolic : Option ℤ
  temperature : Val
  weight : Val
  heart_rate : Option ℤ
  oxygen_saturation : Option ℤ
  deriving DecidableEq

/-- Truthiness of an integer column: not `NULL` and not `0`. -/
def intTruthy : Option ℤ → Bool
  | some n => decide (n ≠ 0)
  | none => false

/-- The number held by an integer column that passed the truthiness test. -/
def intValue : Option ℤ → ℤ
  | some n => n
  | none => 0

/-- An entry of `blood_pressure.readings`. -/
structure BpReading where
  date : String
  systolic : ℤ
  diastolic : ℤ
  deriving DecidableEq

/-- An entry of the `readings` of a single-valued metric. -/
structure Reading (α : Type) where
  date : String
  value : α
  deriving DecidableEq

/-- The running state of the `forEach` loop: the sums held in the `avg` fields, the readings
pushed so far and the five counters. -/
structure Acc where
  avg_systolic : ℚ
  avg_diastolic : ℚ
  bpReadings : List BpReading
  bpCount : ℕ
  tempAvg : Num
  tempReadings : List (Reading Val)
  tempCount : ℕ
  weightAvg : Num
  weightReadings : List (Reading Val)
  weightCount : ℕ
  hrAvg : ℚ
  hrReadings : List (Reading ℤ)
  hrCount : ℕ
  o2Avg : ℚ
  o2Readings : List (Reading ℤ)
  o2Count : ℕ
  deriving DecidableEq

/-- The state before the loop: `trends` zero-filled, all counters `0`. -/
def Acc.init : Acc :=
  { avg_systolic := 0, avg_diastolic := 0, bpReadings := [], bpCount := 0,
    tempAvg := Num.fin 0, tempReadings := [], tempCount := 0,
    weightAvg := Num.fin 0, weightReadings := [], weightCount := 0,
    hrAvg := 0, hrReadings := [], hrCount := 0,
    o2Avg := 0, o2Readings := [], o2Count := 0 }

/-- The blood-pressure `if` of the loop body. -/
def stepBp (a : Acc) (vital : Vital) : Acc :=
  if intTruthy vital.blood_pressure_systolic && intTruthy vital.blood_pressure_diastolic then
    { a with
      avg_systolic := a.avg_systolic + intValue vital.blood_pressure_systolic
      avg_diastolic := a.avg_diastolic + intValue vital.blood_pressure_diastolic
      bpReadings := a.bpReadings ++ [{ date := vital.recorded_at,
                                       systolic := intValue vital.blood_pressure_systolic,
                                       diastolic := intValue vital.blood_pressure_diastolic }]
      bpCount := a.bpCount + 1 }
  else a

/-- The temperature `if` of the loop body. -/
def stepTemp (a : Acc) (vital : Vital) : Acc :=
  if vital.temperature.truthy then
    { a with
      tempAvg := a.tempAvg.add (parseFloat vital.temperature)
      tempReadings := a.tempReadings ++ [{ date := vital.recorded_at, value := vital.temperature }]
      tempCount := a.tempCount + 1 }
  else a

/-- The weight `if` of the loop body. -/
def stepWeight (a : Acc) (vital : Vital) : Acc :=
  if vital.weight.truthy then
    { a with
      weightAvg := a.weightAvg.add (parseFloat vital.weight)
      weightReadings := a.weightReadings ++ [{ date := vital.recorded_at, value := vital.weight }]
      weightCount := a.weightCount + 1 }
  else a

/-- The heart-rate `if` of the loop body. -/
def stepHr (a : Acc) (vital : Vital) : Acc :=
  if intTruthy vital.heart_rate then
    { a with
      hrAvg := a.hrAvg + intValue vital.heart_rate
      hrReadings := a.hrReadings ++ [{ date := vital.recorded_at, value := intValue vital.heart_rate }]
      hrCount := a.hrCount + 1 }
  else a

/-- The oxygen-saturation `if` of the loop body. -/
def stepO2 (a : Acc) (vital : Vital) : Acc :=
  if intTruthy vital.oxygen_saturation then
    { a with
      o2Avg := a.o2Avg + intValue vital.oxygen_saturation
      o2Readings := a.o2Readings ++
        [{ date := vital.recorded_at, value := intValue vital.oxygen_saturation }]
      o2Count := a.o2Count + 1 }
  else a

/-- The body of `vitals.forEach`: the five `if`s in source order. -/
def step (a : Acc) (vital : Vital) : Acc :=
  stepO2 (stepHr (stepWeight (stepTemp (stepBp a vital) vital) vital) vital) vital

/-- The whole loop, `vitals.forEach(...)`. -/
def accumulate (vitals : List Vital) : Acc :=
  vitals.foldl step Acc.init

/-- `Math.round(sum / count)` on exact rationals. -/
def roundAvg (sum : ℚ) (count : ℕ) : ℚ :=
  ((⌊sum / count + 1 / 2⌋ : ℤ) : ℚ)

/-- The `blood_pressure` part of the answer. -/
structure BloodPressure where
  avg_systolic : ℚ
  avg_diastolic : ℚ
  readings : List BpReading
  deriving DecidableEq

/-- The `temperature` and `weight` parts of the answer: `avg` is the number `0` or the string
made by `toFixed(1)`. -/
structure DecimalTrend where
  avg : Val
  readings : List (Reading Val)
  deriving DecidableEq

/-- The `heart_rate` and `oxygen_saturation` parts of the answer. -/
structure IntegerTrend where
  avg : ℚ
  readings : List (Reading ℤ)
  deriving DecidableEq

/-- The `trends` object. -/
structure Trends where
  blood_pressure : BloodPressure
  temperature : DecimalTrend
  weight : DecimalTrend
  heart_rate : IntegerTrend
  oxygen_saturation : IntegerTrend
  deriving DecidableEq

/-- The statements after the loop ("Calculate averages"): each sum is divided by its own
counter when that counter is positive, and left at `0` otherwise. -/
def finish (a : Acc) : Trends :=
  { blood_pressure :=
      { avg_systolic := if 0 < a.bpCount then roundAvg a.avg_systolic a.bpCount else a.avg_systolic
        avg_diastolic :=
          if 0 < a.bpCount then roundAvg a.avg_diastolic a.bpCount else a.avg_diastolic
        readings := a.bpReadings }
    temperature :=
      { avg := if 0 < a.tempCount then
                 Val.str (toFixed1 (a.tempAvg.div (Num.fin a.tempCount)))
               else Val.num a.tempAvg
        readings := a.tempReadings }
    weight :=
      { avg := if 0 < a.weightCount then
                 Val.str (toFixed1 (a.weightAvg.div (Num.fin a.weightCount)))
               else Val.num a.weightAvg
        readings := a.weightReadings }
    heart_rate :=
      { avg := if 0 < a.hrCount then roundAvg a.hrAvg a.hrCount else a.hrAvg
        readings := a.hrReadings }
    oxygen_saturation :=
      { avg := if 0 < a.o2Count then roundAvg a.o2Avg a.o2Count else a.o2Avg
        readings := a.o2Readings } }

/-- What the handler sends. -/
inductive Response where
  | notFound (error : String)
  | ok (trends : Trends) (total_readings : ℕ)
  | serverError (details : String)
  deriving DecidableEq

/-- The HTTP status of an answer: `res.status(404)`, `res.status(500)`, and `200` for a plain
`res.json`. -/
def Response.status : Response → ℕ
  | Response.notFound _ => 404
  | Response.ok _ _ => 200
  | Response.serverError _ => 500

/-- The handler `getVitalsTrends`, given the outcome of `VitalsModel.getByPatientId`: a thrown
store error, or `data`, which is `null` (`none`) or an array of rows. -/
def getVitalsTrends (fetched : Except String (Option (List Vital))) : Response :=
  match fetched with
  | Except.error details => Response.serverError details
  | Except.ok none => Response.notFound "No vitals data found"
  | Except.ok (some vitals) =>
    if vitals.length = 0 then Response.notFound "No vitals data found"
    else Response.ok (finish (accumulate vitals)) vitals.length

/-! ## `ToNumber` -/

/-- The value of a digit of the given radix (2, 8 or 16), if the character is one. -/
def radixDigit (radix : ℕ) (c : Char) : Option ℕ :=
  let d : Option ℕ :=
    if '0' ≤ c ∧ c ≤ '9' then some (c.toNat - 48)
    else if 'a' ≤ c ∧ c ≤ 'f' then some (c.toNat - 87)
    else if 'A' ≤ c ∧ c ≤ 'F' then some (c.toNat - 55)
    else none
  d.bind (fun n => if n < radix then some n else none)

/-- The digits of a `NonDecimalIntegerLiteral` after its `0x`, `0o` or `0b`. -/
def parseRadix (radix : ℕ) (ds : List Char) : Num :=
  if ds = [] then Num.nan
  else
    match ds.foldl (fun acc c => acc.bind (fun n => (radixDigit radix c).map (fun d => radix * n + d)))
        (some 0) with
    | some n => Num.ofRat n
    | none => Num.nan

/-- `StringToNumber`: white space is trimmed at both ends; the empty string is `0`; otherwise
the whole of what is left has to be a decimal literal or a hexadecimal, octal or binary integer
literal, and anything else is `NaN`. -/
def stringToNumber (s : String) : Num :=
  let t := ((s.data.dropWhile isStrWhiteSpaceChar).reverse.dropWhile isStrWhiteSpaceChar).reverse
  match t with
  | [] => Num.fin 0
  | '0' :: 'x' :: r => parseRadix 16 r
  | '0' :: 'X' :: r => parseRadix 16 r
  | '0' :: 'o' :: r => parseRadix 8 r
  | '0' :: 'O' :: r => parseRadix 8 r
  | '0' :: 'b' :: r => parseRadix 2 r
  | '0' :: 'B' :: r => parseRadix 2 r
  | _ =>
    match parseDecimal t with
    | some (n, []) => n
    | _ => Num.nan

namespace Val

/-- `ToNumber`, as applied to the operands of `/` and `*`. -/
def toNumber : Val → Num
  | undefined => Num.nan
  | null => Num.fin 0
  | bool b => if b then Num.fin 1 else Num.fin 0
  | num n => n
  | str s => stringToNumber s

/-- The operator `a || b` on values already evaluated. -/
def or (a b : Val) : Val := if a.truthy then a else b

end Val

/-! ## Objects and the store -/

/-- A JavaScript object with primitive values: its own properties in insertion order. -/
abbrev Obj := List (String × Val)

namespace Obj

/-- Reading `o.k`: `undefined` when the object has no such property. -/
def get (o : Obj) (k : String) : Val :=
  match o.lookup k with
  | some v => v
  | none => Val.undefined

/-- Writing `o.k = v`: the value is replaced where the property exists, and the property is
added last otherwise. -/
def set : Obj → String → Val → Obj
  | [], k, v => [(k, v)]
  | (k', v') :: o, k, v => if k' = k then (k, v) :: o else (k', v') :: set o k v

end Obj

/-- A call made on the store client for the `vitals` table. -/
inductive StoreCall where
  | insert (row : Obj)
  | selectWeightHeight (id : String)
  | update (id : String) (fields : Obj)
  deriving DecidableEq

/-! ## BMI derivation (`VitalsModel.create`, `VitalsModel.update`) -/

/-- The expression `Math.round((weight / (heightInMeters * heightInMeters)) * 10) / 10` with
`heightInMeters = height / 100`. -/
def bmiOf (weight height : Val) : Num :=
  let heightInMeters := height.toNumber.div (Num.fin 100)
  (((weight.toNumber.div (heightInMeters.mul heightInMeters)).mul (Num.fin 10)).round).div
    (Num.fin 10)

namespace VitalsModel

/-- The local `bmi` of `create` when the row is built. -/
def createBmi (vitalsData : Obj) : Val :=
  let bmi := vitalsData.get "bmi"
  if (vitalsData.get "weight").truthy && (vitalsData.get "height").truthy && !bmi.truthy then
    Val.num (bmiOf (vitalsData.get "weight") (vitalsData.get "height"))
  else bmi

/-- The row `create` hands to `insert`; `t1`, `t2`, `t3` are the three readings of the clock,
in the order of the object literal. -/
def createRow (vitalsData : Obj) (t1 t2 t3 : String) : Obj :=
  (((vitalsData.set "bmi" (createBmi vitalsData)).set "recorded_at" (Val.str t1)).set
    "created_at" (Val.str t2)).set "updated_at" (Val.str t3)

/-- `VitalsModel.create`: the calls made on the store. -/
def create (vitalsData : Obj) (t1 t2 t3 : String) : List StoreCall :=
  [StoreCall.insert (createRow vitalsData t1 t2 t3)]

/-- Reading a property of `current`, the `data` of the `select`; `current` is `none` when the
store found no row, and the property access then throws. -/
def currentField (current : Option Obj) (k : String) : Except String Val :=
  match current with
  | some c => Except.ok (c.get k)
  | none => Except.error "TypeError: Cannot read properties of null"

/-- The expression `updates.k || current.k`: `current.k` is evaluated only when `updates.k` is
falsy. -/
def merged (updates : Obj) (current : Option Obj) (k : String) : Except String Val :=
  if (updates.get k).truthy then Except.ok (updates.get k) else currentField current k

/-- The `updates` object after the recalculation block, given that the block is entered. -/
def recalculate (updates : Obj) (current : Option Obj) : Except String Obj := do
  let weight ← merged updates current "weight"
  let height ← merged updates current "height"
  if weight.truthy && height.truthy then
    pure (updates.set "bmi" (Val.num (bmiOf weight height)))
  else pure updates

/-- `VitalsModel.update`: the calls made on the store, or the exception thrown before the
write.  `current` is the `data` the store answers the `select` with, should it be asked. -/
def update (current : Option Obj) (vitalsId : String) (updates : Obj) (now : String) :
    Except String (List StoreCall) :=
  if (updates.get "weight").truthy || (updates.get "height").truthy then
    match recalculate updates current with
    | Except.ok updates' =>
      Except.ok [StoreCall.selectWeightHeight vitalsId,
        StoreCall.update vitalsId (updates'.set "updated_at" (Val.str now))]
    | Except.error e => Except.error e
  else
    Except.ok [StoreCall.update vitalsId (updates.set "updated_at" (Val.str now))]

end VitalsModel

/-! ## Vocabulary of the statements -/

/-- The records that pass the blood-pressure test of the loop. -/
def bpContributors (vitals : List Vital) : List Vital :=
  vitals.filter
    (fun v => intTruthy v.blood_pressure_systolic && intTruthy v.blood_pressure_diastolic)

/-- The records that pass the temperature test of the loop. -/
def tempContributors (vitals : List Vital) : List Vital :=
  vitals.filter (fun v => v.temperature.truthy)

/-- The records that pass the weight test of the loop. -/
def weightContributors (vitals : List Vital) : List Vital :=
  vitals.filter (fun v => v.weight.truthy)

/-- The records that pass the heart-rate test of the loop. -/
def hrContributors (vitals : List Vital) : List Vital :=
  vitals.filter (fun v => intTruthy v.heart_rate)

/-- The records that pass the oxygen-saturation test of the loop. -/
def o2Contributors (vitals : List Vital) : List Vital :=
  vitals.filter (fun v => intTruthy v.oxygen_saturation)

/-- The arithmetic mean of a list of rationals. -/
def mean (xs : List ℚ) : ℚ := xs.sum / xs.length

/-- Rounding to the nearest integer, a tie going up. -/
def roundHalfUp (q : ℚ) : ℤ := ⌊q + 1 / 2⌋

/-- Rounding to the nearest integer, a tie going away from zero. -/
def roundHalfAwayFromZero (q : ℚ) : ℤ :=
  if 0 ≤ q then ⌊q + 1 / 2⌋ else -⌊-q + 1 / 2⌋

/-- The values of an integer column over the given records. -/
def intValues (f : Vital → Option ℤ) (vs : List Vital) : List ℚ :=
  vs.map (fun v => ((intValue (f v) : ℤ) : ℚ))

/-- The sum `0 + x₁ + x₂ + …` of JavaScript numbers, left to right, each `+` rounded. -/
def numSum (xs : List Num) : Num := xs.foldl Num.add (Num.fin 0)

/-- The mean of JavaScript numbers as a `forEach` sum and one division compute it in double
precision: the sum from `0`, left to right, divided by the count. -/
def numMean (xs : List Num) : Num := (numSum xs).div (Num.fin xs.length)

/-- A row with the given time stamp and every measurement `NULL`. -/
def Vital.blank (date : String) : Vital :=
  { recorded_at := date, blood_pressure_systolic := none, blood_pressure_diastolic := none,
    temperature := Val.null, weight := Val.null, heart_rate := none, oxygen_saturation := none }

/-- The values of an integer column over the records in which the column is recorded, that is,
not `NULL`: presence as the data model words it. -/
def recordedValues (f : Vital → Option ℤ) (vitals : List Vital) : List ℚ :=
  (vitals.filterMap f).map (fun n => (n : ℚ))

/-- The `{date, value}` entries of the records in which an integer column is recorded, that
is, not `NULL`, in input order. -/
def recordedReadings (f : Vital → Option ℤ) (vitals : List Vital) : List (Reading ℤ) :=
  vitals.filterMap (fun v => (f v).map (fun n => ({ date := v.recorded_at, value := n } : Reading ℤ)))

/-- The `{date, value}` entry a record gives to a decimal metric. -/
def decimalReading (f : Vital → Val) (v : Vital) : Reading Val :=
  { date := v.recorded_at, value := f v }

/-- The `{date, value}` entry a record gives to an integer metric. -/
def integerReading (f : Vital → Option ℤ) (v : Vital) : Reading ℤ :=
  { date := v.recorded_at, value := intValue (f v) }

/-- The `{date, systolic, diastolic}` entry a record gives to the blood-pressure metric. -/
def bpReading (v : Vital) : BpReading :=
  { date := v.recorded_at, systolic := intValue v.blood_pressure_systolic,
    diastolic := intValue v.blood_pressure_diastolic }

/-- Every average of `t` is the rounding, by its metric's policy, of the arithmetic mean over
the records of `vitals` that pass the metric's test; for the two decimal metrics the values
are those `parseFloat` reads and the mean is the one double arithmetic gives. -/
def AveragesOverContributors (vitals : List Vital) (t : Trends) : Prop :=
  (bpContributors vitals ≠ [] →
    t.blood_pressure.avg_systolic =
      (roundHalfUp (mean (intValues (fun v => v.blood_pressure_systolic)
        (bpContributors vitals))) : ℚ) ∧
    t.blood_pressure.avg_diastolic =
      (roundHalfUp (mean (intValues (fun v => v.blood_pressure_diastolic)
        (bpContributors vitals))) : ℚ)) ∧
  (tempContributors vitals ≠ [] →
    t.temperature.avg = Val.str (toFixed1
      (numMean ((tempContributors vitals).map (fun v => parseFloat v.temperature))))) ∧
  (weightContributors vitals ≠ [] →
    t.weight.avg = Val.str (toFixed1
      (numMean ((weightContributors vitals).map (fun v => parseFloat v.weight))))) ∧
  (hrContributors vitals ≠ [] →
    t.heart_rate.avg =
      (roundHalfUp (mean (intValues (fun v => v.heart_rate) (hrContributors vitals))) : ℚ)) ∧
  (o2Contributors vitals ≠ [] →
    t.oxygen_saturation.avg =
      (roundHalfUp (mean (intValues (fun v => v.oxygen_saturation)
        (o2Contributors vitals))) : ℚ))

/-- Every readings list of `t` holds the entries of the records of `vitals` that pass the
metric's test, in input order. -/
def ReadingsOfContributors (vitals : List Vital) (t : Trends) : Prop :=
  t.blood_pressure.readings = (bpContributors vitals).map bpReading ∧
  t.temperature.readings = (tempContributors vitals).map (decimalReading (fun v => v.temperature)) ∧
  t.weight.readings = (weightContributors vitals).map (decimalReading (fun v => v.weight)) ∧
  t.heart_rate.readings = (hrContributors vitals).map (integerReading (fun v => v.heart_rate)) ∧
  t.oxygen_saturation.readings =
    (o2Contributors vitals).map (integerReading (fun v => v.oxygen_saturation))

/-- The number `avg` is an integer at distance at most one half from `x`. -/
def IsNearestInteger (x avg : ℚ) : Prop :=
  ∃ n : ℤ, avg = (n : ℚ) ∧ |(n : ℚ) - x| ≤ 1 / 2

/-- The four rounded averages of `t` are integers nearest to the exact quotient of the sum by
the count of the contributing values. -/
def RoundedAveragesNearest (vitals : List Vital) (t : Trends) : Prop :=
  (bpContributors vitals ≠ [] →
    IsNearestInteger
      ((intValues (fun v => v.blood_pressure_systolic) (bpContributors vitals)).sum /
        (bpContributors vitals).length) t.blood_pressure.avg_systolic ∧
    IsNearestInteger
      ((intValues (fun v => v.blood_pressure_diastolic) (bpContributors vitals)).sum /
        (bpContributors vitals).length) t.blood_pressure.avg_diastolic) ∧
  (hrContributors vitals ≠ [] →
    IsNearestInteger
      ((intValues (fun v => v.heart_rate) (hrContributors vitals)).sum /
        (hrContributors vitals).length) t.heart_rate.avg) ∧
  (o2Contributors vitals ≠ [] →
    IsNearestInteger
      ((intValues (fun v => v.oxygen_saturation) (o2Contributors vitals)).sum /
        (o2Contributors vitals).length) t.oxygen_saturation.avg)

/-- Two rows: a heart rate recorded as `0`, then one recorded as `60`. -/
def zeroHeartRateRows : List Vital :=
  [{ Vital.blank "2024-05-02T09:00:00Z" with heart_rate := some 0 },
   { Vital.blank "2024-05-01T09:00:00Z" with heart_rate := some 60 }]

/-- Two rows: an oxygen saturation recorded as `97`, then one recorded as `0`. -/
def zeroSaturationRows : List Vital :=
  [{ Vital.blank "2024-05-02T09:00:00Z" with oxygen_saturation := some 97 },
   { Vital.blank "2024-05-01T09:00:00Z" with oxygen_saturation := some 0 }]

/-- The rows of the blood-pressure example: `{systolic: 120, diastolic: 80}`, then
`{systolic: 130}`. -/
def bpExampleFull : Vital :=
  { Vital.blank "2024-05-02T09:00:00Z" with
    blood_pressure_systolic := some 120, blood_pressure_diastolic := some 80 }

/-- The second row of the blood-pressure example, `{systolic: 130}`. -/
def bpExampleHalf : Vital :=
  { Vital.blank "2024-05-01T09:00:00Z" with blood_pressure_systolic := some 130 }

/-- Three rows with every integer metric recorded, heart rates `71`, `72`, `74`. -/
def threeFullRows : List Vital :=
  [{ Vital.blank "2024-05-03T09:00:00Z" with
     blood_pressure_systolic := some 121, blood_pressure_diastolic := some 80,
     heart_rate := some 71, oxygen_saturation := some 98 },
   { Vital.blank "2024-05-02T09:00:00Z" with
     blood_pressure_systolic := some 124, blood_pressure_diastolic := some 83,
     heart_rate := some 72, oxygen_saturation := some 97 },
   { Vital.blank "2024-05-01T09:00:00Z" with
     blood_pressure_systolic := some 130, blood_pressure_diastolic := some 85,
     heart_rate := some 74, oxygen_saturation := some 97 }]

/-- The text is in fixed-point notation with exactly one digit after the point: an optional
minus sign, one or more digits, a point, one digit, and nothing else. -/
def isFixedOneDecimal (s : String) : Bool :=
  let cs : List Char :=
    match s.data with
    | [] => []
    | c :: r => if c = '-' then r else c :: r
  let p := cs.span Char.isDigit
  !p.1.isEmpty &&
    (match p.2 with
     | [dot, d] => decide (dot = '.') && d.isDigit
     | _ => false)

/-- The character is one of the ten decimal digits. -/
def IsDecimalDigit (c : Char) : Prop := ∃ d, d < 10 ∧ c = Nat.digitChar d

/-- Decimal text: a minus sign if `neg`, the digits `ip`, and, when `fp` is not empty, a point
and the digits `fp`. -/
def decimalText (neg : Bool) (ip fp : List Char) : String :=
  String.mk ((if neg then ['-'] else []) ++ ip ++ (if fp = [] then [] else '.' :: fp))

/-- The number that decimal text denotes. -/
def decimalValue (neg : Bool) (ip fp : List Char) : ℚ :=
  (if neg then -1 else 1) * ((digitsValue ip : ℚ) + (digitsValue fp : ℚ) / 10 ^ fp.length)

/-- The string is decimal text denoting the number `q` (such as `"98.6"` for `493/5`). -/
def IsDecimalText (s : String) (q : ℚ) : Prop :=
  ∃ (neg : Bool) (ip fp : List Char), ip ≠ [] ∧ (∀ c ∈ ip, IsDecimalDigit c) ∧
    (∀ c ∈ fp, IsDecimalDigit c) ∧ s = decimalText neg ip fp ∧ q = decimalValue neg ip fp

/-- The two formatted averages of `t` are fixed-point text with exactly one digit after the
point, denoting a decimal within one twentieth of the mean of the contributing values as double
arithmetic gives it, whenever that mean is finite and below `10^21` in magnitude. -/
def FixedPointAverages (vitals : List Vital) (t : Trends) : Prop :=
  (∀ m : ℚ, tempContributors vitals ≠ [] →
    numMean ((tempContributors vitals).map (fun v => parseFloat v.temperature)) = Num.fin m →
    |m| < 10 ^ 21 →
    ∃ s q, t.temperature.avg = Val.str s ∧ isFixedOneDecimal s = true ∧
      IsDecimalText s q ∧ |q - m| ≤ 1 / 20) ∧
  (∀ m : ℚ, weightContributors vitals ≠ [] →
    numMean ((weightContributors vitals).map (fun v => parseFloat v.weight)) = Num.fin m →
    |m| < 10 ^ 21 →
    ∃ s q, t.weight.avg = Val.str s ∧ isFixedOneDecimal s = true ∧
      IsDecimalText s q ∧ |q - m| ≤ 1 / 20)

/-- One row whose temperature is the number `1e21`. -/
def hugeTemperatureRows : List Vital :=
  [{ Vital.blank "2024-05-02T09:00:00Z" with temperature := Val.num (Num.fin (10 ^ 21)) }]

/-- Two rows with temperatures `98.6` (a number) and `"99.2"` (decimal text). -/
def temperatureRows : List Vital :=
  [{ Vital.blank "2024-05-02T09:00:00Z" with temperature := Val.ofRat (493 / 5) },
   { Vital.blank "2024-05-01T09:00:00Z" with temperature := Val.str "99.2" }]

/-- The BMI as the specification words it: `weight / (height/100)^2`, scaled by 10, rounded
half away from zero, and scaled back. -/
def specBmi (weight height : ℚ) : ℚ :=
  (roundHalfAwayFromZero (weight / (height / 100) ^ 2 * 10) : ℚ) / 10

/-- The merged view as the specification words it: the payload's value when the payload has
the property, the stored value otherwise. -/
def suppliedOrStored (updates current : Obj) (k : String) : Val :=
  match updates.lookup k with
  | some v => v
  | none => current.get k

/-- The fields of the `update` call of a run, if the run reached it. -/
def writtenFields : Except String (List StoreCall) → Option Obj
  | Except.ok calls =>
    calls.findSome? (fun c =>
      match c with
      | StoreCall.update _ fields => some fields
      | _ => none)
  | Except.error _ => none

/-- The run asked the store for the stored row. -/
def readsStoredRow : Except String (List StoreCall) → Bool
  | Except.ok calls =>
    calls.any (fun c =>
      match c with
      | StoreCall.selectWeightHeight _ => true
      | _ => false)
  | Except.error _ => true

/-- The body `{weight: 0, height: 175}`. -/
def zeroWeightBody : Obj := [("weight", Val.ofRat 0), ("height", Val.ofRat 175)]

/-- The body `{weight: -0.25, height: 100}`. -/
def negativeWeightBody : Obj := [("weight", Val.ofRat (-1 / 4)), ("height", Val.ofRat 100)]

/-- The body `{patient_id: "p1", doctor_id: "d1", weight: 70, height: 175}`. -/
def plainBody : Obj :=
  [("patient_id", Val.str "p1"), ("doctor_id", Val.str "d1"), ("weight", Val.ofRat 70),
   ("height", Val.ofRat 175)]

/-- The body `{weight: 70, height: 175, bmi: 0}`. -/
def zeroBmiBody : Obj :=
  [("weight", Val.ofRat 70), ("height", Val.ofRat 175), ("bmi", Val.ofRat 0)]

/-- The body `{weight: 70, height: 175, bmi: 25.0}`. -/
def suppliedBmiBody : Obj :=
  [("weight", Val.ofRat 70), ("height", Val.ofRat 175), ("bmi", Val.ofRat 25)]

/-- A stored row with weight `70` and height `180`. -/
def storedRow : Obj := [("weight", Val.ofRat 70), ("height", Val.ofRat 180)]

/-- The update payload `{weight: 0, height: 170}`. -/
def zeroWeightUpdate : Obj := [("weight", Val.ofRat 0), ("height", Val.ofRat 170)]

/-- The update payload `{weight: 80}`. -/
def weightOnlyUpdate : Obj := [("weight", Val.ofRat 80)]

/-- The update payload `{notes: "after exercise", heart_rate: 88}`. -/
def notesUpdate : Obj := [("notes", Val.str "after exercise"), ("heart_rate", Val.ofRat 88)]

/-! ## Metrics, request handlers and numeric text -/

/-- The five metrics of the summary. -/
inductive Metric where
  | bloodPressure
  | temperature
  | weight
  | heartRate
  | oxygenSaturation
  deriving DecidableEq

namespace Metric

/-- The test of the loop body that admits a row to the metric. -/
def passes : Metric → Vital → Bool
  | bloodPressure, v =>
    intTruthy v.blood_pressure_systolic && intTruthy v.blood_pressure_diastolic
  | temperature, v => v.temperature.truthy
  | weight, v => v.weight.truthy
  | heartRate, v => intTruthy v.heart_rate
  | oxygenSaturation, v => intTruthy v.oxygen_saturation

/-- The row carries the metric: its column holds a value, that is, it is neither `NULL` nor
`undefined` (for blood pressure, both columns hold one). -/
def recorded : Metric → Vital → Bool
  | bloodPressure, v => v.blood_pressure_systolic.isSome && v.blood_pressure_diastolic.isSome
  | temperature, v => decide (v.temperature ≠ Val.null ∧ v.temperature ≠ Val.undefined)
  | weight, v => decide (v.weight ≠ Val.null ∧ v.weight ≠ Val.undefined)
  | heartRate, v => v.heart_rate.isSome
  | oxygenSaturation, v => v.oxygen_saturation.isSome

/-- The two summaries agree on the metric: same average (both averages for blood pressure) and
same readings. -/
def sameIn : Metric → Trends → Trends → Prop
  | bloodPressure, s, t => s.blood_pressure = t.blood_pressure
  | temperature, s, t => s.temperature = t.temperature
  | weight, s, t => s.weight = t.weight
  | heartRate, s, t => s.heart_rate = t.heart_rate
  | oxygenSaturation, s, t => s.oxygen_saturation = t.oxygen_saturation

/-- The summary is zero-filled on the metric: the average is the number `0` and there are no
readings. -/
def zeroIn : Metric → Trends → Prop
  | bloodPressure, t =>
    t.blood_pressure.avg_systolic = 0 ∧ t.blood_pressure.avg_diastolic = 0 ∧
      t.blood_pressure.readings = []
  | temperature, t => t.temperature.avg = Val.num (Num.fin 0) ∧ t.temperature.readings = []
  | weight, t => t.weight.avg = Val.num (Num.fin 0) ∧ t.weight.readings = []
  | heartRate, t => t.heart_rate.avg = 0 ∧ t.heart_rate.readings = []
  | oxygenSaturation, t => t.oxygen_saturation.avg = 0 ∧ t.oxygen_saturation.readings = []

end Metric

/-- Two rows in which nothing is recorded. -/
def blankRows : List Vital :=
  [Vital.blank "2024-05-02T09:00:00Z", Vital.blank "2024-05-01T09:00:00Z"]

/-- The BMI as the record invariant words it: `weight / (height in metres)^2`, rounded to one
decimal place (nearest tenth, a tie going up). -/
def roundedBmi (weight height : ℚ) : ℚ :=
  (roundHalfUp (weight / (height / 100) ^ 2 * 10) : ℚ) / 10

/-- The `bmi` among the fields of the `update` call of a run, if the run reached it. -/
def writtenBmi (run : Except String (List StoreCall)) : Option Val :=
  (writtenFields run).map (fun fields => fields.get "bmi")

/-- The body `{patient_id: "p1", doctor_id: "d1", height: 175}`. -/
def heightOnlyBody : Obj :=
  [("patient_id", Val.str "p1"), ("doctor_id", Val.str "d1"), ("height", Val.ofRat 175)]

/-- The body `{weight: true, height: 175}`. -/
def booleanWeightBody : Obj := [("weight", Val.bool true), ("height", Val.ofRat 175)]

/-- The body `{weight: " ", height: 175}`, the weight being a single space. -/
def blankWeightBody : Obj := [("weight", Val.str " "), ("height", Val.ofRat 175)]

/-- The body `{weight: "abc", height: 175}`. -/
def textWeightBody : Obj := [("weight", Val.str "abc"), ("height", Val.ofRat 175)]

/-- The update payload `{bmi: 30}`. -/
def bmiOnlyUpdate : Obj := [("bmi", Val.ofRat 30)]

/-- The update payload `{height: "abc"}`. -/
def textHeightUpdate : Obj := [("height", Val.str "abc")]

/-- The statement `delete o.k`: the property is removed, the others stay in order. -/
def Obj.delete (o : Obj) (k : String) : Obj :=
  o.filter (fun p => decide (p.1 ≠ k))

/-- The JSON body a handler of the vitals controller sends. -/
inductive ReplyBody where
  | error (error : String) (details : Option String)
  | vitals (message : String) (vitals : Obj)
  deriving DecidableEq

/-- What a handler of the vitals controller sends: `res.status(status).json(body)`. -/
structure Reply where
  status : ℕ
  body : ReplyBody
  deriving DecidableEq

/-- The `catch` block of the handlers: status 500 with the message of the error. -/
def internalServerError (details : String) : Reply :=
  { status := 500, body := ReplyBody.error "Internal server error" (some details) }

/-- The handler `recordVitals`: the answer sent and the calls made on the store. `answer` is
what the store answers the insert with: the created row, or an error, which `create` throws. -/
def recordVitals (answer : Except String Obj) (vitalsData : Obj) (t1 t2 t3 : String) :
    Reply × List StoreCall :=
  if !(vitalsData.get "patient_id").truthy || !(vitalsData.get "doctor_id").truthy then
    ({ status := 400, body := ReplyBody.error "Patient ID and Doctor ID are required" none }, [])
  else
    (match answer with
     | Except.ok vitals =>
       { status := 201, body := ReplyBody.vitals "Vitals recorded successfully" vitals }
     | Except.error details => internalServerError details,
     VitalsModel.create vitalsData t1 t2 t3)

/-- The names removed from the body by `updateVitals`. -/
def protectedFields : List String :=
  ["id", "patient_id", "doctor_id", "recorded_at", "created_at"]

/-- The object `updates` of `updateVitals` after its five `delete` statements. -/
def updateVitals.updates (body : Obj) : Obj :=
  ((((body.delete "id").delete "patient_id").delete "doctor_id").delete "recorded_at").delete
    "created_at"

/-- The handler `updateVitals`: the answer sent and the run of `VitalsModel.update` on the
stripped body. `current` is what the store answers the select with, `answer` what it answers
the write with. -/
def updateVitals (current : Option Obj) (answer : Except String Obj) (vitalsId : String)
    (body : Obj) (now : String) : Reply × Except String (List StoreCall) :=
  let run := VitalsModel.update current vitalsId (updateVitals.updates body) now
  (match run with
   | Except.error details => internalServerError details
   | Except.ok _ =>
     match answer with
     | Except.ok updatedVitals =>
       { status := 200, body := ReplyBody.vitals "Vitals updated successfully" updatedVitals }
     | Except.error details => internalServerError details,
   run)

/-- The body `{patient_id: 0, doctor_id: "d1", heart_rate: 72}`. -/
def zeroPatientBody : Obj :=
  [("patient_id", Val.ofRat 0), ("doctor_id", Val.str "d1"), ("heart_rate", Val.ofRat 72)]

/-- The body `{id: "v9", patient_id: "p2", weight: 80, created_at: "2020-01-01"}`. -/
def tamperingBody : Obj :=
  [("id", Val.str "v9"), ("patient_id", Val.str "p2"), ("weight", Val.ofRat 80),
   ("created_at", Val.str "2020-01-01")]

/-- The steps of `parseInt` after the leading white space is gone, with no radix given: a
sign is read, a `0x` or `0X` prefix selects radix 16, and the longest run of digits of the
radix is read; `NaN` if that run is empty. The result is the integer read, rounded to a
double. -/
def parseIntChars (t : List Char) : Num :=
  let sign : ℚ := if t.head? = some '-' then -1 else 1
  let r : List Char := if t.head? = some '-' ∨ t.head? = some '+' then t.tail else t
  if ['0', 'x'] <+: r ∨ ['0', 'X'] <+: r then
    (Num.fin sign).mul (parseRadix 16 ((r.drop 2).takeWhile (fun c => (radixDigit 16 c).isSome)))
  else
    let ds := (r.span Char.isDigit).1
    if ds = [] then Num.nan else Num.ofRat (sign * (digitsValue ds : ℚ))

/-- `parseInt` of a string: leading white space is skipped, then the integer is read. -/
def parseIntString (s : String) : Num :=
  parseIntChars (s.data.dropWhile isStrWhiteSpaceChar)

/-- `parseInt` of a query parameter, which is a string or absent (`undefined`). -/
def parseInt : Option String → Num
  | some s => parseIntString s
  | none => Num.nan

/-- The local `limit` of `getVitalsTrends`: `parseInt(req.query.limit) || 10`. -/
def getVitalsTrends.limit (limit : Option String) : Num :=
  if (parseInt limit).truthy then parseInt limit else Num.fin 10

/-- The query `getByPatientId` puts to the store: the rows of the patient, newest first, at
most `limit` of them. -/
structure VitalsQuery where
  patient_id : String
  ascending : Bool
  limit : Num
  deriving DecidableEq

/-- The query of `VitalsModel.getByPatientId` for a given `limit` argument. -/
def VitalsModel.getByPatientId (patientId : String) (limit : Num) : VitalsQuery :=
  { patient_id := patientId, ascending := false, limit := limit }

/-- The query `getVitalsTrends` puts to the store. -/
def getVitalsTrends.query (patientId : String) (limit : Option String) : VitalsQuery :=
  VitalsModel.getByPatientId patientId (getVitalsTrends.limit limit)

/-- The decimal text of an integer: a minus sign if it is negative, then its digits. -/
def intText (n : ℤ) : String :=
  String.mk ((if n < 0 then ['-'] else []) ++ Nat.toDigits 10 n.natAbs)

/-- Whenever the contributing temperatures (respectively weights) are decimal text, the
reported average is `toFixed(1)` of the mean, in double arithmetic, of the numbers the texts
denote, each rounded to a double; a row whose value is decimal text contributes the double
nearest to the number its text denotes; and when the texts denote at most a thousand numbers
between `1` and `1000`, the reported average is fixed-point text with one digit after the
point, denoting a decimal within one twentieth, up to `10^-9`, of the exact arithmetic mean of
the numbers denoted. -/
def DecimalTextAveraged (vitals : List Vital) (t : Trends) : Prop :=
  (∀ qs : List ℚ, tempContributors vitals ≠ [] →
    List.Forall₂ (fun v q => ∃ s, v.temperature = Val.str s ∧ IsDecimalText s q)
      (tempContributors vitals) qs →
    t.temperature.avg = Val.str (toFixed1 (numMean (qs.map Num.ofRat)))) ∧
  (∀ qs : List ℚ, weightContributors vitals ≠ [] →
    List.Forall₂ (fun v q => ∃ s, v.weight = Val.str s ∧ IsDecimalText s q)
      (weightContributors vitals) qs →
    t.weight.avg = Val.str (toFixed1 (numMean (qs.map Num.ofRat)))) ∧
  (∀ v ∈ vitals, ∀ s q, v.temperature = Val.str s → IsDecimalText s q →
    v ∈ tempContributors vitals ∧ parseFloat v.temperature = Num.ofRat q) ∧
  (∀ v ∈ vitals, ∀ s q, v.weight = Val.str s → IsDecimalText s q →
    v ∈ weightContributors vitals ∧ parseFloat v.weight = Num.ofRat q) ∧
  (∀ qs : List ℚ, tempContributors vitals ≠ [] →
    List.Forall₂ (fun v q => ∃ s, v.temperature = Val.str s ∧ IsDecimalText s q)
      (tempContributors vitals) qs →
    (∀ q ∈ qs, 1 ≤ q ∧ q ≤ 1000) → qs.length ≤ 1000 →
    ∃ s r, t.temperature.avg = Val.str s ∧ isFixedOneDecimal s = true ∧
      IsDecimalText s r ∧ |r - mean qs| ≤ 1 / 20 + 1 / 10 ^ 9) ∧
  (∀ qs : List ℚ, weightContributors vitals ≠ [] →
    List.Forall₂ (fun v q => ∃ s, v.weight = Val.str s ∧ IsDecimalText s q)
      (weightContributors vitals) qs →
    (∀ q ∈ qs, 1 ≤ q ∧ q ≤ 1000) → qs.length ≤ 1000 →
    ∃ s r, t.weight.avg = Val.str s ∧ isFixedOneDecimal s = true ∧
      IsDecimalText s r ∧ |r - mean qs| ≤ 1 / 20 + 1 / 10 ^ 9)

/-- Two rows with temperatures held as the texts `"98.6"` and `"99.2"`. -/
def textTemperatureRows : List Vital :=
  [{ Vital.blank "2024-05-02T09:00:00Z" with temperature := Val.str "98.6" },
   { Vital.blank "2024-05-01T09:00:00Z" with temperature := Val.str "99.2" }]

/-! ## Loop state, BMI conditions, doctor handlers and the date of birth -/

namespace Metric

/-- The row's value for the metric is the number `0` (for blood pressure: its systolic or its
diastolic value). -/
def isZero : Metric → Vital → Prop
  | bloodPressure, v =>
    v.blood_pressure_systolic = some 0 ∨ v.blood_pressure_diastolic = some 0
  | temperature, v => v.temperature = Val.num (Num.fin 0)
  | weight, v => v.weight = Val.num (Num.fin 0)
  | heartRate, v => v.heart_rate = some 0
  | oxygenSaturation, v => v.oxygen_saturation = some 0

/-- Two states of the loop agree on the metric: same sum (both sums for blood pressure), same
counter and same readings. -/
def sameAcc : Metric → Acc → Acc → Prop
  | bloodPressure, a, b =>
    a.avg_systolic = b.avg_systolic ∧ a.avg_diastolic = b.avg_diastolic ∧
      a.bpCount = b.bpCount ∧ a.bpReadings = b.bpReadings
  | temperature, a, b =>
    a.tempAvg = b.tempAvg ∧ a.tempCount = b.tempCount ∧ a.tempReadings = b.tempReadings
  | weight, a, b =>
    a.weightAvg = b.weightAvg ∧ a.weightCount = b.weightCount ∧
      a.weightReadings = b.weightReadings
  | heartRate, a, b =>
    a.hrAvg = b.hrAvg ∧ a.hrCount = b.hrCount ∧ a.hrReadings = b.hrReadings
  | oxygenSaturation, a, b =>
    a.o2Avg = b.o2Avg ∧ a.o2Count = b.o2Count ∧ a.o2Readings = b.o2Readings

/-- The counter of the metric in a state of the loop (`bpCount`, `tempCount`, …). -/
def count : Metric → Acc → ℕ
  | bloodPressure, a => a.bpCount
  | temperature, a => a.tempCount
  | weight, a => a.weightCount
  | heartRate, a => a.hrCount
  | oxygenSaturation, a => a.o2Count

/-- The length of the metric's readings list in a summary. -/
def readingsLength : Metric → Trends → ℕ
  | bloodPressure, t => t.blood_pressure.readings.length
  | temperature, t => t.temperature.readings.length
  | weight, t => t.weight.readings.length
  | heartRate, t => t.heart_rate.readings.length
  | oxygenSaturation, t => t.oxygen_saturation.readings.length

end Metric

/-- The integers an integer column holds over the given rows. -/
def contributingValues (f : Vital → Option ℤ) (vs : List Vital) : List ℤ :=
  vs.map (fun v => intValue (f v))

/-- The integer is the least element of the list. -/
def IsMinimumOf (xs : List ℤ) (m : ℤ) : Prop := m ∈ xs ∧ ∀ x ∈ xs, m ≤ x

/-- The integer is the greatest element of the list. -/
def IsMaximumOf (xs : List ℤ) (m : ℤ) : Prop := m ∈ xs ∧ ∀ x ∈ xs, x ≤ m

/-- The number lies between the least and the greatest element of the list, inclusive. -/
def WithinRangeOf (xs : List ℤ) (avg : ℚ) : Prop :=
  ∀ lo hi : ℤ, IsMinimumOf xs lo → IsMaximumOf xs hi → (lo : ℚ) ≤ avg ∧ avg ≤ (hi : ℚ)

/-- Each of the four rounded averages of `t` lies between the least and the greatest of the
values that contribute to it. -/
def RoundedAveragesWithinRange (vitals : List Vital) (t : Trends) : Prop :=
  WithinRangeOf (contributingValues (fun v => v.blood_pressure_systolic) (bpContributors vitals))
    t.blood_pressure.avg_systolic ∧
  WithinRangeOf (contributingValues (fun v => v.blood_pressure_diastolic) (bpContributors vitals))
    t.blood_pressure.avg_diastolic ∧
  WithinRangeOf (contributingValues (fun v => v.heart_rate) (hrContributors vitals))
    t.heart_rate.avg ∧
  WithinRangeOf (contributingValues (fun v => v.oxygen_saturation) (o2Contributors vitals))
    t.oxygen_saturation.avg

/-- A row whose heart rate is recorded as `0`. -/
def zeroHeartRateRow : Vital :=
  { Vital.blank "2024-05-02T09:00:00Z" with heart_rate := some 0 }

/-- The divisor of the BMI quotient, `heightInMeters * heightInMeters`. -/
def bmiDivisor (height : Val) : Num :=
  (height.toNumber.div (Num.fin 100)).mul (height.toNumber.div (Num.fin 100))

/-- The condition under which `create` evaluates the BMI quotient (the `if` of line 48). -/
def VitalsModel.createComputes (vitalsData : Obj) : Bool :=
  (vitalsData.get "weight").truthy && (vitalsData.get "height").truthy &&
    !(vitalsData.get "bmi").truthy

/-- The condition under which `update`, on a stored row, evaluates the BMI quotient: the outer
`if` on the payload and the inner `if` on the merged weight and height. -/
def VitalsModel.updateComputes (current updates : Obj) : Bool :=
  ((updates.get "weight").truthy || (updates.get "height").truthy) &&
    (((updates.get "weight").or (current.get "weight")).truthy &&
      ((updates.get "height").or (current.get "height")).truthy)

/-- The update payload `{weight: 0, bmi: 30}`. -/
def zeroWeightBmiUpdate : Obj := [("weight", Val.ofRat 0), ("bmi", Val.ofRat 30)]

/-- The update payload `{weight: 80, bmi: 30}`. -/
def weightAndBmiUpdate : Obj := [("weight", Val.ofRat 80), ("bmi", Val.ofRat 30)]

/-- The body `{weight: 70, height: 0}`. -/
def zeroHeightBody : Obj := [("weight", Val.ofRat 70), ("height", Val.ofRat 0)]

/-- The names `create` sets itself in the row it inserts. -/
def createdFields : List String := ["bmi", "recorded_at", "created_at", "updated_at"]

/-- The body `{patient_id: "p1", heart_rate: 72, recorded_at: "1999-01-01T00:00:00.000Z"}`. -/
def backdatedBody : Obj :=
  [("patient_id", Val.str "p1"), ("heart_rate", Val.ofRat 72),
   ("recorded_at", Val.str "1999-01-01T00:00:00.000Z")]

/-- Strict equality, `a === b`, of two values. -/
def Val.strictEq : Val → Val → Bool
  | Val.undefined, Val.undefined => true
  | Val.null, Val.null => true
  | Val.bool a, Val.bool b => a == b
  | Val.num (Num.fin a), Val.num (Num.fin b) => decide (a = b)
  | Val.num Num.posInf, Val.num Num.posInf => true
  | Val.num Num.negInf, Val.num Num.negInf => true
  | Val.str a, Val.str b => decide (a = b)
  | _, _ => false

/-- The JSON body a handler of the doctor controller sends: an error, or
`{success: true, message?, doctor}`. -/
inductive DoctorReplyBody where
  | error (error : String) (details : Option String)
  | doctor (message : Option String) (doctor : Obj)
  deriving DecidableEq

/-- What a handler of the doctor controller sends: `res.status(status).json(body)`. -/
structure DoctorReply where
  status : ℕ
  body : DoctorReplyBody
  deriving DecidableEq

/-- The `catch` block of the doctor handlers: status 500 with the message of the error. -/
def doctorServerError (details : String) : DoctorReply :=
  { status := 500, body := DoctorReplyBody.error "Internal server error" (some details) }

/-- A call made on the store client for the `doctors` table. -/
inductive DoctorCall where
  | selectByDoctorId (doctorRegId : Val)
  | selectById (doctorId : String)
  | update (doctorId : Val) (fields : Obj)
  deriving DecidableEq

namespace DoctorModel

/-- The store call of `DoctorModel.getByDoctorId`. -/
def getByDoctorId (doctorRegId : Val) : DoctorCall := DoctorCall.selectByDoctorId doctorRegId

/-- The store call of `DoctorModel.getById`. -/
def getById (doctorId : String) : DoctorCall := DoctorCall.selectById doctorId

/-- The store call of `DoctorModel.update`: the payload with `updated_at` set. -/
def update (doctorId : String) (updates : Obj) (now : String) : DoctorCall :=
  DoctorCall.update (Val.str doctorId) (updates.set "updated_at" (Val.str now))

/-- The store call of `DoctorModel.updateLastLogin`. -/
def updateLastLogin (doctorId : Val) (now : String) : DoctorCall :=
  DoctorCall.update doctorId [("last_login", Val.str now)]

end DoctorModel

/-- The handler `loginDoctor`: the answer sent and the calls made on the store. `fetched` is
what the store answers the lookup with (an error, which is thrown, or `data`, `none` being
`null`); `touched` is what it answers the write of `last_login` with. -/
def loginDoctor (fetched : Except String (Option Obj)) (touched : Except String Obj)
    (body : Obj) (now : String) : DoctorReply × List DoctorCall :=
  if !(body.get "doctor_id").truthy || !(body.get "password").truthy then
    ({ status := 400, body := DoctorReplyBody.error "Doctor ID and password are required" none },
      [])
  else
    match fetched with
    | Except.error details =>
      (doctorServerError details, [DoctorModel.getByDoctorId (body.get "doctor_id")])
    | Except.ok none =>
      ({ status := 404, body := DoctorReplyBody.error "Doctor not found" none },
        [DoctorModel.getByDoctorId (body.get "doctor_id")])
    | Except.ok (some doctor) =>
      if !(doctor.get "password_hash").strictEq (body.get "password") then
        ({ status := 401, body := DoctorReplyBody.error "Invalid credentials" none },
          [DoctorModel.getByDoctorId (body.get "doctor_id")])
      else if !(doctor.get "is_verified").truthy ||
          !(doctor.get "verification_status").strictEq (Val.str "verified") then
        ({ status := 403, body := DoctorReplyBody.error "Doctor account is not verified" none },
          [DoctorModel.getByDoctorId (body.get "doctor_id")])
      else
        (match touched with
         | Except.error details => doctorServerError details
         | Except.ok _ =>
           { status := 200,
             body := DoctorReplyBody.doctor (some "Login successful")
               (doctor.delete "password_hash") },
         [DoctorModel.getByDoctorId (body.get "doctor_id"),
          DoctorModel.updateLastLogin (doctor.get "id") now])

/-- The handler `getDoctorProfile`, given what the store answers the lookup with. -/
def getDoctorProfile (fetched : Except String (Option Obj)) (doctorId : String) :
    DoctorReply × List DoctorCall :=
  (match fetched with
   | Except.error details => doctorServerError details
   | Except.ok none => { status := 404, body := DoctorReplyBody.error "Doctor not found" none }
   | Except.ok (some doctor) =>
     { status := 200, body := DoctorReplyBody.doctor none (doctor.delete "password_hash") },
   [DoctorModel.getById doctorId])

/-- The names removed from the body by `updateDoctorProfile`. -/
def protectedDoctorFields : List String :=
  ["id", "doctor_id", "password_hash", "is_verified", "verification_status", "created_at"]

/-- The object `updates` of `updateDoctorProfile` after its six `delete` statements. -/
def updateDoctorProfile.updates (body : Obj) : Obj :=
  (((((body.delete "id").delete "doctor_id").delete "password_hash").delete "is_verified").delete
    "verification_status").delete "created_at"

/-- The handler `updateDoctorProfile`, given what the store answers the write with (an error,
which is thrown, or `data`; on `null` the `delete` that follows throws). -/
def updateDoctorProfile (answer : Except String (Option Obj)) (doctorId : String) (body : Obj)
    (now : String) : DoctorReply × List DoctorCall :=
  (match answer with
   | Except.error details => doctorServerError details
   | Except.ok none => doctorServerError "TypeError: Cannot convert undefined or null to object"
   | Except.ok (some updatedDoctor) =>
     { status := 200,
       body := DoctorReplyBody.doctor (some "Profile updated successfully")
         (updatedDoctor.delete "password_hash") },
   [DoctorModel.update doctorId (updateDoctorProfile.updates body) now])

/-- The doctor object of a successful answer, if the answer is one. -/
def DoctorReply.returnedDoctor (r : DoctorReply) : Option Obj :=
  match r.body with
  | DoctorReplyBody.doctor _ doctor => if r.status = 200 then some doctor else none
  | DoctorReplyBody.error _ _ => none

/-- Every check of `loginDoctor` passes: both inputs are truthy, the store returns a doctor,
the stored `password_hash` is strictly equal to the password, `is_verified` is truthy and
`verification_status` is `'verified'`. -/
def LoginChecksPass (fetched : Except String (Option Obj)) (body : Obj) : Prop :=
  (body.get "doctor_id").truthy = true ∧ (body.get "password").truthy = true ∧
  ∃ doctor, fetched = Except.ok (some doctor) ∧
    (doctor.get "password_hash").strictEq (body.get "password") = true ∧
    (doctor.get "is_verified").truthy = true ∧
    (doctor.get "verification_status").strictEq (Val.str "verified") = true

/-- The call that writes `last_login`. -/
def DoctorCall.writesLastLogin : DoctorCall → Bool
  | DoctorCall.update _ fields => (fields.lookup "last_login").isSome
  | _ => false

/-- A stored doctor, verified, with password `"s3cret"`. -/
def verifiedDoctor : Obj :=
  [("id", Val.str "u1"), ("doctor_id", Val.str "D1"), ("name", Val.str "A. Rao"),
   ("password_hash", Val.str "s3cret"), ("is_verified", Val.bool true),
   ("verification_status", Val.str "verified")]

/-- The same stored doctor with another password. -/
def verifiedDoctorOtherPassword : Obj :=
  [("id", Val.str "u1"), ("doctor_id", Val.str "D1"), ("name", Val.str "A. Rao"),
   ("password_hash", Val.str "hunter2"), ("is_verified", Val.bool true),
   ("verification_status", Val.str "verified")]

/-- The login body `{doctor_id: "D1", password: "s3cret"}`. -/
def loginBody : Obj := [("doctor_id", Val.str "D1"), ("password", Val.str "s3cret")]

/-- The login body `{doctor_id: 0, password: "s3cret"}`. -/
def zeroIdLoginBody : Obj := [("doctor_id", Val.ofRat 0), ("password", Val.str "s3cret")]

/-- The profile body `{name: "B. Rao", password_hash: "x", is_verified: true}`. -/
def escalatingBody : Obj :=
  [("name", Val.str "B. Rao"), ("password_hash", Val.str "x"), ("is_verified", Val.bool true)]

/-- A calendar date: year, month (`1` to `12`) and day of the month. -/
structure CalDate where
  year : ℤ
  month : ℤ
  day : ℤ
  deriving DecidableEq

/-- The year is a leap year of the Gregorian calendar. -/
def isLeapYear (y : ℤ) : Bool :=
  (y % 4 = 0 && y % 100 != 0) || y % 400 = 0

/-- The number of days of a month. -/
def daysInMonth (y m : ℤ) : ℤ :=
  if m = 2 then (if isLeapYear y then 29 else 28)
  else if m = 4 ∨ m = 6 ∨ m = 9 ∨ m = 11 then 30
  else 31

namespace CalDate

/-- The date exists in the calendar. -/
def valid (d : CalDate) : Prop :=
  1 ≤ d.month ∧ d.month ≤ 12 ∧ 1 ≤ d.day ∧ d.day ≤ daysInMonth d.year d.month

/-- The day before. -/
def previous (d : CalDate) : CalDate :=
  if 1 < d.day then { d with day := d.day - 1 }
  else if 1 < d.month then
    { year := d.year, month := d.month - 1, day := daysInMonth d.year (d.month - 1) }
  else { year := d.year - 1, month := 12, day := 31 }

end CalDate

/-- The local calendar date of `new Date("YYYY-MM-DD")`. A date-only string is read as midnight
UTC of that date, and `getFullYear`, `getMonth`, `getDate` give local time: with
`offsetMinutes` the offset of local time from UTC at that instant (`+330` in India, `-300` in
Bogotá; always between twelve hours behind and fourteen ahead), the local date is the same
date at or east of UTC and the day before west of it. -/
def localDateOfUtcMidnight (offsetMinutes : ℤ) (d : CalDate) : CalDate :=
  if offsetMinutes < 0 then d.previous else d

/-- The `dateOfBirth` branch of `validateForm`: the error it records, if any. `dateOfBirth` is
the value of the date input, empty (`none`) or a date; `today` is the local calendar date of
`new Date()`. -/
def validateForm.dateOfBirthError (offsetMinutes : ℤ) (today : CalDate)
    (dateOfBirth : Option CalDate) : Option String :=
  match dateOfBirth with
  | none => some "Date of birth is required"
  | some entered =>
    let birthDate := localDateOfUtcMidnight offsetMinutes entered
    let age := today.year - birthDate.year
    let monthDiff := (today.month - 1) - (birthDate.month - 1)
    let age := if monthDiff < 0 ∨ (monthDiff = 0 ∧ today.day < birthDate.day) then age - 1 else age
    if age < 18 then some "You must be 18 years or older to register" else none

/-- The age of a person born on `birth` on the date `today`: the difference of the calendar
years, less one when this year's birthday (month, then day of the month) is still to come. -/
def ageOn (birth today : CalDate) : ℤ :=
  today.year - birth.year -
    (if today.month < birth.month ∨ (today.month = birth.month ∧ today.day < birth.day) then 1
     else 0)

/-! ## Double precision: vocabulary and worked inputs -/

/-- The BMI of a weight and a height that are finite numbers, as the expression
`Math.round((weight / (heightInMeters * heightInMeters)) * 10) / 10` gives it with
`heightInMeters = height / 100`: the two divisions, the two products and the last division are
each rounded to a double, and `Math.round` is exact. -/
def doubleBmi (w h : ℚ) : Num :=
  let heightInMeters := (Num.fin h).div (Num.fin 100)
  ((((Num.fin w).div (heightInMeters.mul heightInMeters)).mul (Num.fin 10)).round).div
    (Num.fin 10)

/-- The body `{weight: 48, height: 160}`, whose exact quotient `18.75` is halfway between two
tenths. -/
def halfwayBody : Obj := [("weight", Val.ofRat 48), ("height", Val.ofRat 160)]

/-- A stored row with weight `70` and height `160`. -/
def storedRow160 : Obj := [("weight", Val.ofRat 70), ("height", Val.ofRat 160)]

/-- The body `{weight: 70, height: 1e-162}`. -/
def tinyHeightBody : Obj := [("weight", Val.ofRat 70), ("height", Val.ofRat (1 / 10 ^ 162))]

/-- The update payload `{height: 1e-162}`. -/
def tinyHeightUpdate : Obj := [("height", Val.ofRat (1 / 10 ^ 162))]

/-- The body `{weight: "70", height: "175"}`, both values being numeric text. -/
def numericTextBody : Obj := [("weight", Val.str "70"), ("height", Val.str "175")]

/-- Two rows with temperatures held as the texts `"96.0"` and `"96.1"`, the first of them with
the weight `"70.35"`. -/
def halfwayTextRows : List Vital :=
  [{ Vital.blank "2024-05-02T09:00:00Z" with
     temperature := Val.str "96.0", weight := Val.str "70.35" },
   { Vital.blank "2024-05-01T09:00:00Z" with temperature := Val.str "96.1" }]

/-- Each formatted average of `t` denotes a decimal within one twentieth, up to `10^-9`, of the
exact arithmetic mean of the contributing values, whenever these are at most a thousand finite
numbers between `1` and `1000` (`xs` lists them in input order). -/
def DecimalAveragesNearMean (vitals : List Vital) (t : Trends) : Prop :=
  (∀ xs : List ℚ, tempContributors vitals ≠ [] →
    (tempContributors vitals).map (fun v => parseFloat v.temperature) = xs.map Num.fin →
    (∀ x ∈ xs, 1 ≤ x ∧ x ≤ 1000) → xs.length ≤ 1000 →
    ∃ s q, t.temperature.avg = Val.str s ∧ isFixedOneDecimal s = true ∧
      IsDecimalText s q ∧ |q - mean xs| ≤ 1 / 20 + 1 / 10 ^ 9) ∧
  (∀ xs : List ℚ, weightContributors vitals ≠ [] →
    (weightContributors vitals).map (fun v => parseFloat v.weight) = xs.map Num.fin →
    (∀ x ∈ xs, 1 ≤ x ∧ x ≤ 1000) → xs.length ≤ 1000 →
    ∃ s q, t.weight.avg = Val.str s ∧ isFixedOneDecimal s = true ∧
      IsDecimalText s q ∧ |q - mean xs| ≤ 1 / 20 + 1 / 10 ^ 9)

/-! ## Rounding to a double -/

theorem floor_le_roundHalfEven (x : ℚ) : ⌊x⌋ ≤ roundHalfEven x := by
  unfold roundHalfEven
  split_ifs <;> omega

theorem roundHalfEven_le_floor_add_one (x : ℚ) : roundHalfEven x ≤ ⌊x⌋ + 1 := by
  unfold roundHalfEven
  split_ifs <;> omega

theorem roundHalfEven_near (x : ℚ) : |((roundHalfEven x : ℤ) : ℚ) - x| ≤ 1 / 2 := by
  have h1 : ((⌊x⌋ : ℤ) : ℚ) ≤ x := Int.floor_le x
  have h2 : x < ((⌊x⌋ : ℤ) : ℚ) + 1 := Int.lt_floor_add_one x
  unfold roundHalfEven
  rw [abs_le]
  split_ifs with a b c
  · constructor <;> linarith
  · push_cast; constructor <;> linarith
  · have a' := not_lt.mp a
    constructor <;> linarith
  · have b' := not_lt.mp b
    push_cast; constructor <;> linarith

theorem roundHalfEven_eq_of_lt (x : ℚ) (m : ℤ) (h : |x - (m : ℚ)| < 1 / 2) :
    roundHalfEven x = m := by
  have h1 := roundHalfEven_near x
  rw [abs_le] at h1
  rw [abs_lt] at h
  have h2 : |((roundHalfEven x - m : ℤ) : ℚ)| < 1 := by
    rw [abs_lt]; push_cast; constructor <;> linarith [h1.1, h1.2, h.1, h.2]
  have h3 : |roundHalfEven x - m| < 1 := by exact_mod_cast h2
  have := Int.abs_lt_one_iff.mp h3
  omega

theorem roundHalfEven_intCast (n : ℤ) : roundHalfEven (n : ℚ) = n :=
  roundHalfEven_eq_of_lt _ n (by simp)

theorem roundHalfEven_ge (x : ℚ) (n : ℤ) (h : (n : ℚ) ≤ x) : n ≤ roundHalfEven x :=
  le_trans (Int.le_floor.mpr h) (floor_le_roundHalfEven x)

theorem roundHalfEven_le (x : ℚ) (n : ℤ) (h : x ≤ (n : ℚ)) : roundHalfEven x ≤ n := by
  by_cases hx : x = ((⌊x⌋ : ℤ) : ℚ)
  · rw [hx, roundHalfEven_intCast]
    have : ((⌊x⌋ : ℤ) : ℚ) ≤ (n : ℚ) := by rw [← hx]; exact h
    exact_mod_cast this
  · have h1 : ((⌊x⌋ : ℤ) : ℚ) < x := lt_of_le_of_ne (Int.floor_le x) (fun e => hx e.symm)
    have h2 : ((⌊x⌋ : ℤ) : ℚ) < (n : ℚ) := lt_of_lt_of_le h1 h
    have h3 : ⌊x⌋ < n := by exact_mod_cast h2
    have := roundHalfEven_le_floor_add_one x
    omega

theorem abs_roundHalfEven_le (x : ℚ) (n : ℤ) (h : |x| ≤ (n : ℚ)) :
    |((roundHalfEven x : ℤ) : ℚ)| ≤ (n : ℚ) := by
  rw [abs_le] at h ⊢
  have h1 := roundHalfEven_le x n h.2
  have h2 := roundHalfEven_ge x (-n) (by push_cast; exact h.1)
  constructor
  · have : ((-n : ℤ) : ℚ) ≤ ((roundHalfEven x : ℤ) : ℚ) := by exact_mod_cast h2
    simpa using this
  · exact_mod_cast h1

theorem le_abs_roundHalfEven (x : ℚ) (n : ℤ) (h : (n : ℚ) ≤ |x|) :
    (n : ℚ) ≤ |((roundHalfEven x : ℤ) : ℚ)| := by
  rcases le_abs'.mp h with h | h
  · have h2 := roundHalfEven_le x (-n) (by push_cast; exact h)
    have : ((roundHalfEven x : ℤ) : ℚ) ≤ ((-n : ℤ) : ℚ) := by exact_mod_cast h2
    rw [le_abs']
    left
    simpa using this
  · have h1 := roundHalfEven_ge x n h
    rw [le_abs']
    right
    exact_mod_cast h1

theorem two_zpow_pos (k : ℤ) : (0 : ℚ) < 2 ^ k := zpow_pos (by norm_num) k

theorem two_zpow_le {a b : ℤ} (h : a ≤ b) : (2 : ℚ) ^ a ≤ 2 ^ b :=
  zpow_le_zpow_right₀ (by norm_num) h

theorem two_zpow_lt {a b : ℤ} (h : a < b) : (2 : ℚ) ^ a < 2 ^ b :=
  zpow_lt_zpow_right₀ (by norm_num) h

theorem two_zpow_eq_intCast (k : ℤ) (h : 0 ≤ k) : (2 : ℚ) ^ k = (((2 : ℤ) ^ k.toNat : ℤ) : ℚ) := by
  obtain ⟨n, rfl⟩ := Int.eq_ofNat_of_zero_le h
  simp

theorem log_eq_of_binade (a : ℚ) (k : ℤ) (h1 : 2 ^ k ≤ a) (h2 : a < 2 ^ (k + 1)) :
    Int.log 2 a = k := by
  have ha : 0 < a := lt_of_lt_of_le (two_zpow_pos k) h1
  have e1 : k ≤ Int.log 2 a := (Int.zpow_le_iff_le_log (by norm_num) ha).mp (by simpa using h1)
  have e2 : Int.log 2 a < k + 1 :=
    (Int.lt_zpow_iff_log_lt (by norm_num) ha).mp (by simpa using h2)
  omega

theorem zpow_log_le (a : ℚ) (ha : 0 < a) : (2 : ℚ) ^ Int.log 2 a ≤ a := by
  have := Int.zpow_log_le_self (b := 2) (by norm_num) ha
  simpa using this

theorem lt_zpow_log_succ (a : ℚ) : a < (2 : ℚ) ^ (Int.log 2 a + 1) := by
  have := Int.lt_zpow_succ_log_self (b := 2) (by norm_num) a
  simpa using this

theorem ulpExponent_ge (q : ℚ) : -1074 ≤ ulpExponent q := le_max_right _ _

theorem ulpExponent_of_binade (q : ℚ) (k : ℤ) (h1 : 2 ^ k ≤ |q|) (h2 : |q| < 2 ^ (k + 1)) :
    ulpExponent q = max (k - 52) (-1074) := by
  unfold ulpExponent
  rw [log_eq_of_binade _ k h1 h2]

/-- The exponent of the last place is at most `k` when `|q| ≤ 2^k` and `-1074 ≤ k`. -/
theorem ulpExponent_le_of_abs_le (q : ℚ) (k : ℤ) (hq : q ≠ 0) (hk : -1074 ≤ k)
    (h : |q| ≤ 2 ^ k) : ulpExponent q ≤ k := by
  unfold ulpExponent
  apply max_le _ hk
  have hpos : 0 < |q| := abs_pos.mpr hq
  have h1 := zpow_log_le |q| hpos
  have h2 : (2 : ℚ) ^ Int.log 2 |q| ≤ 2 ^ k := le_trans h1 h
  have h3 : Int.log 2 |q| ≤ k := (zpow_le_zpow_iff_right₀ (by norm_num : (1 : ℚ) < 2)).mp h2
  omega

theorem ulpExponent_le_log (q : ℚ) (h : -1074 ≤ Int.log 2 |q|) :
    ulpExponent q ≤ Int.log 2 |q| := by
  unfold ulpExponent
  apply max_le _ h
  omega

theorem roundedValue_zero : roundedValue 0 = 0 := by
  simp [roundedValue, roundHalfEven]

theorem Num.ofRat_eq (q : ℚ) :
    Num.ofRat q =
      if 2 ^ 1024 ≤ roundedValue q then Num.posInf
      else if roundedValue q ≤ -2 ^ 1024 then Num.negInf else Num.fin (roundedValue q) := rfl

theorem roundHalfEven_neg (x : ℚ) : roundHalfEven (-x) = -roundHalfEven x := by
  have h1 : ((⌊x⌋ : ℤ) : ℚ) ≤ x := Int.floor_le x
  have h2 : x < ((⌊x⌋ : ℤ) : ℚ) + 1 := Int.lt_floor_add_one x
  by_cases a : x - ⌊x⌋ < 1 / 2
  · have e : roundHalfEven x = ⌊x⌋ := by
      unfold roundHalfEven
      rw [if_pos a]
    rw [e]
    apply roundHalfEven_eq_of_lt
    rw [abs_lt]
    push_cast
    constructor <;> linarith
  by_cases b : 1 / 2 < x - ⌊x⌋
  · have e : roundHalfEven x = ⌊x⌋ + 1 := by
      unfold roundHalfEven
      rw [if_neg a, if_pos b]
    rw [e]
    apply roundHalfEven_eq_of_lt
    rw [abs_lt]
    push_cast
    constructor <;> linarith
  have hx : x - ⌊x⌋ = 1 / 2 := le_antisymm (not_lt.mp b) (not_lt.mp a)
  have hfl : ⌊-x⌋ = -⌊x⌋ - 1 := by
    rw [Int.floor_eq_iff]
    push_cast
    constructor <;> linarith
  have a' : ¬ (-x - ((-⌊x⌋ - 1 : ℤ) : ℚ) < 1 / 2) := by
    push_cast
    intro h
    linarith
  have b' : ¬ (1 / 2 < -x - ((-⌊x⌋ - 1 : ℤ) : ℚ)) := by
    push_cast
    intro h
    linarith
  have e1 : roundHalfEven x = if ⌊x⌋ % 2 = 0 then ⌊x⌋ else ⌊x⌋ + 1 := by
    simp only [roundHalfEven, a, b, if_false]
  have e2 : roundHalfEven (-x) =
      if (-⌊x⌋ - 1) % 2 = 0 then (-⌊x⌋ - 1) else (-⌊x⌋ - 1) + 1 := by
    simp only [roundHalfEven, hfl, a', b', if_false]
  rw [e1, e2]
  split_ifs <;> omega

theorem roundedValue_neg (q : ℚ) : roundedValue (-q) = -roundedValue q := by
  have hu : ulpExponent (-q) = ulpExponent q := by simp [ulpExponent]
  unfold roundedValue
  rw [hu, neg_div, roundHalfEven_neg]
  push_cast
  ring

theorem Num.ofRat_of_abs_lt (q : ℚ) (h : |roundedValue q| < 2 ^ 1024) :
    Num.ofRat q = Num.fin (roundedValue q) := by
  rw [abs_lt] at h
  rw [Num.ofRat_eq, if_neg (not_le.mpr h.2), if_neg (not_le.mpr h.1)]

theorem abs_roundedValue_le (q : ℚ) (k : ℤ) (hk : -1074 ≤ k) (h : |q| ≤ 2 ^ k) :
    |roundedValue q| ≤ 2 ^ k := by
  by_cases hq : q = 0
  · rw [hq, roundedValue_zero, abs_zero]
    exact (two_zpow_pos k).le
  have hu := ulpExponent_le_of_abs_le q k hq hk h
  have hp := two_zpow_pos (ulpExponent q)
  have hx : |q / 2 ^ ulpExponent q| ≤ 2 ^ (k - ulpExponent q) := by
    rw [abs_div, abs_of_pos hp, div_le_iff₀ hp, ← zpow_add₀ (by norm_num : (2 : ℚ) ≠ 0)]
    simpa using h
  rw [two_zpow_eq_intCast (k - ulpExponent q) (by omega)] at hx
  have hr := abs_roundHalfEven_le _ _ hx
  rw [← two_zpow_eq_intCast (k - ulpExponent q) (by omega)] at hr
  unfold roundedValue
  rw [abs_mul, abs_of_pos hp]
  calc |((roundHalfEven (q / 2 ^ ulpExponent q) : ℤ) : ℚ)| * 2 ^ ulpExponent q
      ≤ 2 ^ (k - ulpExponent q) * 2 ^ ulpExponent q := by
        exact mul_le_mul_of_nonneg_right hr hp.le
    _ = 2 ^ k := by
        rw [← zpow_add₀ (by norm_num : (2 : ℚ) ≠ 0)]; simp

theorem le_abs_roundedValue (q : ℚ) (k : ℤ) (hu : ulpExponent q ≤ k) (h : 2 ^ k ≤ |q|) :
    2 ^ k ≤ |roundedValue q| := by
  have hp := two_zpow_pos (ulpExponent q)
  have hx : 2 ^ (k - ulpExponent q) ≤ |q / 2 ^ ulpExponent q| := by
    rw [abs_div, abs_of_pos hp, le_div_iff₀ hp, ← zpow_add₀ (by norm_num : (2 : ℚ) ≠ 0)]
    simpa using h
  rw [two_zpow_eq_intCast (k - ulpExponent q) (by omega)] at hx
  have hr := le_abs_roundHalfEven _ _ hx
  rw [← two_zpow_eq_intCast (k - ulpExponent q) (by omega)] at hr
  unfold roundedValue
  rw [abs_mul, abs_of_pos hp]
  calc (2 : ℚ) ^ k = 2 ^ (k - ulpExponent q) * 2 ^ ulpExponent q := by
        rw [← zpow_add₀ (by norm_num : (2 : ℚ) ≠ 0)]; simp
    _ ≤ |((roundHalfEven (q / 2 ^ ulpExponent q) : ℤ) : ℚ)| * 2 ^ ulpExponent q := by
        exact mul_le_mul_of_nonneg_right hr hp.le

theorem abs_roundedValue_sub_le (q : ℚ) : |roundedValue q - q| ≤ 2 ^ ulpExponent q / 2 := by
  have hp := two_zpow_pos (ulpExponent q)
  have h := roundHalfEven_near (q / 2 ^ ulpExponent q)
  have e : roundedValue q - q =
      (((roundHalfEven (q / 2 ^ ulpExponent q) : ℤ) : ℚ) - q / 2 ^ ulpExponent q) *
        2 ^ ulpExponent q := by
    unfold roundedValue
    field_simp
  rw [e, abs_mul, abs_of_pos hp]
  calc |((roundHalfEven (q / 2 ^ ulpExponent q) : ℤ) : ℚ) - q / 2 ^ ulpExponent q| *
        2 ^ ulpExponent q ≤ 1 / 2 * 2 ^ ulpExponent q :=
        mul_le_mul_of_nonneg_right h hp.le
    _ = 2 ^ ulpExponent q / 2 := by ring

/-- A number below `2^1024` in magnitude rounds to a finite double. -/
theorem Num.ofRat_finite (q : ℚ) (k : ℤ) (hk : -1074 ≤ k) (hk' : k < 1024) (h : |q| ≤ 2 ^ k) :
    Num.ofRat q = Num.fin (roundedValue q) ∧ |roundedValue q| ≤ 2 ^ k := by
  have hb := abs_roundedValue_le q k hk h
  refine ⟨Num.ofRat_of_abs_lt q (lt_of_le_of_lt hb ?_), hb⟩
  have h1 : (2 : ℚ) ^ k < 2 ^ (1024 : ℤ) := two_zpow_lt hk'
  have h2 : (2 : ℚ) ^ (1024 : ℤ) = 2 ^ 1024 := by norm_num
  rw [← h2]
  exact h1

/-- The rounding of a number in the binade `[2^k, 2^(k+1))` of the normal range. -/
theorem Num.ofRat_of_binade_round (q : ℚ) (k : ℤ) (hk : -1022 ≤ k) (hk' : k ≤ 1022)
    (h1 : 2 ^ k ≤ |q|) (h2 : |q| < 2 ^ (k + 1)) :
    Num.ofRat q = Num.fin ((roundHalfEven (q / 2 ^ (k - 52)) : ℚ) * 2 ^ (k - 52)) := by
  have hu : ulpExponent q = k - 52 := by
    rw [ulpExponent_of_binade q k h1 h2]
    exact max_eq_left (by omega)
  have hf := (Num.ofRat_finite q (k + 1) (by omega) (by omega) h2.le).1
  rw [hf]
  unfold roundedValue
  rw [hu]

/-- The rounding of a number in the binade `[2^k, 2^(k+1))` of the normal range: the integer
`m` nearest to `q / 2^(k-52)` scaled back. -/
theorem Num.ofRat_of_binade (q : ℚ) (k m : ℤ) (hk : -1022 ≤ k) (hk' : k ≤ 1022)
    (h1 : 2 ^ k ≤ |q|) (h2 : |q| < 2 ^ (k + 1)) (hm : |q / 2 ^ (k - 52) - (m : ℚ)| < 1 / 2) :
    Num.ofRat q = Num.fin ((m : ℚ) * 2 ^ (k - 52)) := by
  rw [Num.ofRat_of_binade_round q k hk hk' h1 h2, roundHalfEven_eq_of_lt _ m hm]

/-- Halfway between two integers the even one is taken. -/
theorem roundHalfEven_tie (f : ℤ) :
    roundHalfEven ((f : ℚ) + 1 / 2) = if f % 2 = 0 then f else f + 1 := by
  have hf : ⌊(f : ℚ) + 1 / 2⌋ = f := by
    rw [Int.floor_eq_iff]
    constructor <;> linarith
  have a : ¬ ((f : ℚ) + 1 / 2 - (f : ℚ) < 1 / 2) := by
    intro h
    linarith
  have b : ¬ (1 / 2 < (f : ℚ) + 1 / 2 - (f : ℚ)) := by
    intro h
    linarith
  simp only [roundHalfEven, hf, a, b, if_false]


/-- A double is its own rounding: `m * 2^e` with `|m| < 2^53` and `-1074 ≤ e`. -/
theorem Num.ofRat_exact_lt (m e : ℤ) (hm : |(m : ℚ)| < 2 ^ 53) (he : -1074 ≤ e)
    (hr : |(m : ℚ) * 2 ^ e| < 2 ^ 1024) : Num.ofRat ((m : ℚ) * 2 ^ e) =
        Num.fin ((m : ℚ) * 2 ^ e) := by
  have hp := two_zpow_pos e
  by_cases h0 : (m : ℚ) * 2 ^ e = 0
  · rw [h0, Num.ofRat_of_abs_lt 0 (by rw [roundedValue_zero]; norm_num), roundedValue_zero]
  have hu : ulpExponent ((m : ℚ) * 2 ^ e) ≤ e := by
    unfold ulpExponent
    apply max_le _ he
    have hpos : 0 < |(m : ℚ) * 2 ^ e| := abs_pos.mpr h0
    have h1 := zpow_log_le _ hpos
    have h53 : (2 : ℚ) ^ (53 : ℤ) = 2 ^ 53 := by norm_num
    have h2 : |(m : ℚ) * 2 ^ e| < 2 ^ (53 + e) := by
      rw [abs_mul, abs_of_pos hp, zpow_add₀ (by norm_num : (2 : ℚ) ≠ 0), h53]
      exact mul_lt_mul_of_pos_right hm hp
    have h3 : (2 : ℚ) ^ Int.log 2 |(m : ℚ) * 2 ^ e| < 2 ^ (53 + e) := lt_of_le_of_lt h1 h2
    have h4 := (zpow_lt_zpow_iff_right₀ (by norm_num : (1 : ℚ) < 2)).mp h3
    omega
  have hv : roundedValue ((m : ℚ) * 2 ^ e) = (m : ℚ) * 2 ^ e := by
    unfold roundedValue
    have hx : (m : ℚ) * 2 ^ e / 2 ^ ulpExponent ((m : ℚ) * 2 ^ e) =
        ((m * (2 : ℤ) ^ (e - ulpExponent ((m : ℚ) * 2 ^ e)).toNat : ℤ) : ℚ) := by
      rw [mul_div_assoc, ← zpow_sub₀ (by norm_num : (2 : ℚ) ≠ 0),
        two_zpow_eq_intCast _ (by omega)]
      push_cast
      rfl
    rw [hx, roundHalfEven_intCast, ← hx]
    field_simp
  rw [Num.ofRat_of_abs_lt _ (by rw [hv]; exact hr), hv]

/-- A double written as `m * 2^e` is the value of its literal. -/
theorem Num.ofRat_of_eq (q : ℚ) (m e : ℤ) (hq : q = (m : ℚ) * 2 ^ e) (hm : |(m : ℚ)| < 2 ^ 53)
    (he : -1074 ≤ e) (hr : |q| < 2 ^ 1024) : Num.ofRat q = Num.fin q := by
  subst hq
  exact Num.ofRat_exact_lt m e hm he hr

theorem Num.ofRat_zero : Num.ofRat 0 = Num.fin 0 := by
  have := Num.ofRat_exact_lt 0 0 (by norm_num) (by norm_num) (by norm_num)
  simpa using this

theorem Num.ofRat_intCast (n : ℤ) (h : |(n : ℚ)| < 2 ^ 53) : Num.ofRat (n : ℚ) =
    Num.fin (n : ℚ) := by
  have := Num.ofRat_exact_lt n 0 h (by norm_num) (by
    have : (2 : ℚ) ^ 53 < 2 ^ 1024 := by norm_num
    simpa using lt_trans h this)
  simpa using this

theorem Num.ofRat_natCast (n : ℕ) (h : n < 2 ^ 53) : Num.ofRat (n : ℚ) = Num.fin (n : ℚ) := by
  have := Num.ofRat_intCast (n : ℤ) (by
    rw [Int.cast_natCast, abs_of_nonneg (Nat.cast_nonneg n)]
    exact_mod_cast h)
  simpa using this

/-- The magnitude of a scaled rounding is below `2^53`. -/
theorem abs_div_ulp_lt (q : ℚ) : |q / 2 ^ ulpExponent q| < 2 ^ 53 := by
  have hp := two_zpow_pos (ulpExponent q)
  rw [abs_div, abs_of_pos hp, div_lt_iff₀ hp]
  have h1 := lt_zpow_log_succ |q|
  have h2 : Int.log 2 |q| + 1 ≤ 53 + ulpExponent q := by
    have := le_max_left (Int.log 2 |q| - 52) (-1074)
    unfold ulpExponent
    omega
  calc |q| < 2 ^ (Int.log 2 |q| + 1) := h1
    _ ≤ 2 ^ (53 + ulpExponent q) := two_zpow_le h2
    _ = 2 ^ 53 * 2 ^ ulpExponent q := by
        rw [zpow_add₀ (by norm_num : (2 : ℚ) ≠ 0)]; norm_num

/-- Rounding is idempotent: a finite result of a rounding is a double. -/
theorem Num.ofRat_idem (q r : ℚ) (h : Num.ofRat q = Num.fin r) : Num.ofRat r = Num.fin r := by
  have hr : r = roundedValue q ∧ |roundedValue q| < 2 ^ 1024 := by
    rw [Num.ofRat_eq] at h
    split_ifs at h with a b
    injection h with h
    exact ⟨h.symm, abs_lt.mpr ⟨by linarith [not_le.mp b], not_le.mp a⟩⟩
  obtain ⟨rfl, hlt⟩ := hr
  have hx := abs_div_ulp_lt q
  have hm : |((roundHalfEven (q / 2 ^ ulpExponent q) : ℤ) : ℚ)| ≤ 2 ^ 53 := by
    have := abs_roundHalfEven_le (q / 2 ^ ulpExponent q) ((2 : ℤ) ^ 53) (by
      push_cast; exact hx.le)
    simpa using this
  rcases lt_or_eq_of_le hm with hm | hm
  · exact Num.ofRat_exact_lt _ _ hm (ulpExponent_ge q) hlt
  · -- the mantissa is `± 2^53`: the value is `± 2^(53 + u)`
    have hp := two_zpow_pos (ulpExponent q)
    have e : roundedValue q =
        (((if 0 ≤ roundHalfEven (q / 2 ^ ulpExponent q) then 1 else -1 : ℤ) : ℚ)) *
          2 ^ (53 + ulpExponent q) := by
      unfold roundedValue
      rw [zpow_add₀ (by norm_num : (2 : ℚ) ≠ 0)]
      split_ifs with hs
      · have : (0 : ℚ) ≤ ((roundHalfEven (q / 2 ^ ulpExponent q) : ℤ) : ℚ) := by exact_mod_cast hs
        rw [abs_of_nonneg this] at hm
        rw [hm]; norm_num
      · have : ((roundHalfEven (q / 2 ^ ulpExponent q) : ℤ) : ℚ) < 0 := by
          exact_mod_cast not_le.mp hs
        rw [abs_of_neg this] at hm
        have : ((roundHalfEven (q / 2 ^ ulpExponent q) : ℤ) : ℚ) = -2 ^ 53 := by linarith
        rw [this]; norm_num
    rw [e] at hlt ⊢
    refine Num.ofRat_exact_lt _ _ ?_ (by have := ulpExponent_ge q; omega) hlt
    split_ifs <;> norm_num


/-- An integer of magnitude at most `2^53` is a double. -/
theorem Num.ofRat_intCast_le (n : ℤ) (h : |(n : ℚ)| ≤ 2 ^ 53) :
    Num.ofRat (n : ℚ) = Num.fin (n : ℚ) := by
  rcases lt_or_eq_of_le h with h | h
  · exact Num.ofRat_intCast n h
  · have hn : (n : ℚ) = 2 ^ 53 ∨ (n : ℚ) = -2 ^ 53 := by
      rcases abs_cases (n : ℚ) with ⟨e, _⟩ | ⟨e, _⟩
      · left; rw [← e]; exact h
      · right; rw [e] at h; linarith
    rcases hn with hn | hn
    · have := Num.ofRat_exact_lt 1 53 (by norm_num) (by norm_num) (by norm_num)
      have e : ((1 : ℤ) : ℚ) * 2 ^ (53 : ℤ) = 2 ^ 53 := by norm_num
      rw [e] at this
      rw [hn]
      exact this
    · have := Num.ofRat_exact_lt (-1) 53 (by norm_num) (by norm_num) (by norm_num)
      have e : ((-1 : ℤ) : ℚ) * 2 ^ (53 : ℤ) = -2 ^ 53 := by norm_num
      rw [e] at this
      rw [hn]
      exact this

theorem Num.neg_ofRat (q : ℚ) : (Num.ofRat q).neg = Num.ofRat (-q) := by
  rw [Num.ofRat_eq, Num.ofRat_eq, roundedValue_neg]
  have h0 : (0 : ℚ) < 2 ^ 1024 := by positivity
  by_cases a : 2 ^ 1024 ≤ roundedValue q
  · have b : -roundedValue q ≤ -2 ^ 1024 := by linarith
    have c : ¬ (2 ^ 1024 ≤ -roundedValue q) := by
      intro h
      linarith
    simp only [a, b, c, if_true, if_false, Num.neg]
  · by_cases b : roundedValue q ≤ -2 ^ 1024
    · have c : 2 ^ 1024 ≤ -roundedValue q := by linarith
      simp only [a, b, c, if_true, if_false, Num.neg]
    · have c : ¬ (2 ^ 1024 ≤ -roundedValue q) := by
        intro h
        exact b (by linarith)
      have d : ¬ (-roundedValue q ≤ -2 ^ 1024) := by
        intro h
        exact a (by linarith)
      simp only [a, b, c, d, if_false, Num.neg]

/-- A number of magnitude at least `2^k`, with `-1074 ≤ k`, does not round to anything smaller:
its rounding is an infinity or a double of magnitude at least `2^k`. -/
theorem Num.ofRat_abs_ge (q : ℚ) (k : ℤ) (hk : -1074 ≤ k) (h : 2 ^ k ≤ |q|) :
    Num.ofRat q = Num.posInf ∨ Num.ofRat q = Num.negInf ∨
      (Num.ofRat q = Num.fin (roundedValue q) ∧ 2 ^ k ≤ |roundedValue q|) := by
  have hpos : 0 < |q| := lt_of_lt_of_le (two_zpow_pos k) h
  have hl : k ≤ Int.log 2 |q| :=
    (Int.zpow_le_iff_le_log (by norm_num) hpos).mp (by simpa using h)
  have hu := ulpExponent_le_log q (by omega)
  have hb := le_abs_roundedValue q _ hu (zpow_log_le _ hpos)
  have hb' : (2 : ℚ) ^ k ≤ |roundedValue q| := le_trans (two_zpow_le hl) hb
  rw [Num.ofRat_eq]
  split_ifs
  · left; rfl
  · right; left; rfl
  · right; right; exact ⟨rfl, hb'⟩

/-- A number of magnitude at most `2^-1075`, half the least positive double, rounds to zero. -/
theorem Num.ofRat_underflow (q : ℚ) (h : |q| ≤ 2 ^ (-1075 : ℤ)) : Num.ofRat q = Num.fin 0 := by
  by_cases hq : q = 0
  · rw [hq, Num.ofRat_zero]
  have hpos : 0 < |q| := abs_pos.mpr hq
  have hl : Int.log 2 |q| ≤ -1075 := by
    have h1 := zpow_log_le |q| hpos
    exact (zpow_le_zpow_iff_right₀ (by norm_num : (1 : ℚ) < 2)).mp (le_trans h1 h)
  have hu : ulpExponent q = -1074 := by
    unfold ulpExponent
    exact max_eq_right (by omega)
  have hx : |q / 2 ^ (-1074 : ℤ)| ≤ 1 / 2 := by
    rw [abs_div, abs_of_pos (two_zpow_pos _), div_le_iff₀ (two_zpow_pos _)]
    have e : (1 / 2 : ℚ) * 2 ^ (-1074 : ℤ) = 2 ^ (-1075 : ℤ) := by
      rw [show (-1074 : ℤ) = -1075 + 1 by norm_num, zpow_add₀ (by norm_num : (2 : ℚ) ≠ 0),
        zpow_one]
      ring
    rw [e]
    exact h
  have hhalf : roundHalfEven (1 / 2) = 0 := by
    have hf : ⌊(1 / 2 : ℚ)⌋ = 0 := by norm_num
    simp only [roundHalfEven, hf]
    norm_num
  have hr : roundHalfEven (q / 2 ^ (-1074 : ℤ)) = 0 := by
    rw [abs_le] at hx
    rcases lt_or_eq_of_le hx.2 with h2 | h2
    · rcases lt_or_eq_of_le hx.1 with h1 | h1
      · apply roundHalfEven_eq_of_lt
        rw [abs_lt]
        push_cast
        constructor <;> linarith
      · rw [← h1, roundHalfEven_neg, hhalf]
        rfl
    · rw [h2, hhalf]
  have hv : roundedValue q = 0 := by
    unfold roundedValue
    rw [hu, hr]
    simp
  rw [Num.ofRat_of_abs_lt q (by rw [hv]; norm_num), hv]

/-- The rounding of a positive number of the normal range has a relative error of at most
`2^-53`. -/
theorem Num.ofRat_near (q : ℚ) (hq : 2 ^ (-1022 : ℤ) ≤ q) (hq' : q ≤ 2 ^ (1023 : ℤ)) :
    Num.ofRat q = Num.fin (roundedValue q) ∧
      q * (1 - 1 / 2 ^ 53) ≤ roundedValue q ∧ roundedValue q ≤ q * (1 + 1 / 2 ^ 53) := by
  have hpos : 0 < q := lt_of_lt_of_le (two_zpow_pos _) hq
  have habs : |q| = q := abs_of_pos hpos
  have hf := (Num.ofRat_finite q 1023 (by norm_num) (by norm_num) (by rw [habs]; exact hq')).1
  have hl : -1022 ≤ Int.log 2 |q| :=
    (Int.zpow_le_iff_le_log (by norm_num) (by rw [habs]; exact hpos)).mp (by
      rw [habs]; simpa using hq)
  have hu : ulpExponent q = Int.log 2 |q| - 52 := by
    unfold ulpExponent
    exact max_eq_left (by omega)
  have he := abs_roundedValue_sub_le q
  have hb : (2 : ℚ) ^ ulpExponent q / 2 ≤ q * (1 / 2 ^ 53) := by
    have h1 := zpow_log_le |q| (by rw [habs]; exact hpos)
    rw [habs] at h1
    have h2 : (2 : ℚ) ^ ulpExponent q / 2 = 2 ^ Int.log 2 q * (1 / 2 ^ 53) := by
      rw [hu, habs, zpow_sub₀ (by norm_num : (2 : ℚ) ≠ 0)]
      norm_num
      ring
    rw [h2]
    exact mul_le_mul_of_nonneg_right h1 (by positivity)
  rw [abs_le] at he
  refine ⟨hf, ?_, ?_⟩ <;> linarith [he.1, he.2]

/-! ## Arithmetic of `Num` on finite values -/

@[simp] theorem Num.add_fin (a b : ℚ) : (Num.fin a).add (Num.fin b) = Num.ofRat (a + b) := rfl

@[simp] theorem Num.mul_fin (a b : ℚ) : (Num.fin a).mul (Num.fin b) = Num.ofRat (a * b) := rfl

@[simp] theorem Num.div_fin (a b : ℚ) :
    (Num.fin a).div (Num.fin b) =
      if b = 0 then Num.infOfSign (Num.sgn (Num.fin a)) else Num.ofRat (a / b) := rfl

@[simp] theorem Num.round_fin (q : ℚ) :
    (Num.fin q).round = Num.fin ((⌊q + 1 / 2⌋ : ℤ) : ℚ) := rfl

theorem Val.ofRat_nat (n : ℕ) (h : n < 2 ^ 53) : Val.ofRat (n : ℚ) = Val.num (Num.fin n) := by
  rw [Val.ofRat, Num.ofRat_natCast n h]

@[simp] theorem Val.ofRat_0 : Val.ofRat 0 = Val.num (Num.fin 0) := by
  rw [Val.ofRat, Num.ofRat_zero]

/-! ## The loop, metric by metric -/

theorem step_bp (a : Acc) (v : Vital) :
    (step a v).avg_systolic = (stepBp a v).avg_systolic ∧
    (step a v).avg_diastolic = (stepBp a v).avg_diastolic ∧
    (step a v).bpReadings = (stepBp a v).bpReadings ∧
    (step a v).bpCount = (stepBp a v).bpCount := by
  unfold step stepO2 stepHr stepWeight stepTemp
  split_ifs <;> exact ⟨rfl, rfl, rfl, rfl⟩

theorem step_temp (a : Acc) (v : Vital) :
    (step a v).tempAvg = (stepTemp a v).tempAvg ∧
    (step a v).tempReadings = (stepTemp a v).tempReadings ∧
    (step a v).tempCount = (stepTemp a v).tempCount := by
  unfold step stepO2 stepHr stepWeight stepTemp stepBp
  split_ifs <;> exact ⟨rfl, rfl, rfl⟩

theorem step_weight (a : Acc) (v : Vital) :
    (step a v).weightAvg = (stepWeight a v).weightAvg ∧
    (step a v).weightReadings = (stepWeight a v).weightReadings ∧
    (step a v).weightCount = (stepWeight a v).weightCount := by
  unfold step stepO2 stepHr stepWeight stepTemp stepBp
  split_ifs <;> exact ⟨rfl, rfl, rfl⟩

theorem step_hr (a : Acc) (v : Vital) :
    (step a v).hrAvg = (stepHr a v).hrAvg ∧
    (step a v).hrReadings = (stepHr a v).hrReadings ∧
    (step a v).hrCount = (stepHr a v).hrCount := by
  unfold step stepO2 stepHr stepWeight stepTemp stepBp
  split_ifs <;> exact ⟨rfl, rfl, rfl⟩

theorem step_o2 (a : Acc) (v : Vital) :
    (step a v).o2Avg = (stepO2 a v).o2Avg ∧
    (step a v).o2Readings = (stepO2 a v).o2Readings ∧
    (step a v).o2Count = (stepO2 a v).o2Count := by
  unfold step stepO2 stepHr stepWeight stepTemp stepBp
  split_ifs <;> exact ⟨rfl, rfl, rfl⟩

theorem foldl_step_bp (vitals : List Vital) (a : Acc) :
    (vitals.foldl step a).avg_systolic =
      a.avg_systolic +
          (intValues (fun v => v.blood_pressure_systolic) (bpContributors vitals)).sum ∧
    (vitals.foldl step a).avg_diastolic =
      a.avg_diastolic +
        (intValues (fun v => v.blood_pressure_diastolic) (bpContributors vitals)).sum ∧
    (vitals.foldl step a).bpReadings = a.bpReadings ++
      (bpContributors vitals).map (fun v =>
        ({ date := v.recorded_at, systolic := intValue v.blood_pressure_systolic,
           diastolic := intValue v.blood_pressure_diastolic } : BpReading)) ∧
    (vitals.foldl step a).bpCount = a.bpCount + (bpContributors vitals).length := by
  induction vitals generalizing a with
  | nil => simp [bpContributors, intValues]
  | cons v vs ih =>
    obtain ⟨h1, h2, h3, h4⟩ := step_bp a v
    obtain ⟨i1, i2, i3, i4⟩ := ih (step a v)
    rw [List.foldl_cons, i1, i2, i3, i4, h1, h2, h3, h4]
    unfold stepBp
    by_cases h : (intTruthy v.blood_pressure_systolic &&
        intTruthy v.blood_pressure_diastolic) = true
    · simp only [bpContributors, intValues, h, List.filter_cons, if_true, List.map_cons,
        List.sum_cons, List.length_cons, List.append_assoc, List.singleton_append]
      refine ⟨by ring, by ring, trivial, by omega⟩
    · simp only [bpContributors, intValues, h, List.filter_cons, if_false]
      simp

theorem foldl_step_temp (vitals : List Vital) (a : Acc) :
    (vitals.foldl step a).tempAvg =
      ((tempContributors vitals).map (fun v => parseFloat v.temperature)).foldl Num.add a.tempAvg ∧
    (vitals.foldl step a).tempReadings = a.tempReadings ++
      (tempContributors vitals).map (fun v =>
        ({ date := v.recorded_at, value := v.temperature } : Reading Val)) ∧
    (vitals.foldl step a).tempCount = a.tempCount + (tempContributors vitals).length := by
  induction vitals generalizing a with
  | nil => simp [tempContributors]
  | cons v vs ih =>
    obtain ⟨h1, h2, h3⟩ := step_temp a v
    obtain ⟨i1, i2, i3⟩ := ih (step a v)
    rw [List.foldl_cons, i1, i2, i3, h1, h2, h3]
    unfold stepTemp
    by_cases h : v.temperature.truthy = true
    · simp only [tempContributors, h, List.filter_cons, if_true, List.map_cons,
        List.foldl_cons, List.length_cons, List.append_assoc, List.singleton_append]
      refine ⟨trivial, trivial, by omega⟩
    · simp only [tempContributors, h, List.filter_cons, if_false]
      simp

theorem foldl_step_weight (vitals : List Vital) (a : Acc) :
    (vitals.foldl step a).weightAvg =
      ((weightContributors vitals).map (fun v => parseFloat v.weight)).foldl Num.add a.weightAvg ∧
    (vitals.foldl step a).weightReadings = a.weightReadings ++
      (weightContributors vitals).map (fun v =>
        ({ date := v.recorded_at, value := v.weight } : Reading Val)) ∧
    (vitals.foldl step a).weightCount = a.weightCount + (weightContributors vitals).length := by
  induction vitals generalizing a with
  | nil => simp [weightContributors]
  | cons v vs ih =>
    obtain ⟨h1, h2, h3⟩ := step_weight a v
    obtain ⟨i1, i2, i3⟩ := ih (step a v)
    rw [List.foldl_cons, i1, i2, i3, h1, h2, h3]
    unfold stepWeight
    by_cases h : v.weight.truthy = true
    · simp only [weightContributors, h, List.filter_cons, if_true, List.map_cons,
        List.foldl_cons, List.length_cons, List.append_assoc, List.singleton_append]
      refine ⟨trivial, trivial, by omega⟩
    · simp only [weightContributors, h, List.filter_cons, if_false]
      simp

theorem foldl_step_hr (vitals : List Vital) (a : Acc) :
    (vitals.foldl step a).hrAvg =
      a.hrAvg + (intValues (fun v => v.heart_rate) (hrContributors vitals)).sum ∧
    (vitals.foldl step a).hrReadings = a.hrReadings ++
      (hrContributors vitals).map (fun v =>
        ({ date := v.recorded_at, value := intValue v.heart_rate } : Reading ℤ)) ∧
    (vitals.foldl step a).hrCount = a.hrCount + (hrContributors vitals).length := by
  induction vitals generalizing a with
  | nil => simp [hrContributors, intValues]
  | cons v vs ih =>
    obtain ⟨h1, h2, h3⟩ := step_hr a v
    obtain ⟨i1, i2, i3⟩ := ih (step a v)
    rw [List.foldl_cons, i1, i2, i3, h1, h2, h3]
    unfold stepHr
    by_cases h : intTruthy v.heart_rate = true
    · simp only [hrContributors, intValues, h, List.filter_cons, if_true, List.map_cons,
        List.sum_cons, List.length_cons, List.append_assoc, List.singleton_append]
      refine ⟨by ring, trivial, by omega⟩
    · simp only [hrContributors, intValues, h, List.filter_cons, if_false]
      simp

theorem foldl_step_o2 (vitals : List Vital) (a : Acc) :
    (vitals.foldl step a).o2Avg =
      a.o2Avg + (intValues (fun v => v.oxygen_saturation) (o2Contributors vitals)).sum ∧
    (vitals.foldl step a).o2Readings = a.o2Readings ++
      (o2Contributors vitals).map (fun v =>
        ({ date := v.recorded_at, value := intValue v.oxygen_saturation } : Reading ℤ)) ∧
    (vitals.foldl step a).o2Count = a.o2Count + (o2Contributors vitals).length := by
  induction vitals generalizing a with
  | nil => simp [o2Contributors, intValues]
  | cons v vs ih =>
    obtain ⟨h1, h2, h3⟩ := step_o2 a v
    obtain ⟨i1, i2, i3⟩ := ih (step a v)
    rw [List.foldl_cons, i1, i2, i3, h1, h2, h3]
    unfold stepO2
    by_cases h : intTruthy v.oxygen_saturation = true
    · simp only [o2Contributors, intValues, h, List.filter_cons, if_true, List.map_cons,
        List.sum_cons, List.length_cons, List.append_assoc, List.singleton_append]
      refine ⟨by ring, trivial, by omega⟩
    · simp only [o2Contributors, intValues, h, List.filter_cons, if_false]
      simp

/-! ## The answer of `getVitalsTrends` -/

theorem getVitalsTrends_ok (vitals : List Vital) (h : vitals ≠ []) :
    getVitalsTrends (Except.ok (some vitals)) =
      Response.ok (finish (accumulate vitals)) vitals.length := by
  have hl : vitals.length ≠ 0 := by
    intro h0
    exact h (List.length_eq_zero.mp h0)
  simp [getVitalsTrends, hl]

theorem accumulate_bp (vitals : List Vital) :
    (accumulate vitals).avg_systolic =
      (intValues (fun v => v.blood_pressure_systolic) (bpContributors vitals)).sum ∧
    (accumulate vitals).avg_diastolic =
      (intValues (fun v => v.blood_pressure_diastolic) (bpContributors vitals)).sum ∧
    (accumulate vitals).bpReadings =
      (bpContributors vitals).map (fun v =>
        ({ date := v.recorded_at, systolic := intValue v.blood_pressure_systolic,
           diastolic := intValue v.blood_pressure_diastolic } : BpReading)) ∧
    (accumulate vitals).bpCount = (bpContributors vitals).length := by
  obtain ⟨h1, h2, h3, h4⟩ := foldl_step_bp vitals Acc.init
  refine ⟨?_, ?_, ?_, ?_⟩
  · rw [accumulate, h1]; simp [Acc.init]
  · rw [accumulate, h2]; simp [Acc.init]
  · rw [accumulate, h3]; simp [Acc.init]
  · rw [accumulate, h4]; simp [Acc.init]

theorem accumulate_temp (vitals : List Vital) :
    (accumulate vitals).tempAvg =
      numSum ((tempContributors vitals).map (fun v => parseFloat v.temperature)) ∧
    (accumulate vitals).tempReadings =
      (tempContributors vitals).map (fun v =>
        ({ date := v.recorded_at, value := v.temperature } : Reading Val)) ∧
    (accumulate vitals).tempCount = (tempContributors vitals).length := by
  obtain ⟨h1, h2, h3⟩ := foldl_step_temp vitals Acc.init
  refine ⟨?_, ?_, ?_⟩
  · rw [accumulate, h1]; rfl
  · rw [accumulate, h2]; simp [Acc.init]
  · rw [accumulate, h3]; simp [Acc.init]

theorem accumulate_weight (vitals : List Vital) :
    (accumulate vitals).weightAvg =
      numSum ((weightContributors vitals).map (fun v => parseFloat v.weight)) ∧
    (accumulate vitals).weightReadings =
      (weightContributors vitals).map (fun v =>
        ({ date := v.recorded_at, value := v.weight } : Reading Val)) ∧
    (accumulate vitals).weightCount = (weightContributors vitals).length := by
  obtain ⟨h1, h2, h3⟩ := foldl_step_weight vitals Acc.init
  refine ⟨?_, ?_, ?_⟩
  · rw [accumulate, h1]; rfl
  · rw [accumulate, h2]; simp [Acc.init]
  · rw [accumulate, h3]; simp [Acc.init]

theorem accumulate_hr (vitals : List Vital) :
    (accumulate vitals).hrAvg = (intValues (fun v => v.heart_rate) (hrContributors vitals)).sum ∧
    (accumulate vitals).hrReadings =
      (hrContributors vitals).map (fun v =>
        ({ date := v.recorded_at, value := intValue v.heart_rate } : Reading ℤ)) ∧
    (accumulate vitals).hrCount = (hrContributors vitals).length := by
  obtain ⟨h1, h2, h3⟩ := foldl_step_hr vitals Acc.init
  refine ⟨?_, ?_, ?_⟩
  · rw [accumulate, h1]; simp [Acc.init]
  · rw [accumulate, h2]; simp [Acc.init]
  · rw [accumulate, h3]; simp [Acc.init]

theorem accumulate_o2 (vitals : List Vital) :
    (accumulate vitals).o2Avg =
      (intValues (fun v => v.oxygen_saturation) (o2Contributors vitals)).sum ∧
    (accumulate vitals).o2Readings =
      (o2Contributors vitals).map (fun v =>
        ({ date := v.recorded_at, value := intValue v.oxygen_saturation } : Reading ℤ)) ∧
    (accumulate vitals).o2Count = (o2Contributors vitals).length := by
  obtain ⟨h1, h2, h3⟩ := foldl_step_o2 vitals Acc.init
  refine ⟨?_, ?_, ?_⟩
  · rw [accumulate, h1]; simp [Acc.init]
  · rw [accumulate, h2]; simp [Acc.init]
  · rw [accumulate, h3]; simp [Acc.init]

theorem roundAvg_eq (xs : List ℚ) : roundAvg xs.sum xs.length = (roundHalfUp (mean xs) : ℚ) := rfl

theorem intValues_length (f : Vital → Option ℤ) (vs : List Vital) :
    (intValues f vs).length = vs.length := by
  simp [intValues]

/-- The four rounded averages, when their metric has a contributor. -/
theorem finish_integer_avgs (vitals : List Vital) :
    (bpContributors vitals ≠ [] →
      (finish (accumulate vitals)).blood_pressure.avg_systolic =
        (roundHalfUp (mean (intValues (fun v => v.blood_pressure_systolic)
          (bpContributors vitals))) : ℚ) ∧
      (finish (accumulate vitals)).blood_pressure.avg_diastolic =
        (roundHalfUp (mean (intValues (fun v => v.blood_pressure_diastolic)
          (bpContributors vitals))) : ℚ)) ∧
    (hrContributors vitals ≠ [] →
      (finish (accumulate vitals)).heart_rate.avg =
        (roundHalfUp (mean (intValues (fun v => v.heart_rate) (hrContributors vitals))) : ℚ)) ∧
    (o2Contributors vitals ≠ [] →
      (finish (accumulate vitals)).oxygen_saturation.avg =
        (roundHalfUp (mean (intValues (fun v => v.oxygen_saturation)
          (o2Contributors vitals))) : ℚ)) := by
  obtain ⟨b1, b2, -, b4⟩ := accumulate_bp vitals
  obtain ⟨r1, -, r3⟩ := accumulate_hr vitals
  obtain ⟨o1, -, o3⟩ := accumulate_o2 vitals
  refine ⟨fun h => ?_, fun h => ?_, fun h => ?_⟩
  · have hp : 0 < (bpContributors vitals).length := List.length_pos.mpr h
    simp only [finish, b1, b2, b4, hp, if_true]
    constructor
    · rw [← roundAvg_eq, intValues_length]
    · rw [← roundAvg_eq, intValues_length]
  · have hp : 0 < (hrContributors vitals).length := List.length_pos.mpr h
    simp only [finish, r1, r3, hp, if_true]
    rw [← roundAvg_eq, intValues_length]
  · have hp : 0 < (o2Contributors vitals).length := List.length_pos.mpr h
    simp only [finish, o1, o3, hp, if_true]
    rw [← roundAvg_eq, intValues_length]

/-- The two formatted averages: `toFixed(1)` of the mean of the values read by `parseFloat`. -/
theorem finish_decimal_avgs (vitals : List Vital) :
    (tempContributors vitals ≠ [] →
      (finish (accumulate vitals)).temperature.avg = Val.str (toFixed1
        (numMean ((tempContributors vitals).map (fun v => parseFloat v.temperature))))) ∧
    (weightContributors vitals ≠ [] →
      (finish (accumulate vitals)).weight.avg = Val.str (toFixed1
        (numMean ((weightContributors vitals).map (fun v => parseFloat v.weight))))) := by
  obtain ⟨t1, -, t3⟩ := accumulate_temp vitals
  obtain ⟨w1, -, w3⟩ := accumulate_weight vitals
  refine ⟨fun h => ?_, fun h => ?_⟩
  · have hp : 0 < (tempContributors vitals).length := List.length_pos.mpr h
    simp only [finish, t1, t3, hp, if_true, numMean, List.length_map]
  · have hp : 0 < (weightContributors vitals).length := List.length_pos.mpr h
    simp only [finish, w1, w3, hp, if_true, numMean, List.length_map]

theorem finish_readings (vitals : List Vital) :
    ReadingsOfContributors vitals (finish (accumulate vitals)) := by
  obtain ⟨-, -, b, -⟩ := accumulate_bp vitals
  obtain ⟨-, t, -⟩ := accumulate_temp vitals
  obtain ⟨-, w, -⟩ := accumulate_weight vitals
  obtain ⟨-, r, -⟩ := accumulate_hr vitals
  obtain ⟨-, o, -⟩ := accumulate_o2 vitals
  exact ⟨b, t, w, r, o⟩

theorem roundHalfUp_near (x : ℚ) : |((roundHalfUp x : ℤ) : ℚ) - x| ≤ 1 / 2 := by
  have h1 : ((⌊x + 1 / 2⌋ : ℤ) : ℚ) ≤ x + 1 / 2 := Int.floor_le _
  have h2 : x + 1 / 2 < ((⌊x + 1 / 2⌋ : ℤ) : ℚ) + 1 := Int.lt_floor_add_one _
  unfold roundHalfUp
  rw [abs_le]
  constructor <;> linarith

theorem IsDecimalDigit.facts {c : Char} (h : IsDecimalDigit c) :
    c.isDigit = true ∧ isStrWhiteSpaceChar c = false ∧ c ≠ '+' ∧ c ≠ '-' ∧ c ≠ 'I' ∧
      c ≠ '.' ∧ c ≠ 'e' ∧ c ≠ 'E' := by
  obtain ⟨d, hd, rfl⟩ := h
  interval_cases d <;> decide

theorem digitChar_value (d : ℕ) (hd : d < 10) : (Nat.digitChar d).toNat - 48 = d := by
  interval_cases d <;> rfl

theorem toDigitsCore_digits (fuel n : ℕ) (ds : List Char) (h : ∀ c ∈ ds, IsDecimalDigit c) :
    ∀ c ∈ Nat.toDigitsCore 10 fuel n ds, IsDecimalDigit c := by
  induction fuel generalizing n ds with
  | zero => simpa [Nat.toDigitsCore] using h
  | succ fuel ih =>
    have hd : IsDecimalDigit (Nat.digitChar (n % 10)) := ⟨n % 10, Nat.mod_lt _ (by norm_num), rfl⟩
    have h2 : ∀ c ∈ Nat.digitChar (n % 10) :: ds, IsDecimalDigit c := by
      intro c hc
      rcases List.mem_cons.mp hc with rfl | hc
      · exact hd
      · exact h c hc
    unfold Nat.toDigitsCore
    by_cases h0 : n / 10 = 0
    · simpa [h0] using h2
    · simpa [h0] using ih (n / 10) _ h2

theorem toDigits_digits (n : ℕ) : ∀ c ∈ Nat.toDigits 10 n, IsDecimalDigit c :=
  toDigitsCore_digits _ _ [] (by simp)

theorem toDigitsCore_ne_nil (fuel n : ℕ) (ds : List Char) (h : ds ≠ [] ∨ 0 < fuel) :
    Nat.toDigitsCore 10 fuel n ds ≠ [] := by
  induction fuel generalizing n ds with
  | zero =>
    rcases h with h | h
    · simpa [Nat.toDigitsCore] using h
    · omega
  | succ fuel ih =>
    unfold Nat.toDigitsCore
    by_cases h0 : n / 10 = 0
    · simp [h0]
    · simpa [h0] using ih (n / 10) (Nat.digitChar (n % 10) :: ds) (Or.inl (by simp))

theorem toDigits_ne_nil (n : ℕ) : Nat.toDigits 10 n ≠ [] :=
  toDigitsCore_ne_nil _ _ [] (Or.inr (Nat.succ_pos n))

theorem toDigitsCore_value (fuel n : ℕ) (ds : List Char) (h : n < fuel) :
    (Nat.toDigitsCore 10 fuel n ds).foldl (fun m c => 10 * m + (c.toNat - 48)) 0 =
      ds.foldl (fun m c => 10 * m + (c.toNat - 48)) n := by
  induction fuel generalizing n ds with
  | zero => omega
  | succ fuel ih =>
    unfold Nat.toDigitsCore
    by_cases h0 : n / 10 = 0
    · have hn : n < 10 := by omega
      have hm : n % 10 = n := Nat.mod_eq_of_lt hn
      simp only [h0, if_true, List.foldl_cons,
        digitChar_value (n % 10) (Nat.mod_lt _ (by norm_num))]
      rw [hm]
      congr 1
      omega
    · have hlt : n / 10 < fuel := by omega
      simp only [h0, if_false]
      rw [ih (n / 10) _ hlt, List.foldl_cons,
        digitChar_value (n % 10) (Nat.mod_lt _ (by norm_num))]
      congr 1
      omega

theorem digitsValue_toDigits (n : ℕ) : digitsValue (Nat.toDigits 10 n) = n := by
  unfold digitsValue Nat.toDigits
  rw [toDigitsCore_value _ _ _ (Nat.lt_succ_self n)]
  rfl

theorem toDigits_of_lt_ten (k : ℕ) (hk : k < 10) : Nat.toDigits 10 k = [Nat.digitChar k] := by
  simp [Nat.toDigits, Nat.toDigitsCore, Nat.div_eq_of_lt hk, Nat.mod_eq_of_lt hk]

theorem span_digits (ds rest : List Char) (h : ∀ c ∈ ds, IsDecimalDigit c)
    (hr : ∀ c r, rest = c :: r → c.isDigit = false) :
    (ds ++ rest).span Char.isDigit = (ds, rest) := by
  rw [List.span_eq_take_drop]
  have h1 : ∀ c ∈ ds, Char.isDigit c = true := fun c hc => (h c hc).facts.1
  congr 1
  · rw [List.takeWhile_append_of_pos h1]
    cases rest with
    | nil => simp
    | cons c r => simp [List.takeWhile_cons, hr c r rfl]
  · rw [List.dropWhile_append_of_pos h1]
    cases rest with
    | nil => simp
    | cons c r => simp [List.dropWhile_cons, hr c r rfl]
theorem parseFloatString_mk (cs : List Char) (c : Char) (hc : isStrWhiteSpaceChar c = false) :
    parseFloatString (String.mk (c :: cs)) =
      match parseDecimal (c :: cs) with
      | some p => p.1
      | none => Num.nan := by
  unfold parseFloatString
  have : (String.mk (c :: cs)).data.dropWhile isStrWhiteSpaceChar = c :: cs := by
    show (c :: cs).dropWhile isStrWhiteSpaceChar = c :: cs
    rw [List.dropWhile_cons_of_neg (by simp [hc])]
  rw [this]

theorem parseDecimal_digit (c : Char) (r : List Char) (hc : IsDecimalDigit c) :
    parseDecimal (c :: r) = parseUnsignedDecimal (c :: r) := by
  simp [parseDecimal, hc.facts.2.2.1, hc.facts.2.2.2.1]

theorem parseDecimal_minus (r : List Char) :
    parseDecimal ('-' :: r) = (parseUnsignedDecimal r).map (fun p => (p.1.neg, p.2)) := by
  have h : ('-' : Char) ≠ '+' := by decide
  simp [parseDecimal, h]

theorem isFixedOneDecimal_body (ip : List Char) (k : ℕ) (hk : k < 10)
    (hd : ∀ c ∈ ip, IsDecimalDigit c) (hne : ip ≠ []) :
    (!((ip ++ '.' :: [Nat.digitChar k]).span Char.isDigit).1.isEmpty &&
      (match ((ip ++ '.' :: [Nat.digitChar k]).span Char.isDigit).2 with
       | [dot, d] => decide (dot = '.') && d.isDigit
       | _ => false)) = true := by
  have hkd : IsDecimalDigit (Nat.digitChar k) := ⟨k, hk, rfl⟩
  have hs1 : (ip ++ '.' :: [Nat.digitChar k]).span Char.isDigit =
      (ip, '.' :: [Nat.digitChar k]) :=
    span_digits ip _ hd (by
      intro c r h
      injection h with h1 _
      rw [← h1]
      decide)
  rw [hs1]
  obtain ⟨c, r, rfl⟩ := List.exists_cons_of_ne_nil hne
  simp [hkd.facts.1]

theorem isFixedOneDecimal_fixed (neg : Bool) (ip : List Char) (k : ℕ) (hk : k < 10)
    (hd : ∀ c ∈ ip, IsDecimalDigit c) (hne : ip ≠ []) :
    isFixedOneDecimal
      (String.mk ((if neg then ['-'] else []) ++ ip ++ ['.'] ++ [Nat.digitChar k])) = true := by
  have hb := isFixedOneDecimal_body ip k hk hd hne
  cases neg with
  | true =>
    have e : (if true = true then ['-'] else []) ++ ip ++ ['.'] ++ [Nat.digitChar k] =
        '-' :: (ip ++ '.' :: [Nat.digitChar k]) := by simp
    rw [e]
    unfold isFixedOneDecimal
    simpa using hb
  | false =>
    obtain ⟨c, r, rfl⟩ := List.exists_cons_of_ne_nil hne
    have hc := hd c (List.mem_cons_self _ _)
    have e : (if false = true then ['-'] else []) ++ (c :: r) ++ ['.'] ++ [Nat.digitChar k] =
        c :: (r ++ '.' :: [Nat.digitChar k]) := by simp
    rw [e]
    rw [List.cons_append] at hb
    unfold isFixedOneDecimal
    simp only [hc.facts.2.2.2.1, if_false]
    exact hb
theorem tenths_near (x : ℚ) (hx : 0 ≤ x) :
    |(((⌊x * 10 + 1 / 2⌋.toNat / 10 : ℕ) : ℚ) + ((⌊x * 10 + 1 / 2⌋.toNat % 10 : ℕ) : ℚ) / 10) - x|
      ≤ 1 / 20 := by
  set n := ⌊x * 10 + 1 / 2⌋.toNat with hn
  have h0 : 0 ≤ ⌊x * 10 + 1 / 2⌋ := Int.floor_nonneg.mpr (by positivity)
  have hcast : ((n : ℤ) : ℚ) = ((⌊x * 10 + 1 / 2⌋ : ℤ) : ℚ) := by
    rw [hn, Int.toNat_of_nonneg h0]
  have hsplit : ((n / 10 : ℕ) : ℚ) + ((n % 10 : ℕ) : ℚ) / 10 = (n : ℚ) / 10 := by
    have := Nat.div_add_mod n 10
    have hq : (10 : ℚ) * ((n / 10 : ℕ) : ℚ) + ((n % 10 : ℕ) : ℚ) = (n : ℚ) := by
      exact_mod_cast this
    linarith
  have h1 : ((⌊x * 10 + 1 / 2⌋ : ℤ) : ℚ) ≤ x * 10 + 1 / 2 := Int.floor_le _
  have h2 : x * 10 + 1 / 2 < ((⌊x * 10 + 1 / 2⌋ : ℤ) : ℚ) + 1 := Int.lt_floor_add_one _
  have hn' : (n : ℚ) = ((⌊x * 10 + 1 / 2⌋ : ℤ) : ℚ) := by
    rw [← hcast]; simp
  rw [hsplit, hn', abs_le]
  constructor <;> linarith

theorem isDecimalText_fixed (neg : Bool) (n : ℕ) :
    IsDecimalText
      (String.mk ((if neg then ['-'] else []) ++ Nat.toDigits 10 (n / 10) ++ ['.'] ++
        [Nat.digitChar (n % 10)]))
      ((if neg then -1 else 1) * (((n / 10 : ℕ) : ℚ) + ((n % 10 : ℕ) : ℚ) / 10)) := by
  have hk : n % 10 < 10 := Nat.mod_lt _ (by norm_num)
  refine ⟨neg, Nat.toDigits 10 (n / 10), [Nat.digitChar (n % 10)], toDigits_ne_nil _,
    toDigits_digits _, ?_, ?_, ?_⟩
  · intro c hc
    rw [List.mem_singleton] at hc
    exact ⟨n % 10, hk, hc⟩
  · simp [decimalText]
  · have hv : digitsValue [Nat.digitChar (n % 10)] = n % 10 := by
      simp [digitsValue, digitChar_value _ hk]
    unfold decimalValue
    rw [digitsValue_toDigits, hv]
    simp

/-- Below `10^21` in magnitude, `toFixed(1)` gives fixed-point text with one digit after the
point, and the decimal the text denotes is within one twentieth of the argument. -/
theorem toFixed1_fixed (q : ℚ) (h : |q| < 10 ^ 21) :
    isFixedOneDecimal (toFixed1 (Num.fin q)) = true ∧
    ∃ r : ℚ, IsDecimalText (toFixed1 (Num.fin q)) r ∧ |r - q| ≤ 1 / 20 := by
  by_cases hq : q < 0
  · have hx : ¬ ((10 : ℚ) ^ 21 ≤ -q) := by
      rw [abs_of_neg hq] at h
      exact not_le.mpr h
    have e : toFixed1 (Num.fin q) =
        String.mk ((if true = true then ['-'] else []) ++
          Nat.toDigits 10 (⌊-q * 10 + 1 / 2⌋.toNat / 10) ++ ['.'] ++
          [Nat.digitChar (⌊-q * 10 + 1 / 2⌋.toNat % 10)]) := by
      simp only [toFixed1, hq, if_true, hx, if_false]
      rw [toDigits_of_lt_ten _ (Nat.mod_lt _ (by norm_num))]
    rw [e]
    refine ⟨isFixedOneDecimal_fixed true _ _ (Nat.mod_lt _ (by norm_num)) (toDigits_digits _)
      (toDigits_ne_nil _), _, isDecimalText_fixed true _, ?_⟩
    have := tenths_near (-q) (by linarith)
    rw [abs_le] at this ⊢
    simp only [if_true]
    constructor <;> linarith [this.1, this.2]
  · have hx : ¬ ((10 : ℚ) ^ 21 ≤ q) := by
      rw [abs_of_nonneg (not_lt.mp hq)] at h
      exact not_le.mpr h
    have e : toFixed1 (Num.fin q) =
        String.mk ((if false = true then ['-'] else []) ++
          Nat.toDigits 10 (⌊q * 10 + 1 / 2⌋.toNat / 10) ++ ['.'] ++
          [Nat.digitChar (⌊q * 10 + 1 / 2⌋.toNat % 10)]) := by
      simp only [toFixed1, hq, if_false, hx]
      rw [toDigits_of_lt_ten _ (Nat.mod_lt _ (by norm_num))]
      simp
    rw [e]
    refine ⟨isFixedOneDecimal_fixed false _ _ (Nat.mod_lt _ (by norm_num)) (toDigits_digits _)
      (toDigits_ne_nil _), _, isDecimalText_fixed false _, ?_⟩
    have := tenths_near q (not_lt.mp hq)
    simpa using this

/-! ## Objects -/

theorem Obj.lookup_set_eq (o : Obj) (k : String) (v : Val) : (o.set k v).lookup k = some v := by
  induction o with
  | nil => simp [Obj.set, List.lookup]
  | cons p o ih =>
    obtain ⟨k', v'⟩ := p
    by_cases h : k' = k
    · simp [Obj.set, h, List.lookup]
    · have hb : (k == k') = false := by simpa using fun e => h e.symm
      simp [Obj.set, h, List.lookup, hb, ih]

theorem Obj.lookup_set_ne (o : Obj) (k k' : String) (v : Val) (h : k' ≠ k) :
    (o.set k v).lookup k' = o.lookup k' := by
  induction o with
  | nil =>
    have hb : (k' == k) = false := by simpa using h
    simp [Obj.set, List.lookup, hb]
  | cons p o ih =>
    obtain ⟨k₀, v₀⟩ := p
    by_cases h0 : k₀ = k
    · subst h0
      have hb : (k' == k₀) = false := by simpa using h
      simp [Obj.set, List.lookup, hb]
    · by_cases h1 : k' = k₀
      · subst h1
        simp [Obj.set, h0, List.lookup]
      · have hb : (k' == k₀) = false := by simpa using h1
        simp [Obj.set, h0, List.lookup, hb, ih]

theorem Obj.get_set_eq (o : Obj) (k : String) (v : Val) : (o.set k v).get k = v := by
  simp [Obj.get, Obj.lookup_set_eq]

theorem Obj.get_set_ne (o : Obj) (k k' : String) (v : Val) (h : k' ≠ k) :
    (o.set k v).get k' = o.get k' := by
  simp [Obj.get, Obj.lookup_set_ne o k k' v h]

theorem createRow_bmi (vitalsData : Obj) (t1 t2 t3 : String) :
    (VitalsModel.createRow vitalsData t1 t2 t3).get "bmi" = VitalsModel.createBmi vitalsData := by
  unfold VitalsModel.createRow
  rw [Obj.get_set_ne _ _ _ _ (by decide), Obj.get_set_ne _ _ _ _ (by decide),
    Obj.get_set_ne _ _ _ _ (by decide), Obj.get_set_eq]

theorem roundHalfAwayFromZero_of_nonneg (q : ℚ) (h : 0 ≤ q) :
    roundHalfAwayFromZero q = roundHalfUp q := by
  simp [roundHalfAwayFromZero, roundHalfUp, h]

theorem merged_some (updates current : Obj) (k : String) :
    VitalsModel.merged updates (some current) k =
      Except.ok ((updates.get k).or (current.get k)) := by
  unfold VitalsModel.merged VitalsModel.currentField Val.or
  split_ifs <;> rfl

/-! ## Metrics, BMI cases, request bodies and numeric text -/

theorem Metric.passes_false_of_not_recorded (m : Metric) (v : Vital)
    (h : m.recorded v = false) : m.passes v = false := by
  cases m with
  | bloodPressure =>
    simp only [Metric.recorded, Bool.and_eq_false_iff] at h
    simp only [Metric.passes, Bool.and_eq_false_iff]
    rcases h with h | h
    · left
      cases hs : v.blood_pressure_systolic with
      | none => rfl
      | some n => simp [hs] at h
    · right
      cases hs : v.blood_pressure_diastolic with
      | none => rfl
      | some n => simp [hs] at h
  | temperature =>
    simp only [Metric.recorded, decide_eq_false_iff_not, not_and_or, not_not] at h
    rcases h with h | h <;> simp [Metric.passes, h, Val.truthy]
  | weight =>
    simp only [Metric.recorded, decide_eq_false_iff_not, not_and_or, not_not] at h
    rcases h with h | h <;> simp [Metric.passes, h, Val.truthy]
  | heartRate =>
    cases hs : v.heart_rate with
    | none => simp [Metric.passes, hs, intTruthy]
    | some n => simp [Metric.recorded, hs] at h
  | oxygenSaturation =>
    cases hs : v.oxygen_saturation with
    | none => simp [Metric.passes, hs, intTruthy]
    | some n => simp [Metric.recorded, hs] at h

theorem filter_eq_nil_of_all_false {α : Type} (p : α → Bool) (l : List α)
    (h : ∀ x ∈ l, p x = false) : l.filter p = [] := by
  rw [List.filter_eq_nil_iff]
  intro x hx
  simp [h x hx]

theorem filter_insert_of_false {α : Type} (p : α → Bool) (before after : List α) (x : α)
    (h : p x = false) : (before ++ x :: after).filter p = (before ++ after).filter p := by
  simp [List.filter_append, List.filter_cons, h]

/-- A metric none of whose rows passes its test is zero-filled in the summary. -/
theorem finish_zero_of_no_contributor (m : Metric) (vitals : List Vital)
    (h : ∀ v ∈ vitals, m.passes v = false) : m.zeroIn (finish (accumulate vitals)) := by
  cases m with
  | bloodPressure =>
    have hc : bpContributors vitals = [] := filter_eq_nil_of_all_false _ _ h
    obtain ⟨p1, p2, p3, p4⟩ := accumulate_bp vitals
    simp [Metric.zeroIn, finish, p1, p2, p3, p4, hc, intValues]
  | temperature =>
    have hc : tempContributors vitals = [] := filter_eq_nil_of_all_false _ _ h
    obtain ⟨p1, p2, p3⟩ := accumulate_temp vitals
    simp [Metric.zeroIn, finish, p1, p2, p3, hc, numSum]
  | weight =>
    have hc : weightContributors vitals = [] := filter_eq_nil_of_all_false _ _ h
    obtain ⟨p1, p2, p3⟩ := accumulate_weight vitals
    simp [Metric.zeroIn, finish, p1, p2, p3, hc, numSum]
  | heartRate =>
    have hc : hrContributors vitals = [] := filter_eq_nil_of_all_false _ _ h
    obtain ⟨p1, p2, p3⟩ := accumulate_hr vitals
    simp [Metric.zeroIn, finish, p1, p2, p3, hc, intValues]
  | oxygenSaturation =>
    have hc : o2Contributors vitals = [] := filter_eq_nil_of_all_false _ _ h
    obtain ⟨p1, p2, p3⟩ := accumulate_o2 vitals
    simp [Metric.zeroIn, finish, p1, p2, p3, hc, intValues]

/-- A row that fails the test of a metric changes nothing in the metric's part of the
summary, wherever it stands. -/
theorem finish_insert_of_not_passing (m : Metric) (before after : List Vital) (v : Vital)
    (h : m.passes v = false) :
    m.sameIn (finish (accumulate (before ++ v :: after)))
      (finish (accumulate (before ++ after))) := by
  cases m with
  | bloodPressure =>
    have hc : bpContributors (before ++ v :: after) = bpContributors (before ++ after) :=
      filter_insert_of_false _ _ _ _ h
    obtain ⟨p1, p2, p3, p4⟩ := accumulate_bp (before ++ v :: after)
    obtain ⟨q1, q2, q3, q4⟩ := accumulate_bp (before ++ after)
    simp only [Metric.sameIn, finish, p1, p2, p3, p4, q1, q2, q3, q4, hc]
  | temperature =>
    have hc : tempContributors (before ++ v :: after) = tempContributors (before ++ after) :=
      filter_insert_of_false _ _ _ _ h
    obtain ⟨p1, p2, p3⟩ := accumulate_temp (before ++ v :: after)
    obtain ⟨q1, q2, q3⟩ := accumulate_temp (before ++ after)
    simp only [Metric.sameIn, finish, p1, p2, p3, q1, q2, q3, hc]
  | weight =>
    have hc : weightContributors (before ++ v :: after) = weightContributors (before ++ after) :=
      filter_insert_of_false _ _ _ _ h
    obtain ⟨p1, p2, p3⟩ := accumulate_weight (before ++ v :: after)
    obtain ⟨q1, q2, q3⟩ := accumulate_weight (before ++ after)
    simp only [Metric.sameIn, finish, p1, p2, p3, q1, q2, q3, hc]
  | heartRate =>
    have hc : hrContributors (before ++ v :: after) = hrContributors (before ++ after) :=
      filter_insert_of_false _ _ _ _ h
    obtain ⟨p1, p2, p3⟩ := accumulate_hr (before ++ v :: after)
    obtain ⟨q1, q2, q3⟩ := accumulate_hr (before ++ after)
    simp only [Metric.sameIn, finish, p1, p2, p3, q1, q2, q3, hc]
  | oxygenSaturation =>
    have hc : o2Contributors (before ++ v :: after) = o2Contributors (before ++ after) :=
      filter_insert_of_false _ _ _ _ h
    obtain ⟨p1, p2, p3⟩ := accumulate_o2 (before ++ v :: after)
    obtain ⟨q1, q2, q3⟩ := accumulate_o2 (before ++ after)
    simp only [Metric.sameIn, finish, p1, p2, p3, q1, q2, q3, hc]

theorem Val.num_fin_truthy (q : ℚ) (h : q ≠ 0) : (Val.num (Num.fin q)).truthy = true := by
  simp [Val.truthy, Num.truthy, h]

theorem Val.num_fin_truthy_iff (q : ℚ) : (Val.num (Num.fin q)).truthy = true ↔ q ≠ 0 := by
  simp [Val.truthy, Num.truthy]

theorem createBmi_of_numbers (vitalsData : Obj) (w h : ℚ)
    (hw : vitalsData.get "weight" = Val.num (Num.fin w))
    (hh : vitalsData.get "height" = Val.num (Num.fin h))
    (hb : (vitalsData.get "bmi").truthy = false) (hw0 : w ≠ 0) (hh0 : h ≠ 0) :
    VitalsModel.createBmi vitalsData = Val.num
        (bmiOf (Val.num (Num.fin w)) (Val.num (Num.fin h))) := by
  unfold VitalsModel.createBmi
  simp only [hw, hh, hb, Val.num_fin_truthy w hw0, Val.num_fin_truthy h hh0]
  simp

theorem createBmi_of_falsy (vitalsData : Obj)
    (h : (vitalsData.get "weight").truthy = false ∨ (vitalsData.get "height").truthy = false) :
    VitalsModel.createBmi vitalsData = vitalsData.get "bmi" := by
  unfold VitalsModel.createBmi
  rcases h with h | h <;> simp [h]

theorem createBmi_of_supplied (vitalsData : Obj) (hb : (vitalsData.get "bmi").truthy = true) :
    VitalsModel.createBmi vitalsData = vitalsData.get "bmi" := by
  simp [VitalsModel.createBmi, hb]

theorem createBmi_of_truthy (vitalsData : Obj)
    (hw : (vitalsData.get "weight").truthy = true) (hh : (vitalsData.get "height").truthy = true)
    (hb : (vitalsData.get "bmi").truthy = false) :
    VitalsModel.createBmi vitalsData =
      Val.num (bmiOf (vitalsData.get "weight") (vitalsData.get "height")) := by
  unfold VitalsModel.createBmi
  simp [hw, hh, hb]

theorem Num.nan_div (n : Num) : Num.nan.div n = Num.nan := by
  cases n <;> rfl

theorem Num.div_nan (n : Num) : n.div Num.nan = Num.nan := by
  cases n <;> rfl

theorem Num.nan_mul (n : Num) : Num.nan.mul n = Num.nan := by
  cases n <;> rfl

theorem bmiOf_nan (weight height : Val)
    (h : weight.toNumber = Num.nan ∨ height.toNumber = Num.nan) :
    bmiOf weight height = Num.nan := by
  unfold bmiOf
  rcases h with h | h
  · simp only [h, Num.nan_div, Num.nan_mul]
    rfl
  · simp only [h, Num.nan_div, Num.nan_mul, Num.div_nan]
    rfl

theorem update_recalculated (current updates : Obj) (vitalsId now : String)
    (ht : (updates.get "weight").truthy = true ∨ (updates.get "height").truthy = true)
    (hw : ((updates.get "weight").or (current.get "weight")).truthy = true)
    (hh : ((updates.get "height").or (current.get "height")).truthy = true) :
    VitalsModel.update (some current) vitalsId updates now =
      Except.ok [StoreCall.selectWeightHeight vitalsId,
        StoreCall.update vitalsId
          ((updates.set "bmi"
            (Val.num (bmiOf ((updates.get "weight").or (current.get "weight"))
              ((updates.get "height").or (current.get "height"))))).set
            "updated_at" (Val.str now))] := by
  have hc : ((updates.get "weight").truthy || (updates.get "height").truthy) = true := by
    rcases ht with ht | ht <;> simp [ht]
  have hr : VitalsModel.recalculate updates (some current) =
      Except.ok (updates.set "bmi"
        (Val.num (bmiOf ((updates.get "weight").or (current.get "weight"))
          ((updates.get "height").or (current.get "height"))))) := by
    unfold VitalsModel.recalculate
    rw [merged_some, merged_some]
    simp only [bind, Except.bind, hw, hh, Bool.and_self, if_true, pure, Except.pure]
  unfold VitalsModel.update
  simp only [hc, if_true, hr]

theorem update_not_recalculated (current updates : Obj) (vitalsId now : String)
    (h : ((updates.get "weight").truthy = false ∧ (updates.get "height").truthy = false) ∨
      ((updates.get "weight").or (current.get "weight")).truthy = false ∨
      ((updates.get "height").or (current.get "height")).truthy = false) :
    writtenFields (VitalsModel.update (some current) vitalsId updates now) =
      some (updates.set "updated_at" (Val.str now)) := by
  by_cases hc : ((updates.get "weight").truthy || (updates.get "height").truthy) = true
  · have hm : (((updates.get "weight").or (current.get "weight")).truthy &&
        ((updates.get "height").or (current.get "height")).truthy) = false := by
      rcases h with ⟨h1, h2⟩ | h | h
      · simp [h1, h2] at hc
      · simp [h]
      · simp [h]
    have hr : VitalsModel.recalculate updates (some current) = Except.ok updates := by
      unfold VitalsModel.recalculate
      rw [merged_some, merged_some]
      simp only [bind, Except.bind, hm, pure, Except.pure]
      rfl
    unfold VitalsModel.update
    simp only [hc, if_true, hr]
    rfl
  · unfold VitalsModel.update
    simp only [hc]
    rfl

theorem update_total_of_found (current updates : Obj) (vitalsId now : String) :
    ∃ calls, VitalsModel.update (some current) vitalsId updates now = Except.ok calls := by
  unfold VitalsModel.update VitalsModel.recalculate
  rw [merged_some, merged_some]
  simp only [bind, Except.bind, pure, Except.pure]
  split_ifs <;> exact ⟨_, rfl⟩

theorem Obj.delete_cons (k₀ : String) (v₀ : Val) (o : Obj) (k : String) :
    Obj.delete ((k₀, v₀) :: o) k = if k₀ = k then Obj.delete o k else
        (k₀, v₀) :: Obj.delete o k := by
  unfold Obj.delete
  rw [List.filter_cons]
  by_cases h : k₀ = k <;> simp [h]

theorem Obj.lookup_delete_eq (o : Obj) (k : String) : (o.delete k).lookup k = none := by
  induction o with
  | nil => rfl
  | cons p o ih =>
    obtain ⟨k', v'⟩ := p
    rw [Obj.delete_cons]
    by_cases h : k' = k
    · rw [if_pos h, ih]
    · have hb : (k == k') = false := by simpa using fun e => h e.symm
      rw [if_neg h, List.lookup, hb]
      exact ih

theorem Obj.lookup_delete_ne (o : Obj) (k k' : String) (h : k' ≠ k) :
    (o.delete k).lookup k' = o.lookup k' := by
  induction o with
  | nil => rfl
  | cons p o ih =>
    obtain ⟨k₀, v₀⟩ := p
    rw [Obj.delete_cons]
    by_cases h0 : k₀ = k
    · have hb : (k' == k₀) = false := by simpa [h0] using h
      rw [if_pos h0, ih]
      simp only [List.lookup, hb]
    · rw [if_neg h0]
      by_cases h1 : (k' == k₀) = true
      · simp only [List.lookup, h1]
      · have hb : (k' == k₀) = false := by simpa using h1
        simp only [List.lookup, hb]
        exact ih

theorem Obj.lookup_delete (o : Obj) (k k' : String) :
    (o.delete k).lookup k' = if k' = k then none else o.lookup k' := by
  by_cases h : k' = k
  · subst h
    simp [Obj.lookup_delete_eq]
  · simp [h, Obj.lookup_delete_ne o k k' h]

theorem Obj.delete_sublist (o : Obj) (k : String) : List.Sublist (o.delete k) o :=
  List.filter_sublist _

theorem updates_lookup (body : Obj) (k : String) :
    (updateVitals.updates body).lookup k =
      if k ∈ protectedFields then none else body.lookup k := by
  unfold updateVitals.updates
  simp only [Obj.lookup_delete, protectedFields, List.mem_cons, List.mem_singleton,
    List.not_mem_nil, or_false]
  by_cases h1 : k = "created_at"
  · simp [h1]
  by_cases h2 : k = "recorded_at"
  · simp [h2]
  by_cases h3 : k = "doctor_id"
  · simp [h3]
  by_cases h4 : k = "patient_id"
  · simp [h4]
  by_cases h5 : k = "id"
  · simp [h5]
  simp [h1, h2, h3, h4, h5]

theorem span_digits_all (ds : List Char) (h : ∀ c ∈ ds, IsDecimalDigit c) :
    ds.span Char.isDigit = (ds, []) := by
  have := span_digits ds [] h (by simp)
  simpa using this

theorem not_hex_prefix_of_digits (ds : List Char) (h : ∀ c ∈ ds, IsDecimalDigit c) :
    ¬ (['0', 'x'] <+: ds ∨ ['0', 'X'] <+: ds) := by
  have key : ∀ x : Char, ¬ IsDecimalDigit x ∨ True → x = 'x' ∨ x = 'X' →
      ¬ (['0', x] <+: ds) := by
    intro x _ hx hp
    obtain ⟨t, ht⟩ := hp
    have hm : x ∈ ds := by
      rw [← ht]
      simp
    have hd := (h x hm).facts.1
    rcases hx with rfl | rfl <;> exact absurd hd (by decide)
  rintro (hp | hp)
  · exact key 'x' (Or.inr trivial) (Or.inl rfl) hp
  · exact key 'X' (Or.inr trivial) (Or.inr rfl) hp

theorem parseIntChars_digits (ds : List Char) (hd : ∀ c ∈ ds, IsDecimalDigit c)
    (hne : ds ≠ []) : parseIntChars ds = Num.ofRat (digitsValue ds : ℚ) := by
  obtain ⟨c, r, rfl⟩ := List.exists_cons_of_ne_nil hne
  have hc := (hd c (List.mem_cons_self _ _)).facts
  have hx := not_hex_prefix_of_digits (c :: r) hd
  have hs := span_digits_all (c :: r) hd
  have h1 : ¬ (some c = some '-') := fun h => hc.2.2.2.1 (Option.some.inj h)
  have h2 : ¬ (some c = some '+') := fun h => hc.2.2.1 (Option.some.inj h)
  unfold parseIntChars
  simp only [List.head?_cons, h1, h2, or_self, if_false, hx, hs]
  simp

theorem parseIntChars_minus_digits (ds : List Char) (hd : ∀ c ∈ ds, IsDecimalDigit c)
    (hne : ds ≠ []) : parseIntChars ('-' :: ds) = Num.ofRat (-(digitsValue ds : ℚ)) := by
  have hx := not_hex_prefix_of_digits ds hd
  have hs := span_digits_all ds hd
  unfold parseIntChars
  simp only [List.head?_cons, true_or, if_true, List.tail_cons, hx, if_false, hs, hne]
  simp

theorem parseIntString_digits (neg : Bool) (ds : List Char) (hd : ∀ c ∈ ds, IsDecimalDigit c)
    (hne : ds ≠ []) :
    parseIntString (String.mk ((if neg then ['-'] else []) ++ ds)) =
      Num.ofRat ((if neg then -1 else 1) * (digitsValue ds : ℚ)) := by
  cases neg with
  | true =>
    have hw : isStrWhiteSpaceChar '-' = false := by decide
    have e : parseIntString (String.mk ((if true = true then ['-'] else []) ++ ds)) =
        parseIntChars ('-' :: ds) := by
      show parseIntChars (('-' :: ds).dropWhile isStrWhiteSpaceChar) = _
      rw [List.dropWhile_cons_of_neg (by simp [hw])]
    rw [e, parseIntChars_minus_digits ds hd hne]
    simp
  | false =>
    obtain ⟨c, r, rfl⟩ := List.exists_cons_of_ne_nil hne
    have hc := (hd c (List.mem_cons_self _ _)).facts
    have e : parseIntString (String.mk ((if false = true then ['-'] else []) ++ c :: r)) =
        parseIntChars (c :: r) := by
      show parseIntChars ((c :: r).dropWhile isStrWhiteSpaceChar) = _
      rw [List.dropWhile_cons_of_neg (by simp [hc.2.1])]
    rw [e, parseIntChars_digits (c :: r) hd hne]
    simp

theorem natAbs_cast_rat (n : ℤ) :
    ((n.natAbs : ℕ) : ℚ) = if n < 0 then -(n : ℚ) else (n : ℚ) := by
  have h : ((n.natAbs : ℕ) : ℤ) = if n < 0 then -n else n := by
    split_ifs with hn <;> omega
  have h2 : (((n.natAbs : ℕ) : ℤ) : ℚ) = ((if n < 0 then -n else n : ℤ) : ℚ) := by rw [h]
  rw [Int.cast_natCast] at h2
  rw [h2]
  split_ifs <;> simp

theorem parseIntString_intText (n : ℤ) : parseIntString (intText n) = Num.ofRat n := by
  unfold intText
  have h := parseIntString_digits (decide (n < 0)) (Nat.toDigits 10 n.natAbs)
    (toDigits_digits _) (toDigits_ne_nil _)
  simp only [decide_eq_true_eq] at h
  rw [h, digitsValue_toDigits, natAbs_cast_rat]
  congr 1
  split_ifs <;> ring

theorem parseUnsignedDecimal_decimal (ip fp : List Char) (hi : ∀ c ∈ ip, IsDecimalDigit c)
    (hf : ∀ c ∈ fp, IsDecimalDigit c) (hne : ip ≠ []) :
    parseUnsignedDecimal (ip ++ (if fp = [] then [] else '.' :: fp)) =
      some (Num.ofRat ((digitsValue ip : ℚ) + (digitsValue fp : ℚ) / 10 ^ fp.length), []) := by
  have hinf : ∀ rest, ¬ ("Infinity".data <+: ip ++ rest) := by
    intro rest
    cases ip with
    | nil => exact absurd rfl hne
    | cons c r =>
      intro hp
      have hI : "Infinity".data = 'I' :: "nfinity".data := rfl
      rw [hI, List.cons_append, List.cons_prefix_cons] at hp
      exact (hi c (List.mem_cons_self _ _)).facts.2.2.2.2.1 hp.1.symm
  by_cases hfp : fp = []
  · subst hfp
    have hs1 : (ip ++ []).span Char.isDigit = (ip, []) := span_digits ip [] hi (by simp)
    unfold parseUnsignedDecimal
    simp only [if_true, hinf, if_false, hs1, hne, false_and, parseExponent]
  · have hs1 : (ip ++ '.' :: fp).span Char.isDigit = (ip, '.' :: fp) :=
      span_digits ip _ hi (by
        intro c r h
        injection h with h1 _
        rw [← h1]
        decide)
    have hs2 : fp.span Char.isDigit = (fp, []) := by
      have := span_digits fp [] hf (by simp)
      simpa using this
    unfold parseUnsignedDecimal
    simp only [hfp, if_false, hinf, hs1, hs2, hne, false_and, parseExponent]

theorem parseFloatString_decimalText (s : String) (q : ℚ) (h : IsDecimalText s q) :
    parseFloatString s = Num.ofRat q := by
  obtain ⟨neg, ip, fp, hne, hi, hf, rfl, rfl⟩ := h
  have hp := parseUnsignedDecimal_decimal ip fp hi hf hne
  unfold decimalText decimalValue
  cases neg with
  | true =>
    have e : (if true = true then ['-'] else []) ++ ip ++ (if fp = [] then [] else '.' :: fp) =
        '-' :: (ip ++ (if fp = [] then [] else '.' :: fp)) := by simp
    rw [e, parseFloatString_mk _ _ (by decide), parseDecimal_minus, hp]
    simp only [Option.map_some', Num.neg_ofRat, if_true]
    congr 1
    ring
  | false =>
    obtain ⟨c, r, rfl⟩ := List.exists_cons_of_ne_nil hne
    have hc := hi c (List.mem_cons_self _ _)
    have e : (if false = true then ['-'] else []) ++ (c :: r) ++
        (if fp = [] then [] else '.' :: fp) = c :: (r ++ (if fp = [] then [] else '.' :: fp)) := by
      simp
    rw [List.cons_append] at hp
    rw [e, parseFloatString_mk _ _ hc.facts.2.1, parseDecimal_digit _ _ hc, hp]
    simp

theorem decimalText_truthy (s : String) (q : ℚ) (h : IsDecimalText s q) :
    (Val.str s).truthy = true := by
  obtain ⟨neg, ip, fp, hne, -, -, rfl, -⟩ := h
  obtain ⟨c, r, rfl⟩ := List.exists_cons_of_ne_nil hne
  have : decimalText neg (c :: r) fp ≠ "" := by
    intro he
    have hd := congrArg String.data he
    cases neg <;> simp [decimalText] at hd
  simp [Val.truthy, this]

theorem parseFloat_of_forall₂ (f : Vital → Val) (vs : List Vital) (qs : List ℚ)
    (h : List.Forall₂ (fun v q => ∃ s, f v = Val.str s ∧ IsDecimalText s q) vs qs) :
    vs.map (fun v => parseFloat (f v)) = qs.map Num.ofRat := by
  induction h with
  | nil => rfl
  | cons hx _ ih =>
    obtain ⟨s, hs, hd⟩ := hx
    have e : parseFloat (Val.str s) = parseFloatString s := rfl
    rw [List.map_cons, List.map_cons, ih, hs, e, parseFloatString_decimalText s _ hd]

theorem isDecimalDigit_of_mem (c : Char) (h : c ∈ "0123456789".data) : IsDecimalDigit c := by
  have hd : "0123456789".data = ['0', '1', '2', '3', '4', '5', '6', '7', '8', '9'] := rfl
  rw [hd] at h
  simp only [List.mem_cons, List.mem_singleton, List.not_mem_nil, or_false] at h
  rcases h with rfl | rfl | rfl | rfl | rfl | rfl | rfl | rfl | rfl | rfl
  · exact ⟨0, by decide, rfl⟩
  · exact ⟨1, by decide, rfl⟩
  · exact ⟨2, by decide, rfl⟩
  · exact ⟨3, by decide, rfl⟩
  · exact ⟨4, by decide, rfl⟩
  · exact ⟨5, by decide, rfl⟩
  · exact ⟨6, by decide, rfl⟩
  · exact ⟨7, by decide, rfl⟩
  · exact ⟨8, by decide, rfl⟩
  · exact ⟨9, by decide, rfl⟩

theorem isDecimalText_98_6 : IsDecimalText "98.6" (493 / 5) := by
  refine ⟨false, ['9', '8'], ['6'], by decide,
    fun c hc => isDecimalDigit_of_mem c ?_, fun c hc => isDecimalDigit_of_mem c ?_, by decide, ?_⟩
  · revert c; decide
  · revert c; decide
  · simp [decimalValue, digitsValue]
    norm_num

theorem isDecimalText_99_2 : IsDecimalText "99.2" (496 / 5) := by
  refine ⟨false, ['9', '9'], ['2'], by decide,
    fun c hc => isDecimalDigit_of_mem c ?_, fun c hc => isDecimalDigit_of_mem c ?_, by decide, ?_⟩
  · revert c; decide
  · revert c; decide
  · simp [decimalValue, digitsValue]
    norm_num

/-! ## Loop state, ranges, doctor handlers and dates -/

theorem Metric.passes_false_of_isZero (m : Metric) (v : Vital) (h : m.isZero v) :
    m.passes v = false := by
  cases m with
  | bloodPressure =>
    rcases h with h | h <;> simp [Metric.passes, h, intTruthy]
  | temperature =>
    have h' : v.temperature = Val.num (Num.fin 0) := h
    simp [Metric.passes, h', Val.truthy, Num.truthy]
  | weight =>
    have h' : v.weight = Val.num (Num.fin 0) := h
    simp [Metric.passes, h', Val.truthy, Num.truthy]
  | heartRate =>
    have h' : v.heart_rate = some 0 := h
    simp [Metric.passes, h', intTruthy]
  | oxygenSaturation =>
    have h' : v.oxygen_saturation = some 0 := h
    simp [Metric.passes, h', intTruthy]

/-- A row that fails the test of a metric leaves the metric's sum, counter and readings of the
loop as they were. -/
theorem step_of_not_passing (m : Metric) (a : Acc) (v : Vital) (h : m.passes v = false) :
    m.sameAcc (step a v) a := by
  cases m with
  | bloodPressure =>
    obtain ⟨h1, h2, h3, h4⟩ := step_bp a v
    have hf : (intTruthy v.blood_pressure_systolic && intTruthy v.blood_pressure_diastolic)
        = false := h
    simp [Metric.sameAcc, h1, h2, h3, h4, stepBp, hf]
  | temperature =>
    obtain ⟨h1, h2, h3⟩ := step_temp a v
    have hf : v.temperature.truthy = false := h
    simp [Metric.sameAcc, h1, h2, h3, stepTemp, hf]
  | weight =>
    obtain ⟨h1, h2, h3⟩ := step_weight a v
    have hf : v.weight.truthy = false := h
    simp [Metric.sameAcc, h1, h2, h3, stepWeight, hf]
  | heartRate =>
    obtain ⟨h1, h2, h3⟩ := step_hr a v
    have hf : intTruthy v.heart_rate = false := h
    simp [Metric.sameAcc, h1, h2, h3, stepHr, hf]
  | oxygenSaturation =>
    obtain ⟨h1, h2, h3⟩ := step_o2 a v
    have hf : intTruthy v.oxygen_saturation = false := h
    simp [Metric.sameAcc, h1, h2, h3, stepO2, hf]

theorem Metric.sameAcc_symm_trans (m : Metric) (a b c : Acc) (h1 : m.sameAcc a c)
    (h2 : m.sameAcc b c) : m.sameAcc a b := by
  cases m with
  | bloodPressure =>
    obtain ⟨p1, p2, p3, p4⟩ := h1
    obtain ⟨q1, q2, q3, q4⟩ := h2
    exact ⟨p1.trans q1.symm, p2.trans q2.symm, p3.trans q3.symm, p4.trans q4.symm⟩
  | temperature =>
    obtain ⟨p1, p2, p3⟩ := h1
    obtain ⟨q1, q2, q3⟩ := h2
    exact ⟨p1.trans q1.symm, p2.trans q2.symm, p3.trans q3.symm⟩
  | weight =>
    obtain ⟨p1, p2, p3⟩ := h1
    obtain ⟨q1, q2, q3⟩ := h2
    exact ⟨p1.trans q1.symm, p2.trans q2.symm, p3.trans q3.symm⟩
  | heartRate =>
    obtain ⟨p1, p2, p3⟩ := h1
    obtain ⟨q1, q2, q3⟩ := h2
    exact ⟨p1.trans q1.symm, p2.trans q2.symm, p3.trans q3.symm⟩
  | oxygenSaturation =>
    obtain ⟨p1, p2, p3⟩ := h1
    obtain ⟨q1, q2, q3⟩ := h2
    exact ⟨p1.trans q1.symm, p2.trans q2.symm, p3.trans q3.symm⟩

/-- The counter of a metric after the loop is the number of rows that pass its test, and the
summary has as many readings. -/
theorem count_and_readings (m : Metric) (vitals : List Vital) :
    m.count (accumulate vitals) = (vitals.filter m.passes).length ∧
    m.readingsLength (finish (accumulate vitals)) = m.count (accumulate vitals) := by
  cases m with
  | bloodPressure =>
    obtain ⟨-, -, p3, p4⟩ := accumulate_bp vitals
    refine ⟨p4, ?_⟩
    simp only [Metric.readingsLength, Metric.count, finish, p3, p4, List.length_map]
  | temperature =>
    obtain ⟨-, p2, p3⟩ := accumulate_temp vitals
    refine ⟨p3, ?_⟩
    simp only [Metric.readingsLength, Metric.count, finish, p2, p3, List.length_map]
  | weight =>
    obtain ⟨-, p2, p3⟩ := accumulate_weight vitals
    refine ⟨p3, ?_⟩
    simp only [Metric.readingsLength, Metric.count, finish, p2, p3, List.length_map]
  | heartRate =>
    obtain ⟨-, p2, p3⟩ := accumulate_hr vitals
    refine ⟨p3, ?_⟩
    simp only [Metric.readingsLength, Metric.count, finish, p2, p3, List.length_map]
  | oxygenSaturation =>
    obtain ⟨-, p2, p3⟩ := accumulate_o2 vitals
    refine ⟨p3, ?_⟩
    simp only [Metric.readingsLength, Metric.count, finish, p2, p3, List.length_map]

theorem sum_bounds (xs : List ℚ) (a b : ℚ) (h : ∀ x ∈ xs, a ≤ x ∧ x ≤ b) :
    a * xs.length ≤ xs.sum ∧ xs.sum ≤ b * xs.length := by
  induction xs with
  | nil => simp
  | cons x xs ih =>
    obtain ⟨h1, h2⟩ := h x (List.mem_cons_self _ _)
    obtain ⟨i1, i2⟩ := ih (fun y hy => h y (List.mem_cons_of_mem _ hy))
    simp only [List.sum_cons, List.length_cons, Nat.cast_add, Nat.cast_one]
    constructor <;> nlinarith

theorem mean_bounds (xs : List ℚ) (a b : ℚ) (hne : xs ≠ []) (h : ∀ x ∈ xs, a ≤ x ∧ x ≤ b) :
    a ≤ mean xs ∧ mean xs ≤ b := by
  obtain ⟨h1, h2⟩ := sum_bounds xs a b h
  have hl : (0 : ℚ) < xs.length := by
    exact_mod_cast List.length_pos.mpr hne
  unfold mean
  constructor
  · rw [le_div_iff₀ hl]; exact h1
  · rw [div_le_iff₀ hl]; exact h2

theorem roundHalfUp_bounds (x : ℚ) (a b : ℤ) (ha : (a : ℚ) ≤ x) (hb : x ≤ (b : ℚ)) :
    a ≤ roundHalfUp x ∧ roundHalfUp x ≤ b := by
  unfold roundHalfUp
  constructor
  · rw [Int.le_floor]
    linarith
  · have h : ⌊x + 1 / 2⌋ < b + 1 := by
      rw [Int.floor_lt]
      push_cast
      linarith
    omega

theorem withinRange_of_rounded_mean (f : Vital → Option ℤ) (vs : List Vital) :
    WithinRangeOf (contributingValues f vs) ((roundHalfUp (mean (intValues f vs)) : ℤ) : ℚ) := by
  intro lo hi hlo hhi
  have hne : vs ≠ [] := by
    intro h
    rw [h] at hlo
    exact absurd hlo.1 (by simp [contributingValues])
  have hv : intValues f vs ≠ [] := by
    simpa [intValues] using hne
  have hb : ∀ x ∈ intValues f vs, (lo : ℚ) ≤ x ∧ x ≤ (hi : ℚ) := by
    intro x hx
    simp only [intValues, List.mem_map] at hx
    obtain ⟨v, hv, rfl⟩ := hx
    have hm : intValue (f v) ∈ contributingValues f vs := by
      simp only [contributingValues, List.mem_map]
      exact ⟨v, hv, rfl⟩
    exact ⟨by exact_mod_cast hlo.2 _ hm, by exact_mod_cast hhi.2 _ hm⟩
  obtain ⟨m1, m2⟩ := mean_bounds _ _ _ hv hb
  obtain ⟨r1, r2⟩ := roundHalfUp_bounds _ lo hi m1 m2
  exact ⟨by exact_mod_cast r1, by exact_mod_cast r2⟩

theorem createBmi_eq (vitalsData : Obj) :
    VitalsModel.createBmi vitalsData =
      if VitalsModel.createComputes vitalsData = true then
        Val.num (bmiOf (vitalsData.get "weight") (vitalsData.get "height"))
      else vitalsData.get "bmi" := rfl

theorem writtenBmi_of_recalculated (current updates : Obj) (vitalsId now : String)
    (ht : (updates.get "weight").truthy = true ∨ (updates.get "height").truthy = true)
    (hw : ((updates.get "weight").or (current.get "weight")).truthy = true)
    (hh : ((updates.get "height").or (current.get "height")).truthy = true) :
    writtenBmi (VitalsModel.update (some current) vitalsId updates now) =
      some (Val.num (bmiOf ((updates.get "weight").or (current.get "weight"))
        ((updates.get "height").or (current.get "height")))) := by
  rw [writtenBmi, update_recalculated current updates vitalsId now ht hw hh]
  simp only [writtenFields, List.findSome?, Option.map]
  rw [Obj.get_set_ne _ _ _ _ (by decide), Obj.get_set_eq]

theorem writtenBmi_of_not_recalculated (current updates : Obj) (vitalsId now : String)
    (h : ((updates.get "weight").truthy = false ∧ (updates.get "height").truthy = false) ∨
      ((updates.get "weight").or (current.get "weight")).truthy = false ∨
      ((updates.get "height").or (current.get "height")).truthy = false) :
    writtenBmi (VitalsModel.update (some current) vitalsId updates now) =
      some (updates.get "bmi") := by
  rw [writtenBmi, update_not_recalculated current updates vitalsId now h]
  simp only [Option.map]
  rw [Obj.get_set_ne _ _ _ _ (by decide)]

theorem createRow_lookup (vitalsData : Obj) (t1 t2 t3 : String) (k : String)
    (hk : k ∉ createdFields) :
    (VitalsModel.createRow vitalsData t1 t2 t3).lookup k = vitalsData.lookup k := by
  simp only [createdFields, List.mem_cons, List.mem_singleton, List.not_mem_nil, or_false,
    not_or] at hk
  obtain ⟨h1, h2, h3, h4⟩ := hk
  unfold VitalsModel.createRow
  rw [Obj.lookup_set_ne _ _ _ _ h4, Obj.lookup_set_ne _ _ _ _ h3, Obj.lookup_set_ne _ _ _ _ h2,
    Obj.lookup_set_ne _ _ _ _ h1]

theorem createRow_timestamps (vitalsData : Obj) (t1 t2 t3 : String) :
    (VitalsModel.createRow vitalsData t1 t2 t3).lookup "recorded_at" = some (Val.str t1) ∧
    (VitalsModel.createRow vitalsData t1 t2 t3).lookup "created_at" = some (Val.str t2) ∧
    (VitalsModel.createRow vitalsData t1 t2 t3).lookup "updated_at" = some (Val.str t3) := by
  unfold VitalsModel.createRow
  refine ⟨?_, ?_, ?_⟩
  · rw [Obj.lookup_set_ne _ _ _ _ (by decide), Obj.lookup_set_ne _ _ _ _ (by decide),
      Obj.lookup_set_eq]
  · rw [Obj.lookup_set_ne _ _ _ _ (by decide), Obj.lookup_set_eq]
  · rw [Obj.lookup_set_eq]

theorem doctor_updates_lookup (body : Obj) (k : String) :
    (updateDoctorProfile.updates body).lookup k =
      if k ∈ protectedDoctorFields then none else body.lookup k := by
  unfold updateDoctorProfile.updates
  simp only [Obj.lookup_delete, protectedDoctorFields, List.mem_cons, List.mem_singleton,
    List.not_mem_nil, or_false]
  by_cases h1 : k = "created_at"
  · simp [h1]
  by_cases h2 : k = "verification_status"
  · simp [h2]
  by_cases h3 : k = "is_verified"
  · simp [h3]
  by_cases h4 : k = "password_hash"
  · simp [h4]
  by_cases h5 : k = "doctor_id"
  · simp [h5]
  by_cases h6 : k = "id"
  · simp [h6]
  simp [h1, h2, h3, h4, h5, h6]

theorem loginDoctor_returnedDoctor (fetched : Except String (Option Obj))
    (touched : Except String Obj) (body : Obj) (now : String) (d : Obj)
    (h : (loginDoctor fetched touched body now).1.returnedDoctor = some d) :
    ∃ doctor, fetched = Except.ok (some doctor) ∧ d = doctor.delete "password_hash" := by
  unfold loginDoctor at h
  split_ifs at h
  · simp [DoctorReply.returnedDoctor] at h
  all_goals
    cases fetched with
    | error e => simp [DoctorReply.returnedDoctor, doctorServerError] at h
    | ok o =>
      cases o with
      | none => simp [DoctorReply.returnedDoctor] at h
      | some doctor =>
        simp only at h
        split_ifs at h
        all_goals first
          | (simp [DoctorReply.returnedDoctor] at h; done)
          | (cases touched with
             | error e => simp [DoctorReply.returnedDoctor, doctorServerError] at h
             | ok row =>
               simp [DoctorReply.returnedDoctor] at h
               exact ⟨doctor, rfl, h.symm⟩)

/-- The date-of-birth check computes the age from the local date of the parsed string. -/
theorem dateOfBirthError_eq (offsetMinutes : ℤ) (today entered : CalDate) :
    validateForm.dateOfBirthError offsetMinutes today (some entered) =
      if ageOn (localDateOfUtcMidnight offsetMinutes entered) today < 18 then
        some "You must be 18 years or older to register"
      else none := by
  simp only [validateForm.dateOfBirthError, ageOn]
  have e : ∀ a b : ℤ, (a - 1 - (b - 1) < 0 ↔ a < b) ∧ (a - 1 - (b - 1) = 0 ↔ a = b) := by
    intro a b
    constructor <;> constructor <;> intro h <;> omega
  simp only [(e _ _).1, (e _ _).2]
  split_ifs <;> first | rfl | omega

/-- In a time zone at or east of UTC the date-of-birth check accepts exactly the applicants
who are 18 or older today. -/
theorem dateOfBirthError_east (offsetMinutes : ℤ) (today entered : CalDate)
    (h : 0 ≤ offsetMinutes) :
    (validateForm.dateOfBirthError offsetMinutes today (some entered) = none ↔
      18 ≤ ageOn entered today) ∧
    (ageOn entered today < 18 →
      validateForm.dateOfBirthError offsetMinutes today (some entered) =
        some "You must be 18 years or older to register") := by
  have hl : localDateOfUtcMidnight offsetMinutes entered = entered := by
    simp [localDateOfUtcMidnight, not_lt.mpr h]
  rw [dateOfBirthError_eq, hl]
  constructor
  · by_cases ha : ageOn entered today < 18
    · simp [ha]
    · simp [ha, not_lt.mp ha]
  · intro ha
    simp [ha]

/-! ## Worked values in double precision -/

theorem Val.ofRat_int (q : ℚ) (n : ℤ) (hq : q = (n : ℚ)) (h : |(n : ℚ)| ≤ 2 ^ 53) :
    Val.ofRat q = Val.num (Num.fin q) := by
  subst hq
  rw [Val.ofRat, Num.ofRat_intCast_le n h]

theorem bmiOf_fin (w h : ℚ) : bmiOf (Val.num (Num.fin w)) (Val.num (Num.fin h)) = doubleBmi w h :=
  rfl

@[simp] theorem Val.ofRat_25 : Val.ofRat 25 = Val.num (Num.fin 25) :=
  Val.ofRat_int 25 25 (by norm_num) (by norm_num)

@[simp] theorem Val.ofRat_30 : Val.ofRat 30 = Val.num (Num.fin 30) :=
  Val.ofRat_int 30 30 (by norm_num) (by norm_num)

@[simp] theorem Val.ofRat_48 : Val.ofRat 48 = Val.num (Num.fin 48) :=
  Val.ofRat_int 48 48 (by norm_num) (by norm_num)

@[simp] theorem Val.ofRat_70 : Val.ofRat 70 = Val.num (Num.fin 70) :=
  Val.ofRat_int 70 70 (by norm_num) (by norm_num)

@[simp] theorem Val.ofRat_80 : Val.ofRat 80 = Val.num (Num.fin 80) :=
  Val.ofRat_int 80 80 (by norm_num) (by norm_num)

@[simp] theorem Val.ofRat_100 : Val.ofRat 100 = Val.num (Num.fin 100) :=
  Val.ofRat_int 100 100 (by norm_num) (by norm_num)

@[simp] theorem Val.ofRat_160 : Val.ofRat 160 = Val.num (Num.fin 160) :=
  Val.ofRat_int 160 160 (by norm_num) (by norm_num)

@[simp] theorem Val.ofRat_170 : Val.ofRat 170 = Val.num (Num.fin 170) :=
  Val.ofRat_int 170 170 (by norm_num) (by norm_num)

@[simp] theorem Val.ofRat_175 : Val.ofRat 175 = Val.num (Num.fin 175) :=
  Val.ofRat_int 175 175 (by norm_num) (by norm_num)

@[simp] theorem Val.ofRat_180 : Val.ofRat 180 = Val.num (Num.fin 180) :=
  Val.ofRat_int 180 180 (by norm_num) (by norm_num)

@[simp] theorem Val.ofRat_neg_quarter : Val.ofRat (-1 / 4) = Val.num (Num.fin (-1 / 4)) := by
  rw [Val.ofRat, Num.ofRat_of_eq (-1 / 4) (-1) (-2) (by norm_num) (by norm_num) (by norm_num)
    (by norm_num [abs_of_neg])]

/-- The double `1e-162`. -/
theorem ofRat_tiny : Num.ofRat (1 / 10 ^ 162) = Num.fin (8104522595470689 / 2 ^ 591) :=
  (by
      rw [Num.ofRat_of_binade (1 / 10 ^ 162) (-539) (8104522595470689) (by norm_num) (by norm_num)
        (by norm_num [abs_of_pos]) (by norm_num [abs_of_pos]) (by norm_num [abs_lt])]
      norm_num)

/-- The double `1e-162 / 100`. -/
theorem div_tiny : (Num.fin (8104522595470689 / 2 ^ 591)).div (Num.fin 100) =
    Num.fin (5186894461101241 / 2 ^ 597) := by
  rw [Num.div_fin, if_neg (by norm_num)]
  exact (by
      rw [Num.ofRat_of_binade ((8104522595470689 / 2 ^ 591) / 100) (-545) (5186894461101241)
          (by norm_num) (by norm_num)
        (by norm_num [abs_of_pos]) (by norm_num [abs_of_pos]) (by norm_num [abs_lt])]
      norm_num)

/-- The square of the double `1e-162 / 100` is below half the least positive double and rounds
to zero. -/
theorem mul_tiny : (Num.fin (5186894461101241 / 2 ^ 597)).mul
    (Num.fin (5186894461101241 / 2 ^ 597)) = Num.fin 0 := by
  rw [Num.mul_fin]
  exact Num.ofRat_underflow _ (by norm_num [abs_of_pos])

/-- The number `10^21` is a double. -/
theorem ofRat_1e21 : Num.ofRat (10 ^ 21) = Num.fin (10 ^ 21) :=
  (by
      rw [Num.ofRat_of_binade (10 ^ 21) (69) (7629394531250000) (by norm_num) (by norm_num)
        (by norm_num [abs_of_pos]) (by norm_num [abs_of_pos]) (by norm_num [abs_lt])]
      norm_num)

theorem ofRat_2e21 : Num.ofRat (2 * 10 ^ 21) = Num.fin (2 * 10 ^ 21) :=
  (by
      rw [Num.ofRat_of_binade (2 * 10 ^ 21) (70) (7629394531250000) (by norm_num) (by norm_num)
        (by norm_num [abs_of_pos]) (by norm_num [abs_of_pos]) (by norm_num [abs_lt])]
      norm_num)

/-- The integer `2^53 + 1` is halfway between two doubles and rounds to the even one, `2^53`. -/
theorem ofRat_9007199254740993 :
    Num.ofRat 9007199254740993 = Num.fin 9007199254740992 :=
  (by
      rw [Num.ofRat_of_binade_round (9007199254740993) (53) (by norm_num) (by norm_num)
        (by norm_num [abs_of_pos]) (by norm_num [abs_of_pos]),
        show (9007199254740993 : ℚ) / 2 ^ ((53 : ℤ) - 52) =
            ((4503599627370496 : ℤ) : ℚ) + 1 / 2 by norm_num,
        roundHalfEven_tie, if_pos (by decide)]
      norm_num)

/-- Weight `70`, height `175`: the quotient `22.857…` gives `22.9`. -/
theorem bmiOf_70_175 :
    bmiOf (Val.num (Num.fin 70)) (Val.num (Num.fin 175)) = Num.ofRat (229 / 10) := by
  have s1 : (Num.fin 175).div (Num.fin 100) = Num.fin (7 / 4) := by
    rw [Num.div_fin, if_neg (by norm_num)]
    exact (by
      rw [Num.ofRat_of_binade (175 / 100) (0) (7881299347898368) (by norm_num) (by norm_num)
        (by norm_num [abs_of_pos]) (by norm_num [abs_of_pos]) (by norm_num [abs_lt])]
      norm_num)
  have s2 : (Num.fin (7 / 4)).mul (Num.fin (7 / 4)) = Num.fin (49 / 16) := by
    rw [Num.mul_fin]
    exact (by
      rw [Num.ofRat_of_binade ((7 / 4) * (7 / 4)) (1) (6896136929411072) (by norm_num) (by norm_num)
        (by norm_num [abs_of_pos]) (by norm_num [abs_of_pos]) (by norm_num [abs_lt])]
      norm_num)
  have s3 : (Num.fin 70).div (Num.fin (49 / 16)) =
      Num.fin (6433713753386423 / 281474976710656) := by
    rw [Num.div_fin, if_neg (by norm_num)]
    exact (by
      rw [Num.ofRat_of_binade (70 / (49 / 16)) (4) (6433713753386423) (by norm_num) (by norm_num)
        (by norm_num [abs_of_pos]) (by norm_num [abs_of_pos]) (by norm_num [abs_lt])]
      norm_num)
  have s4 : (Num.fin (6433713753386423 / 281474976710656)).mul (Num.fin 10) =
      Num.fin (8042142191733029 / 35184372088832) := by
    rw [Num.mul_fin]
    exact (by
      rw [Num.ofRat_of_binade ((6433713753386423 / 281474976710656) * 10) (7) (8042142191733029)
          (by norm_num) (by norm_num)
        (by norm_num [abs_of_pos]) (by norm_num [abs_of_pos]) (by norm_num [abs_lt])]
      norm_num)
  have s5 : (Num.fin (8042142191733029 / 35184372088832)).round = Num.fin 229 := by
    rw [Num.round_fin]
    norm_num
  simp only [bmiOf, Val.toNumber]
  rw [s1, s2, s3, s4, s5, Num.div_fin, if_neg (by norm_num)]

/-- Weight `80`, height `180`: the quotient `24.69…` gives `24.7`. -/
theorem bmiOf_80_180 :
    bmiOf (Val.num (Num.fin 80)) (Val.num (Num.fin 180)) = Num.ofRat (247 / 10) := by
  have s1 : (Num.fin 180).div (Num.fin 100) = Num.fin (8106479329266893 / 4503599627370496) := by
    rw [Num.div_fin, if_neg (by norm_num)]
    exact (by
      rw [Num.ofRat_of_binade (180 / 100) (0) (8106479329266893) (by norm_num) (by norm_num)
        (by norm_num [abs_of_pos]) (by norm_num [abs_of_pos]) (by norm_num [abs_lt])]
      norm_num)
  have s2 : (Num.fin (8106479329266893 / 4503599627370496)).mul
      (Num.fin (8106479329266893 / 4503599627370496)) =
      Num.fin (1823957849085051 / 562949953421312) := by
    rw [Num.mul_fin]
    exact (by
      rw [Num.ofRat_of_binade
          ((8106479329266893 / 4503599627370496) * (8106479329266893 / 4503599627370496)) (1)
          (7295831396340204) (by norm_num) (by norm_num)
        (by norm_num [abs_of_pos]) (by norm_num [abs_of_pos]) (by norm_num [abs_lt])]
      norm_num)
  have s3 : (Num.fin 80).div (Num.fin (1823957849085051 / 562949953421312)) =
      Num.fin (6949999424954469 / 281474976710656) := by
    rw [Num.div_fin, if_neg (by norm_num)]
    exact (by
      rw [Num.ofRat_of_binade (80 / (1823957849085051 / 562949953421312)) (4) (6949999424954469)
          (by norm_num) (by norm_num)
        (by norm_num [abs_of_pos]) (by norm_num [abs_of_pos]) (by norm_num [abs_lt])]
      norm_num)
  have s4 : (Num.fin (6949999424954469 / 281474976710656)).mul (Num.fin 10) =
      Num.fin (4343749640596543 / 17592186044416) := by
    rw [Num.mul_fin]
    exact (by
      rw [Num.ofRat_of_binade ((6949999424954469 / 281474976710656) * 10) (7) (8687499281193086)
          (by norm_num) (by norm_num)
        (by norm_num [abs_of_pos]) (by norm_num [abs_of_pos]) (by norm_num [abs_lt])]
      norm_num)
  have s5 : (Num.fin (4343749640596543 / 17592186044416)).round = Num.fin 247 := by
    rw [Num.round_fin]
    norm_num
  simp only [bmiOf, Val.toNumber]
  rw [s1, s2, s3, s4, s5, Num.div_fin, if_neg (by norm_num)]

/-- Weight `70`, height `170`: the quotient `24.22…` gives `24.2`. -/
theorem bmiOf_70_170 :
    bmiOf (Val.num (Num.fin 70)) (Val.num (Num.fin 170)) = Num.ofRat (121 / 5) := by
  have s1 : (Num.fin 170).div (Num.fin 100) = Num.fin (7656119366529843 / 4503599627370496) := by
    rw [Num.div_fin, if_neg (by norm_num)]
    exact (by
      rw [Num.ofRat_of_binade (170 / 100) (0) (7656119366529843) (by norm_num) (by norm_num)
        (by norm_num [abs_of_pos]) (by norm_num [abs_of_pos]) (by norm_num [abs_lt])]
      norm_num)
  have s2 : (Num.fin (7656119366529843 / 4503599627370496)).mul
      (Num.fin (7656119366529843 / 4503599627370496)) =
      Num.fin (3253850730775183 / 1125899906842624) := by
    rw [Num.mul_fin]
    exact (by
      rw [Num.ofRat_of_binade
          ((7656119366529843 / 4503599627370496) * (7656119366529843 / 4503599627370496)) (1)
          (6507701461550366) (by norm_num) (by norm_num)
        (by norm_num [abs_of_pos]) (by norm_num [abs_of_pos]) (by norm_num [abs_lt])]
      norm_num)
  have s3 : (Num.fin 70).div (Num.fin (3253850730775183 / 1125899906842624)) =
      Num.fin (1704433249978021 / 70368744177664) := by
    rw [Num.div_fin, if_neg (by norm_num)]
    exact (by
      rw [Num.ofRat_of_binade (70 / (3253850730775183 / 1125899906842624)) (4) (6817732999912084)
          (by norm_num) (by norm_num)
        (by norm_num [abs_of_pos]) (by norm_num [abs_of_pos]) (by norm_num [abs_lt])]
      norm_num)
  have s4 : (Num.fin (1704433249978021 / 70368744177664)).mul (Num.fin 10) =
      Num.fin (8522166249890105 / 35184372088832) := by
    rw [Num.mul_fin]
    exact (by
      rw [Num.ofRat_of_binade ((1704433249978021 / 70368744177664) * 10) (7) (8522166249890105)
          (by norm_num) (by norm_num)
        (by norm_num [abs_of_pos]) (by norm_num [abs_of_pos]) (by norm_num [abs_lt])]
      norm_num)
  have s5 : (Num.fin (8522166249890105 / 35184372088832)).round = Num.fin 242 := by
    rw [Num.round_fin]
    norm_num
  simp only [bmiOf, Val.toNumber]
  rw [s1, s2, s3, s4, s5, Num.div_fin, if_neg (by norm_num)]
  rw [show ((242 : ℚ) / 10) = (121 / 5) by norm_num]

/-- Weight `70`, height `180`: the quotient `21.60…` gives `21.6`. -/
theorem bmiOf_70_180 :
    bmiOf (Val.num (Num.fin 70)) (Val.num (Num.fin 180)) = Num.ofRat (108 / 5) := by
  have s1 : (Num.fin 180).div (Num.fin 100) = Num.fin (8106479329266893 / 4503599627370496) := by
    rw [Num.div_fin, if_neg (by norm_num)]
    exact (by
      rw [Num.ofRat_of_binade (180 / 100) (0) (8106479329266893) (by norm_num) (by norm_num)
        (by norm_num [abs_of_pos]) (by norm_num [abs_of_pos]) (by norm_num [abs_lt])]
      norm_num)
  have s2 : (Num.fin (8106479329266893 / 4503599627370496)).mul
      (Num.fin (8106479329266893 / 4503599627370496)) =
      Num.fin (1823957849085051 / 562949953421312) := by
    rw [Num.mul_fin]
    exact (by
      rw [Num.ofRat_of_binade
          ((8106479329266893 / 4503599627370496) * (8106479329266893 / 4503599627370496)) (1)
          (7295831396340204) (by norm_num) (by norm_num)
        (by norm_num [abs_of_pos]) (by norm_num [abs_of_pos]) (by norm_num [abs_lt])]
      norm_num)
  have s3 : (Num.fin 70).div (Num.fin (1823957849085051 / 562949953421312)) =
      Num.fin (760156187104395 / 35184372088832) := by
    rw [Num.div_fin, if_neg (by norm_num)]
    exact (by
      rw [Num.ofRat_of_binade (70 / (1823957849085051 / 562949953421312)) (4) (6081249496835160)
          (by norm_num) (by norm_num)
        (by norm_num [abs_of_pos]) (by norm_num [abs_of_pos]) (by norm_num [abs_lt])]
      norm_num)
  have s4 : (Num.fin (760156187104395 / 35184372088832)).mul (Num.fin 10) =
      Num.fin (3800780935521975 / 17592186044416) := by
    rw [Num.mul_fin]
    exact (by
      rw [Num.ofRat_of_binade ((760156187104395 / 35184372088832) * 10) (7) (7601561871043950)
          (by norm_num) (by norm_num)
        (by norm_num [abs_of_pos]) (by norm_num [abs_of_pos]) (by norm_num [abs_lt])]
      norm_num)
  have s5 : (Num.fin (3800780935521975 / 17592186044416)).round = Num.fin 216 := by
    rw [Num.round_fin]
    norm_num
  simp only [bmiOf, Val.toNumber]
  rw [s1, s2, s3, s4, s5, Num.div_fin, if_neg (by norm_num)]
  rw [show ((216 : ℚ) / 10) = (108 / 5) by norm_num]

/-- Weight `48`, height `160`: the exact quotient is `18.75`, the double quotient is a little
less, and the result is `18.7`. -/
theorem bmiOf_48_160 :
    bmiOf (Val.num (Num.fin 48)) (Val.num (Num.fin 160)) = Num.ofRat (187 / 10) := by
  have s1 : (Num.fin 160).div (Num.fin 100) = Num.fin (3602879701896397 / 2251799813685248) := by
    rw [Num.div_fin, if_neg (by norm_num)]
    exact (by
      rw [Num.ofRat_of_binade (160 / 100) (0) (7205759403792794) (by norm_num) (by norm_num)
        (by norm_num [abs_of_pos]) (by norm_num [abs_of_pos]) (by norm_num [abs_lt])]
      norm_num)
  have s2 : (Num.fin (3602879701896397 / 2251799813685248)).mul
      (Num.fin (3602879701896397 / 2251799813685248)) =
      Num.fin (1441151880758559 / 562949953421312) := by
    rw [Num.mul_fin]
    exact (by
      rw [Num.ofRat_of_binade
          ((3602879701896397 / 2251799813685248) * (3602879701896397 / 2251799813685248)) (1)
          (5764607523034236) (by norm_num) (by norm_num)
        (by norm_num [abs_of_pos]) (by norm_num [abs_of_pos]) (by norm_num [abs_lt])]
      norm_num)
  have s3 : (Num.fin 48).div (Num.fin (1441151880758559 / 562949953421312)) =
      Num.fin (5277655813324799 / 281474976710656) := by
    rw [Num.div_fin, if_neg (by norm_num)]
    exact (by
      rw [Num.ofRat_of_binade (48 / (1441151880758559 / 562949953421312)) (4) (5277655813324799)
          (by norm_num) (by norm_num)
        (by norm_num [abs_of_pos]) (by norm_num [abs_of_pos]) (by norm_num [abs_lt])]
      norm_num)
  have s4 : (Num.fin (5277655813324799 / 281474976710656)).mul (Num.fin 10) =
      Num.fin (6597069766655999 / 35184372088832) := by
    rw [Num.mul_fin]
    exact (by
      rw [Num.ofRat_of_binade ((5277655813324799 / 281474976710656) * 10) (7) (6597069766655999)
          (by norm_num) (by norm_num)
        (by norm_num [abs_of_pos]) (by norm_num [abs_of_pos]) (by norm_num [abs_lt])]
      norm_num)
  have s5 : (Num.fin (6597069766655999 / 35184372088832)).round = Num.fin 187 := by
    rw [Num.round_fin]
    norm_num
  simp only [bmiOf, Val.toNumber]
  rw [s1, s2, s3, s4, s5, Num.div_fin, if_neg (by norm_num)]

/-- Weight `80`, height `160`: the exact quotient is `31.25`, the double quotient is a little
less, and the result is `31.2`. -/
theorem bmiOf_80_160 :
    bmiOf (Val.num (Num.fin 80)) (Val.num (Num.fin 160)) = Num.ofRat (156 / 5) := by
  have s1 : (Num.fin 160).div (Num.fin 100) = Num.fin (3602879701896397 / 2251799813685248) := by
    rw [Num.div_fin, if_neg (by norm_num)]
    exact (by
      rw [Num.ofRat_of_binade (160 / 100) (0) (7205759403792794) (by norm_num) (by norm_num)
        (by norm_num [abs_of_pos]) (by norm_num [abs_of_pos]) (by norm_num [abs_lt])]
      norm_num)
  have s2 : (Num.fin (3602879701896397 / 2251799813685248)).mul
      (Num.fin (3602879701896397 / 2251799813685248)) =
      Num.fin (1441151880758559 / 562949953421312) := by
    rw [Num.mul_fin]
    exact (by
      rw [Num.ofRat_of_binade
          ((3602879701896397 / 2251799813685248) * (3602879701896397 / 2251799813685248)) (1)
          (5764607523034236) (by norm_num) (by norm_num)
        (by norm_num [abs_of_pos]) (by norm_num [abs_of_pos]) (by norm_num [abs_lt])]
      norm_num)
  have s3 : (Num.fin 80).div (Num.fin (1441151880758559 / 562949953421312)) =
      Num.fin (4398046511103999 / 140737488355328) := by
    rw [Num.div_fin, if_neg (by norm_num)]
    exact (by
      rw [Num.ofRat_of_binade (80 / (1441151880758559 / 562949953421312)) (4) (8796093022207998)
          (by norm_num) (by norm_num)
        (by norm_num [abs_of_pos]) (by norm_num [abs_of_pos]) (by norm_num [abs_lt])]
      norm_num)
  have s4 : (Num.fin (4398046511103999 / 140737488355328)).mul (Num.fin 10) =
      Num.fin (5497558138879999 / 17592186044416) := by
    rw [Num.mul_fin]
    exact (by
      rw [Num.ofRat_of_binade ((4398046511103999 / 140737488355328) * 10) (8) (5497558138879999)
          (by norm_num) (by norm_num)
        (by norm_num [abs_of_pos]) (by norm_num [abs_of_pos]) (by norm_num [abs_lt])]
      norm_num)
  have s5 : (Num.fin (5497558138879999 / 17592186044416)).round = Num.fin 312 := by
    rw [Num.round_fin]
    norm_num
  simp only [bmiOf, Val.toNumber]
  rw [s1, s2, s3, s4, s5, Num.div_fin, if_neg (by norm_num)]
  rw [show ((312 : ℚ) / 10) = (156 / 5) by norm_num]

/-- Weight `-0.25`, height `100`: the quotient `-0.25` scaled by ten is the tie `-2.5`, which
`Math.round` takes up to `-2`, and the result is `-0.2`. -/
theorem bmiOf_neg_quarter_100 :
    bmiOf (Val.num (Num.fin (-1 / 4))) (Val.num (Num.fin 100)) = Num.ofRat (-1 / 5) := by
  have s1 : (Num.fin 100).div (Num.fin 100) = Num.fin 1 := by
    rw [Num.div_fin, if_neg (by norm_num)]
    exact (by
      rw [Num.ofRat_of_binade (100 / 100) (0) (4503599627370496) (by norm_num) (by norm_num)
        (by norm_num [abs_of_pos]) (by norm_num [abs_of_pos]) (by norm_num [abs_lt])]
      norm_num)
  have s2 : (Num.fin 1).mul (Num.fin 1) = Num.fin 1 := by
    rw [Num.mul_fin]
    exact (by
      rw [Num.ofRat_of_binade (1 * 1) (0) (4503599627370496) (by norm_num) (by norm_num)
        (by norm_num [abs_of_pos]) (by norm_num [abs_of_pos]) (by norm_num [abs_lt])]
      norm_num)
  have s3 : (Num.fin (-1 / 4)).div (Num.fin 1) = Num.fin (-1 / 4) := by
    rw [Num.div_fin, if_neg (by norm_num)]
    exact (by
      rw [Num.ofRat_of_binade ((-1 / 4) / 1) (-2) (-4503599627370496) (by norm_num) (by norm_num)
        (by norm_num [abs_of_neg]) (by norm_num [abs_of_neg]) (by norm_num [abs_lt])]
      norm_num)
  have s4 : (Num.fin (-1 / 4)).mul (Num.fin 10) = Num.fin (-5 / 2) := by
    rw [Num.mul_fin]
    exact (by
      rw [Num.ofRat_of_binade ((-1 / 4) * 10) (1) (-5629499534213120) (by norm_num) (by norm_num)
        (by norm_num [abs_of_neg]) (by norm_num [abs_of_neg]) (by norm_num [abs_lt])]
      norm_num)
  have s5 : (Num.fin (-5 / 2)).round = Num.fin (-2) := by
    rw [Num.round_fin]
    norm_num
  simp only [bmiOf, Val.toNumber]
  rw [s1, s2, s3, s4, s5, Num.div_fin, if_neg (by norm_num)]
  rw [show (((-2) : ℚ) / 10) = (-1 / 5) by norm_num]

/-- Weight `1`, height `175`: the quotient `0.3265…` gives `0.3`. -/
theorem bmiOf_1_175 :
    bmiOf (Val.num (Num.fin 1)) (Val.num (Num.fin 175)) = Num.ofRat (3 / 10) := by
  have s1 : (Num.fin 175).div (Num.fin 100) = Num.fin (7 / 4) := by
    rw [Num.div_fin, if_neg (by norm_num)]
    exact (by
      rw [Num.ofRat_of_binade (175 / 100) (0) (7881299347898368) (by norm_num) (by norm_num)
        (by norm_num [abs_of_pos]) (by norm_num [abs_of_pos]) (by norm_num [abs_lt])]
      norm_num)
  have s2 : (Num.fin (7 / 4)).mul (Num.fin (7 / 4)) = Num.fin (49 / 16) := by
    rw [Num.mul_fin]
    exact (by
      rw [Num.ofRat_of_binade ((7 / 4) * (7 / 4)) (1) (6896136929411072) (by norm_num) (by norm_num)
        (by norm_num [abs_of_pos]) (by norm_num [abs_of_pos]) (by norm_num [abs_lt])]
      norm_num)
  have s3 : (Num.fin 1).div (Num.fin (49 / 16)) =
      Num.fin (5882252574524729 / 18014398509481984) := by
    rw [Num.div_fin, if_neg (by norm_num)]
    exact (by
      rw [Num.ofRat_of_binade (1 / (49 / 16)) (-2) (5882252574524729) (by norm_num) (by norm_num)
        (by norm_num [abs_of_pos]) (by norm_num [abs_of_pos]) (by norm_num [abs_lt])]
      norm_num)
  have s4 : (Num.fin (5882252574524729 / 18014398509481984)).mul (Num.fin 10) =
      Num.fin (7352815718155911 / 2251799813685248) := by
    rw [Num.mul_fin]
    exact (by
      rw [Num.ofRat_of_binade ((5882252574524729 / 18014398509481984) * 10) (1) (7352815718155911)
          (by norm_num) (by norm_num)
        (by norm_num [abs_of_pos]) (by norm_num [abs_of_pos]) (by norm_num [abs_lt])]
      norm_num)
  have s5 : (Num.fin (7352815718155911 / 2251799813685248)).round = Num.fin 3 := by
    rw [Num.round_fin]
    norm_num
  simp only [bmiOf, Val.toNumber]
  rw [s1, s2, s3, s4, s5, Num.div_fin, if_neg (by norm_num)]

/-- Weight `0`, height `170`: the result is `0`. -/
theorem bmiOf_0_170 :
    bmiOf (Val.num (Num.fin 0)) (Val.num (Num.fin 170)) = Num.fin 0 := by
  have s1 : (Num.fin 170).div (Num.fin 100) = Num.fin (7656119366529843 / 4503599627370496) := by
    rw [Num.div_fin, if_neg (by norm_num)]
    exact (by
      rw [Num.ofRat_of_binade (170 / 100) (0) (7656119366529843) (by norm_num) (by norm_num)
        (by norm_num [abs_of_pos]) (by norm_num [abs_of_pos]) (by norm_num [abs_lt])]
      norm_num)
  have s2 : (Num.fin (7656119366529843 / 4503599627370496)).mul
      (Num.fin (7656119366529843 / 4503599627370496)) =
      Num.fin (3253850730775183 / 1125899906842624) := by
    rw [Num.mul_fin]
    exact (by
      rw [Num.ofRat_of_binade
          ((7656119366529843 / 4503599627370496) * (7656119366529843 / 4503599627370496)) (1)
          (6507701461550366) (by norm_num) (by norm_num)
        (by norm_num [abs_of_pos]) (by norm_num [abs_of_pos]) (by norm_num [abs_lt])]
      norm_num)
  have s3 : (Num.fin 0).div (Num.fin (3253850730775183 / 1125899906842624)) = Num.fin 0 := by
    rw [Num.div_fin, if_neg (by norm_num)]
    exact (by rw [show (0 / (3253850730775183 / 1125899906842624) : ℚ) = 0 by norm_num, Num.ofRat_zero])
  have s4 : (Num.fin 0).mul (Num.fin 10) = Num.fin 0 := by
    rw [Num.mul_fin]
    exact (by rw [show (0 * 10 : ℚ) = 0 by norm_num, Num.ofRat_zero])
  have s5 : (Num.fin 0).round = Num.fin 0 := by
    rw [Num.round_fin]
    norm_num
  simp only [bmiOf, Val.toNumber]
  rw [s1, s2, s3, s4, s5, Num.div_fin, if_neg (by norm_num)]
  rw [show ((0 : ℚ) / 10) = 0 by norm_num, Num.ofRat_zero]

/-- Weight `0`, height `175`: the result is `0`. -/
theorem bmiOf_0_175 :
    bmiOf (Val.num (Num.fin 0)) (Val.num (Num.fin 175)) = Num.fin 0 := by
  have s1 : (Num.fin 175).div (Num.fin 100) = Num.fin (7 / 4) := by
    rw [Num.div_fin, if_neg (by norm_num)]
    exact (by
      rw [Num.ofRat_of_binade (175 / 100) (0) (7881299347898368) (by norm_num) (by norm_num)
        (by norm_num [abs_of_pos]) (by norm_num [abs_of_pos]) (by norm_num [abs_lt])]
      norm_num)
  have s2 : (Num.fin (7 / 4)).mul (Num.fin (7 / 4)) = Num.fin (49 / 16) := by
    rw [Num.mul_fin]
    exact (by
      rw [Num.ofRat_of_binade ((7 / 4) * (7 / 4)) (1) (6896136929411072) (by norm_num) (by norm_num)
        (by norm_num [abs_of_pos]) (by norm_num [abs_of_pos]) (by norm_num [abs_lt])]
      norm_num)
  have s3 : (Num.fin 0).div (Num.fin (49 / 16)) = Num.fin 0 := by
    rw [Num.div_fin, if_neg (by norm_num)]
    exact (by rw [show (0 / (49 / 16) : ℚ) = 0 by norm_num, Num.ofRat_zero])
  have s4 : (Num.fin 0).mul (Num.fin 10) = Num.fin 0 := by
    rw [Num.mul_fin]
    exact (by rw [show (0 * 10 : ℚ) = 0 by norm_num, Num.ofRat_zero])
  have s5 : (Num.fin 0).round = Num.fin 0 := by
    rw [Num.round_fin]
    norm_num
  simp only [bmiOf, Val.toNumber]
  rw [s1, s2, s3, s4, s5, Num.div_fin, if_neg (by norm_num)]
  rw [show ((0 : ℚ) / 10) = 0 by norm_num, Num.ofRat_zero]

/-- Weight `0`, height `180`: the result is `0`. -/
theorem bmiOf_0_180 :
    bmiOf (Val.num (Num.fin 0)) (Val.num (Num.fin 180)) = Num.fin 0 := by
  have s1 : (Num.fin 180).div (Num.fin 100) = Num.fin (8106479329266893 / 4503599627370496) := by
    rw [Num.div_fin, if_neg (by norm_num)]
    exact (by
      rw [Num.ofRat_of_binade (180 / 100) (0) (8106479329266893) (by norm_num) (by norm_num)
        (by norm_num [abs_of_pos]) (by norm_num [abs_of_pos]) (by norm_num [abs_lt])]
      norm_num)
  have s2 : (Num.fin (8106479329266893 / 4503599627370496)).mul
      (Num.fin (8106479329266893 / 4503599627370496)) =
      Num.fin (1823957849085051 / 562949953421312) := by
    rw [Num.mul_fin]
    exact (by
      rw [Num.ofRat_of_binade
          ((8106479329266893 / 4503599627370496) * (8106479329266893 / 4503599627370496)) (1)
          (7295831396340204) (by norm_num) (by norm_num)
        (by norm_num [abs_of_pos]) (by norm_num [abs_of_pos]) (by norm_num [abs_lt])]
      norm_num)
  have s3 : (Num.fin 0).div (Num.fin (1823957849085051 / 562949953421312)) = Num.fin 0 := by
    rw [Num.div_fin, if_neg (by norm_num)]
    exact (by rw [show (0 / (1823957849085051 / 562949953421312) : ℚ) = 0 by norm_num, Num.ofRat_zero])
  have s4 : (Num.fin 0).mul (Num.fin 10) = Num.fin 0 := by
    rw [Num.mul_fin]
    exact (by rw [show (0 * 10 : ℚ) = 0 by norm_num, Num.ofRat_zero])
  have s5 : (Num.fin 0).round = Num.fin 0 := by
    rw [Num.round_fin]
    norm_num
  simp only [bmiOf, Val.toNumber]
  rw [s1, s2, s3, s4, s5, Num.div_fin, if_neg (by norm_num)]
  rw [show ((0 : ℚ) / 10) = 0 by norm_num, Num.ofRat_zero]

/-- The mean of the doubles `98.6` and `99.2`, which `toFixed(1)` prints as `98.9`. -/
theorem numMean_98_6_99_2 :
    numMean [Num.ofRat (493 / 5), Num.ofRat (496 / 5)] =
        Num.fin (3479734399585485 / 35184372088832) := by
  have a0 : Num.ofRat (493 / 5) = Num.fin (3469179087958835 / 35184372088832) :=
    (by
      rw [Num.ofRat_of_binade ((493 / 5)) (6) (6938358175917670) (by norm_num) (by norm_num)
        (by norm_num [abs_of_pos]) (by norm_num [abs_of_pos]) (by norm_num [abs_lt])]
      norm_num)
  have a1 : Num.ofRat (496 / 5) = Num.fin (6980579422424269 / 70368744177664) :=
    (by
      rw [Num.ofRat_of_binade ((496 / 5)) (6) (6980579422424269) (by norm_num) (by norm_num)
        (by norm_num [abs_of_pos]) (by norm_num [abs_of_pos]) (by norm_num [abs_lt])]
      norm_num)
  have s0 : (Num.fin 0).add (Num.fin (3469179087958835 / 35184372088832)) =
      Num.fin (3469179087958835 / 35184372088832) := by
    rw [Num.add_fin]
    exact (by
      rw [Num.ofRat_of_binade (0 + (3469179087958835 / 35184372088832)) (6) (6938358175917670)
          (by norm_num) (by norm_num)
        (by norm_num [abs_of_pos]) (by norm_num [abs_of_pos]) (by norm_num [abs_lt])]
      norm_num)
  have s1 : (Num.fin (3469179087958835 / 35184372088832)).add
      (Num.fin (6980579422424269 / 70368744177664)) =
      Num.fin (3479734399585485 / 17592186044416) := by
    rw [Num.add_fin]
    exact (by
      rw [Num.ofRat_of_binade_round
          ((3469179087958835 / 35184372088832) + (6980579422424269 / 70368744177664)) (7)
          (by norm_num) (by norm_num)
        (by norm_num [abs_of_pos]) (by norm_num [abs_of_pos]),
        show ((3469179087958835 / 35184372088832) + (6980579422424269 / 70368744177664) : ℚ) / 2 ^
            ((7 : ℤ) - 52) = ((6959468799170969 : ℤ) : ℚ) + 1 / 2 by norm_num,
        roundHalfEven_tie, if_neg (by decide)]
      norm_num)
  have d : (Num.fin (3479734399585485 / 17592186044416)).div (Num.fin 2) =
      Num.fin (3479734399585485 / 35184372088832) := by
    rw [Num.div_fin, if_neg (by norm_num)]
    exact (by
      rw [Num.ofRat_of_binade ((3479734399585485 / 17592186044416) / 2) (6) (6959468799170970)
          (by norm_num) (by norm_num)
        (by norm_num [abs_of_pos]) (by norm_num [abs_of_pos]) (by norm_num [abs_lt])]
      norm_num)
  simp only [numMean, numSum, List.foldl, List.length, Nat.cast_ofNat, Nat.cast_one,
    Nat.cast_add, Nat.cast_zero, zero_add]
  norm_num only [a0, a1, s0, s1, d]

theorem toFixed1_98_6_99_2 : toFixed1 (Num.fin (3479734399585485 / 35184372088832)) = "98.9" := by
  have h1 : ¬ (((3479734399585485 / 35184372088832) : ℚ) < 0) := by norm_num
  have h2 : ¬ ((10 : ℚ) ^ 21 ≤ (3479734399585485 / 35184372088832)) := by norm_num
  have h3 : ⌊((3479734399585485 / 35184372088832) : ℚ) * 10 + 1 / 2⌋ = 989 := by
    rw [Int.floor_eq_iff]
    constructor <;> norm_num
  simp only [toFixed1, h1, h2, if_false, h3]
  decide

/-- The mean of the doubles `96` and `96.1`: the sum is rounded down, the mean is a little below
`96.05`, and `toFixed(1)` prints `96.0`. -/
theorem numMean_96_0_96_1 :
    numMean [Num.ofRat 96, Num.ofRat (961 / 10)] = Num.fin (6758917878264627 / 70368744177664) := by
  have a0 : Num.ofRat 96 = Num.fin 96 :=
    (by
      rw [Num.ofRat_of_binade (96) (6) (6755399441055744) (by norm_num) (by norm_num)
        (by norm_num [abs_of_pos]) (by norm_num [abs_of_pos]) (by norm_num [abs_lt])]
      norm_num)
  have a1 : Num.ofRat (961 / 10) = Num.fin (3381218157736755 / 35184372088832) :=
    (by
      rw [Num.ofRat_of_binade ((961 / 10)) (6) (6762436315473510) (by norm_num) (by norm_num)
        (by norm_num [abs_of_pos]) (by norm_num [abs_of_pos]) (by norm_num [abs_lt])]
      norm_num)
  have s0 : (Num.fin 0).add (Num.fin 96) = Num.fin 96 := by
    rw [Num.add_fin]
    exact (by
      rw [Num.ofRat_of_binade (0 + 96) (6) (6755399441055744) (by norm_num) (by norm_num)
        (by norm_num [abs_of_pos]) (by norm_num [abs_of_pos]) (by norm_num [abs_lt])]
      norm_num)
  have s1 : (Num.fin 96).add (Num.fin (3381218157736755 / 35184372088832)) =
      Num.fin (6758917878264627 / 35184372088832) := by
    rw [Num.add_fin]
    exact (by
      rw [Num.ofRat_of_binade (96 + (3381218157736755 / 35184372088832)) (7) (6758917878264627)
          (by norm_num) (by norm_num)
        (by norm_num [abs_of_pos]) (by norm_num [abs_of_pos]) (by norm_num [abs_lt])]
      norm_num)
  have d : (Num.fin (6758917878264627 / 35184372088832)).div (Num.fin 2) =
      Num.fin (6758917878264627 / 70368744177664) := by
    rw [Num.div_fin, if_neg (by norm_num)]
    exact (by
      rw [Num.ofRat_of_binade ((6758917878264627 / 35184372088832) / 2) (6) (6758917878264627)
          (by norm_num) (by norm_num)
        (by norm_num [abs_of_pos]) (by norm_num [abs_of_pos]) (by norm_num [abs_lt])]
      norm_num)
  simp only [numMean, numSum, List.foldl, List.length, Nat.cast_ofNat, Nat.cast_one,
    Nat.cast_add, Nat.cast_zero, zero_add]
  norm_num only [a0, a1, s0, s1, d]

theorem toFixed1_96_0_96_1 : toFixed1 (Num.fin (6758917878264627 / 70368744177664)) = "96.0" := by
  have h1 : ¬ (((6758917878264627 / 70368744177664) : ℚ) < 0) := by norm_num
  have h2 : ¬ ((10 : ℚ) ^ 21 ≤ (6758917878264627 / 70368744177664)) := by norm_num
  have h3 : ⌊((6758917878264627 / 70368744177664) : ℚ) * 10 + 1 / 2⌋ = 960 := by
    rw [Int.floor_eq_iff]
    constructor <;> norm_num
  simp only [toFixed1, h1, h2, if_false, h3]
  decide

/-- The mean of the single double `70.35`, which is a little below `70.35`: `toFixed(1)` prints
`70.3`. -/
theorem numMean_70_35 :
    numMean [Num.ofRat (1407 / 20)] = Num.fin (2475220576449331 / 35184372088832) := by
  have a0 : Num.ofRat (1407 / 20) = Num.fin (2475220576449331 / 35184372088832) :=
    (by
      rw [Num.ofRat_of_binade ((1407 / 20)) (6) (4950441152898662) (by norm_num) (by norm_num)
        (by norm_num [abs_of_pos]) (by norm_num [abs_of_pos]) (by norm_num [abs_lt])]
      norm_num)
  have s0 : (Num.fin 0).add (Num.fin (2475220576449331 / 35184372088832)) =
      Num.fin (2475220576449331 / 35184372088832) := by
    rw [Num.add_fin]
    exact (by
      rw [Num.ofRat_of_binade (0 + (2475220576449331 / 35184372088832)) (6) (4950441152898662)
          (by norm_num) (by norm_num)
        (by norm_num [abs_of_pos]) (by norm_num [abs_of_pos]) (by norm_num [abs_lt])]
      norm_num)
  have d : (Num.fin (2475220576449331 / 35184372088832)).div (Num.fin 1) =
      Num.fin (2475220576449331 / 35184372088832) := by
    rw [Num.div_fin, if_neg (by norm_num)]
    exact (by
      rw [Num.ofRat_of_binade ((2475220576449331 / 35184372088832) / 1) (6) (4950441152898662)
          (by norm_num) (by norm_num)
        (by norm_num [abs_of_pos]) (by norm_num [abs_of_pos]) (by norm_num [abs_lt])]
      norm_num)
  simp only [numMean, numSum, List.foldl, List.length, Nat.cast_ofNat, Nat.cast_one,
    Nat.cast_add, Nat.cast_zero, zero_add]
  norm_num only [a0, s0, d]

theorem toFixed1_70_35 : toFixed1 (Num.fin (2475220576449331 / 35184372088832)) = "70.3" := by
  have h1 : ¬ (((2475220576449331 / 35184372088832) : ℚ) < 0) := by norm_num
  have h2 : ¬ ((10 : ℚ) ^ 21 ≤ (2475220576449331 / 35184372088832)) := by norm_num
  have h3 : ⌊((2475220576449331 / 35184372088832) : ℚ) * 10 + 1 / 2⌋ = 703 := by
    rw [Int.floor_eq_iff]
    constructor <;> norm_num
  simp only [toFixed1, h1, h2, if_false, h3]
  decide

/-! ## Worked rows -/

/-- The double `98.6`. -/
theorem ofRat_98_6 : Num.ofRat (493 / 5) = Num.fin (3469179087958835 / 35184372088832) :=
  (by
      rw [Num.ofRat_of_binade (493 / 5) (6) (6938358175917670) (by norm_num) (by norm_num)
        (by norm_num [abs_of_pos]) (by norm_num [abs_of_pos]) (by norm_num [abs_lt])]
      norm_num)

theorem truthy_98_6 : (Val.ofRat (493 / 5)).truthy = true := by
  rw [Val.ofRat, ofRat_98_6]
  simp [Val.truthy, Num.truthy]

/-- Both rows of `temperatureRows` pass the temperature test. -/
theorem temperatureRows_contributors : tempContributors temperatureRows = temperatureRows := by
  have h2 : (Val.str "99.2").truthy = true := by decide
  simp only [tempContributors, temperatureRows, Vital.blank, List.filter_cons, List.filter_nil,
    truthy_98_6, h2, if_true]

/-- The values `parseFloat` reads from `temperatureRows`: the doubles `98.6` and `99.2`. -/
theorem temperatureRows_values :
    (tempContributors temperatureRows).map (fun v => parseFloat v.temperature) =
      [Num.ofRat (493 / 5), Num.ofRat (496 / 5)] := by
  rw [temperatureRows_contributors]
  simp only [temperatureRows, Vital.blank, List.map_cons, List.map_nil, parseFloat, Val.ofRat,
    parseFloatString_decimalText _ _ isDecimalText_99_2]

/-! ## Accuracy of the BMI in double precision -/

theorem normal_range_lo : (2 : ℚ) ^ (-1022 : ℤ) ≤ 1 / 500 := by
  rw [zpow_neg, ← one_div]
  exact one_div_le_one_div_of_le (by norm_num) (by norm_num)

theorem normal_range_hi : (5000010 : ℚ) ≤ 2 ^ (1023 : ℤ) := by norm_num

/-- The rounding of a positive number between `1/500` and `5000010` is a double within a
relative distance of `2^-53` of it. -/
theorem Num.ofRat_near_mid (q : ℚ) (h1 : 1 / 500 ≤ q) (h2 : q ≤ 5000010) :
    ∃ r, Num.ofRat q = Num.fin r ∧ q * (1 - 1 / 2 ^ 53) ≤ r ∧ r ≤ q * (1 + 1 / 2 ^ 53) :=
  ⟨_, Num.ofRat_near q (normal_range_lo.trans h1) (h2.trans normal_range_hi)⟩

/-- For a weight between `1` and `1000` and a height between `10` and `1000` the BMI computed
in double arithmetic is the double of a decimal with one digit after the point, and that
decimal is within one twentieth, up to a rounding error below `10^-9`, of the exact quotient
`weight / (height/100)^2`. -/
theorem doubleBmi_near (w h : ℚ) (hw : 1 ≤ w) (hw' : w ≤ 1000) (hh : 10 ≤ h) (hh' : h ≤ 1000) :
    ∃ n : ℤ, doubleBmi w h = Num.ofRat ((n : ℚ) / 10) ∧
      |(n : ℚ) / 10 - w / (h / 100) ^ 2| ≤ 1 / 20 + 1 / 10 ^ 9 := by
  have l0 : (0 : ℚ) < 1 - 1 / 2 ^ 53 := by norm_num
  have u0 : (0 : ℚ) < 1 + 1 / 2 ^ 53 := by norm_num
  have hH1 : (1 : ℚ) / 10 ≤ h / 100 := by linarith
  have hH2 : h / 100 ≤ 10 := by linarith
  have hHpos : (0 : ℚ) < h / 100 := by linarith
  have hwpos : (0 : ℚ) < w := by linarith
  -- the height in metres
  obtain ⟨a, ea, a1, a2⟩ := Num.ofRat_near_mid (h / 100) (by linarith) (by linarith)
  have alo : (1 : ℚ) / 20 ≤ a := by
    have := mul_le_mul_of_nonneg_right hH1 l0.le
    linarith
  have ahi : a ≤ 11 := by
    have := mul_le_mul_of_nonneg_right hH2 u0.le
    linarith
  have apos : (0 : ℚ) < a := by linarith
  -- its square
  have sqlo : (1 : ℚ) / 400 ≤ a * a := by
    have := mul_le_mul alo alo (by norm_num) apos.le
    linarith
  have sqhi : a * a ≤ 121 := by
    have := mul_le_mul ahi ahi apos.le (by norm_num)
    linarith
  obtain ⟨b, eb, b1, b2⟩ := Num.ofRat_near_mid (a * a) (by linarith) (by linarith)
  have blo : (1 : ℚ) / 500 ≤ b := by
    have := mul_le_mul_of_nonneg_right sqlo l0.le
    linarith
  have bhi : b ≤ 122 := by
    have := mul_le_mul_of_nonneg_right sqhi u0.le
    linarith
  have bpos : (0 : ℚ) < b := by linarith
  -- the quotient
  have qlo : (1 : ℚ) / 122 ≤ w / b := by
    rw [le_div_iff₀ bpos]
    linarith
  have qhi : w / b ≤ 500000 := by
    rw [div_le_iff₀ bpos]
    linarith
  obtain ⟨c, ec, c1, c2⟩ := Num.ofRat_near_mid (w / b) (by linarith) (by linarith)
  have clo : (1 : ℚ) / 123 ≤ c := by
    have := mul_le_mul_of_nonneg_right qlo l0.le
    linarith
  have chi : c ≤ 500001 := by
    have := mul_le_mul_of_nonneg_right qhi u0.le
    linarith
  -- scaled by ten
  obtain ⟨d, ed, d1, d2⟩ := Num.ofRat_near_mid (c * 10) (by linarith) (by linarith)
  refine ⟨⌊d + 1 / 2⌋, ?_, ?_⟩
  · show ((((Num.fin w).div (((Num.fin h).div (Num.fin 100)).mul
        ((Num.fin h).div (Num.fin 100)))).mul (Num.fin 10)).round).div (Num.fin 10) = _
    rw [Num.div_fin h 100, if_neg (by norm_num), ea, Num.mul_fin, eb, Num.div_fin w b,
      if_neg bpos.ne', ec, Num.mul_fin, ed, Num.round_fin, Num.div_fin, if_neg (by norm_num)]
  · -- the exact quotient
    have hQ : w / (h / 100) ^ 2 = w / (h / 100 * (h / 100)) := by rw [sq]
    rw [hQ]
    set H : ℚ := h / 100 with hHdef
    have hHH : (0 : ℚ) < H * H := by positivity
    set Q : ℚ := w / (H * H) with hQdef
    have hQpos : 0 < Q := by positivity
    have hQhi : Q ≤ 100000 := by
      have := mul_le_mul hH1 hH1 (by norm_num) hHpos.le
      rw [hQdef, div_le_iff₀ hHH]
      linarith
    have hwQ : w = Q * (H * H) := by
      rw [hQdef]
      field_simp
    -- bounds on the square and the quotient in terms of the exact values
    have sq1 : H * H * ((1 - 1 / 2 ^ 53) * (1 - 1 / 2 ^ 53)) ≤ a * a := by
      have := mul_le_mul a1 a1 (by positivity) apos.le
      calc H * H * ((1 - 1 / 2 ^ 53) * (1 - 1 / 2 ^ 53))
          = H * (1 - 1 / 2 ^ 53) * (H * (1 - 1 / 2 ^ 53)) := by ring
        _ ≤ a * a := this
    have sq2 : a * a ≤ H * H * ((1 + 1 / 2 ^ 53) * (1 + 1 / 2 ^ 53)) := by
      have := mul_le_mul a2 a2 apos.le (by positivity)
      calc a * a ≤ H * (1 + 1 / 2 ^ 53) * (H * (1 + 1 / 2 ^ 53)) := this
        _ = H * H * ((1 + 1 / 2 ^ 53) * (1 + 1 / 2 ^ 53)) := by ring
    have b1' : H * H * ((1 - 1 / 2 ^ 53) * (1 - 1 / 2 ^ 53) * (1 - 1 / 2 ^ 53)) ≤ b := by
      have := mul_le_mul_of_nonneg_right sq1 l0.le
      calc H * H * ((1 - 1 / 2 ^ 53) * (1 - 1 / 2 ^ 53) * (1 - 1 / 2 ^ 53))
          = H * H * ((1 - 1 / 2 ^ 53) * (1 - 1 / 2 ^ 53)) * (1 - 1 / 2 ^ 53) := by ring
        _ ≤ a * a * (1 - 1 / 2 ^ 53) := this
        _ ≤ b := b1
    have b2' : b ≤ H * H * ((1 + 1 / 2 ^ 53) * (1 + 1 / 2 ^ 53) * (1 + 1 / 2 ^ 53)) := by
      have := mul_le_mul_of_nonneg_right sq2 u0.le
      calc b ≤ a * a * (1 + 1 / 2 ^ 53) := b2
        _ ≤ H * H * ((1 + 1 / 2 ^ 53) * (1 + 1 / 2 ^ 53)) * (1 + 1 / 2 ^ 53) := this
        _ = H * H * ((1 + 1 / 2 ^ 53) * (1 + 1 / 2 ^ 53) * (1 + 1 / 2 ^ 53)) := by ring
    -- `w / b` against `Q`
    have q1 : Q * (1 - 4 / 2 ^ 53) ≤ w / b := by
      rw [le_div_iff₀ bpos, hwQ]
      have hk : (1 - 4 / 2 ^ 53 : ℚ) *
          ((1 + 1 / 2 ^ 53) * (1 + 1 / 2 ^ 53) * (1 + 1 / 2 ^ 53)) ≤ 1 := by norm_num
      have hQH : 0 ≤ Q * (H * H) := by positivity
      calc Q * (1 - 4 / 2 ^ 53) * b
          ≤ Q * (1 - 4 / 2 ^ 53) *
              (H * H * ((1 + 1 / 2 ^ 53) * (1 + 1 / 2 ^ 53) * (1 + 1 / 2 ^ 53))) :=
            mul_le_mul_of_nonneg_left b2' (by positivity)
        _ = Q * (H * H) * ((1 - 4 / 2 ^ 53) *
              ((1 + 1 / 2 ^ 53) * (1 + 1 / 2 ^ 53) * (1 + 1 / 2 ^ 53))) := by ring
        _ ≤ Q * (H * H) * 1 := mul_le_mul_of_nonneg_left hk hQH
        _ = Q * (H * H) := by ring
    have q2 : w / b ≤ Q * (1 + 4 / 2 ^ 53) := by
      rw [div_le_iff₀ bpos, hwQ]
      have hk : (1 : ℚ) ≤ (1 + 4 / 2 ^ 53) *
          ((1 - 1 / 2 ^ 53) * (1 - 1 / 2 ^ 53) * (1 - 1 / 2 ^ 53)) := by norm_num
      have hQH : 0 ≤ Q * (H * H) := by positivity
      calc Q * (H * H) = Q * (H * H) * 1 := by ring
        _ ≤ Q * (H * H) * ((1 + 4 / 2 ^ 53) *
              ((1 - 1 / 2 ^ 53) * (1 - 1 / 2 ^ 53) * (1 - 1 / 2 ^ 53))) :=
            mul_le_mul_of_nonneg_left hk hQH
        _ = Q * (1 + 4 / 2 ^ 53) *
              (H * H * ((1 - 1 / 2 ^ 53) * (1 - 1 / 2 ^ 53) * (1 - 1 / 2 ^ 53))) := by ring
        _ ≤ Q * (1 + 4 / 2 ^ 53) * b := mul_le_mul_of_nonneg_left b1' (by positivity)
    -- `d` against `10 Q`
    have hqpos : 0 ≤ w / b := by positivity
    have d1' : 10 * Q * (1 - 7 / 2 ^ 53) ≤ d := by
      have hk : (1 - 7 / 2 ^ 53 : ℚ) ≤
          (1 - 4 / 2 ^ 53) * (1 - 1 / 2 ^ 53) * (1 - 1 / 2 ^ 53) := by norm_num
      have s1 : Q * (1 - 4 / 2 ^ 53) * (1 - 1 / 2 ^ 53) ≤ c :=
        le_trans (mul_le_mul_of_nonneg_right q1 l0.le) c1
      have s2 : Q * (1 - 4 / 2 ^ 53) * (1 - 1 / 2 ^ 53) * 10 * (1 - 1 / 2 ^ 53) ≤ d :=
        le_trans (mul_le_mul_of_nonneg_right
          (mul_le_mul_of_nonneg_right s1 (by norm_num)) l0.le) d1
      calc 10 * Q * (1 - 7 / 2 ^ 53)
          ≤ 10 * Q * ((1 - 4 / 2 ^ 53) * (1 - 1 / 2 ^ 53) * (1 - 1 / 2 ^ 53)) :=
            mul_le_mul_of_nonneg_left hk (by positivity)
        _ = Q * (1 - 4 / 2 ^ 53) * (1 - 1 / 2 ^ 53) * 10 * (1 - 1 / 2 ^ 53) := by ring
        _ ≤ d := s2
    have d2' : d ≤ 10 * Q * (1 + 7 / 2 ^ 53) := by
      have hk : (1 + 4 / 2 ^ 53 : ℚ) * (1 + 1 / 2 ^ 53) * (1 + 1 / 2 ^ 53) ≤
          1 + 7 / 2 ^ 53 := by norm_num
      have s1 : c ≤ Q * (1 + 4 / 2 ^ 53) * (1 + 1 / 2 ^ 53) :=
        le_trans c2 (mul_le_mul_of_nonneg_right q2 u0.le)
      have s2 : d ≤ Q * (1 + 4 / 2 ^ 53) * (1 + 1 / 2 ^ 53) * 10 * (1 + 1 / 2 ^ 53) :=
        le_trans d2 (mul_le_mul_of_nonneg_right
          (mul_le_mul_of_nonneg_right s1 (by norm_num)) u0.le)
      calc d ≤ Q * (1 + 4 / 2 ^ 53) * (1 + 1 / 2 ^ 53) * 10 * (1 + 1 / 2 ^ 53) := s2
        _ = 10 * Q * ((1 + 4 / 2 ^ 53) * (1 + 1 / 2 ^ 53) * (1 + 1 / 2 ^ 53)) := by ring
        _ ≤ 10 * Q * (1 + 7 / 2 ^ 53) := mul_le_mul_of_nonneg_left hk (by positivity)
    -- `Math.round`
    have f1 : ((⌊d + 1 / 2⌋ : ℤ) : ℚ) ≤ d + 1 / 2 := Int.floor_le _
    have f2 : d + 1 / 2 < ((⌊d + 1 / 2⌋ : ℤ) : ℚ) + 1 := Int.lt_floor_add_one _
    have e1 : 10 * Q * (7 / 2 ^ 53) ≤ 1 / 10 ^ 8 := by
      have : 10 * Q * (7 / 2 ^ 53) ≤ 10 * 100000 * (7 / 2 ^ 53) :=
        mul_le_mul_of_nonneg_right (by linarith) (by norm_num)
      exact le_trans this (by norm_num)
    rw [abs_le]
    constructor <;> linarith

/-! ## `toFixed(1)` from `10^21` on -/

theorem shortestRoundTrip_of_first (x : ℚ) (v : ℕ) (h : shortestDigitsAt x 1 = some v) :
    shortestRoundTrip x = v := by
  unfold shortestRoundTrip
  have e : List.range 17 = 0 :: (List.range 16).map (· + 1) := by decide
  rw [e, List.findSome?_cons]
  simp only [Nat.zero_add, h, Option.getD_some]

theorem shortestDigitsAt_1e21 : shortestDigitsAt (10 ^ 21) 1 = some (10 ^ 21) := by
  have hfl : ⌊(10 : ℚ) ^ 21⌋.toNat = 10 ^ 21 := by
    have : ((10 : ℚ) ^ 21) = ((10 ^ 21 : ℤ) : ℚ) := by norm_num
    rw [this, Int.floor_intCast]
    rfl
  have hlen : (Nat.toDigits 10 (10 ^ 21)).length = 22 := by decide
  have hlo : Num.ofRat (((10 ^ 21 / 10 ^ (22 - 1) * 10 ^ (22 - 1) : ℕ) : ℚ)) =
      Num.fin (10 ^ 21) := by
    have : (((10 ^ 21 / 10 ^ (22 - 1) * 10 ^ (22 - 1) : ℕ) : ℚ)) = 10 ^ 21 := by norm_num
    rw [this, ofRat_1e21]
  have hhi : Num.ofRat (((10 ^ 21 / 10 ^ (22 - 1) * 10 ^ (22 - 1) + 10 ^ (22 - 1) : ℕ) : ℚ)) ≠
      Num.fin (10 ^ 21) := by
    have : (((10 ^ 21 / 10 ^ (22 - 1) * 10 ^ (22 - 1) + 10 ^ (22 - 1) : ℕ) : ℚ)) =
        2 * 10 ^ 21 := by norm_num
    rw [this, ofRat_2e21]
    intro h
    injection h with h
    norm_num at h
  simp only [shortestDigitsAt, hfl, hlen, hlo, hhi, decide_True, decide_False, Bool.and_false,
    Bool.false_eq_true, if_false, if_true]
  norm_num

theorem toFixed1_1e21 : toFixed1 (Num.fin (10 ^ 21)) = "1e+21" := by
  have h : shortestRoundTrip (10 ^ 21) = 10 ^ 21 :=
    shortestRoundTrip_of_first _ _ shortestDigitsAt_1e21
  have hn : ¬ ((10 : ℚ) ^ 21 < 0) := by norm_num
  simp only [toFixed1, hn, if_false, le_refl, if_true, h]
  decide

/-- The mean of one value: the sum from `0`, divided by `1`. -/
theorem numMean_singleton (x : Num) :
    numMean [x] = ((Num.fin 0).add x).div (Num.fin 1) := by
  simp only [numMean, numSum, List.foldl, List.length_singleton, Nat.cast_one]

/-- The mean of the single value `10^21`. -/
theorem numMean_1e21 : numMean [Num.fin (10 ^ 21)] = Num.fin (10 ^ 21) := by
  rw [numMean_singleton, Num.add_fin, zero_add, ofRat_1e21, Num.div_fin, if_neg (by norm_num),
    div_one, ofRat_1e21]

/-- The one row of `hugeTemperatureRows` passes the temperature test. -/
theorem hugeTemperatureRows_values :
    tempContributors hugeTemperatureRows ≠ [] ∧
    (tempContributors hugeTemperatureRows).map (fun v => parseFloat v.temperature) =
      [Num.fin (10 ^ 21)] := by
  have h : (Val.num (Num.fin (10 ^ 21))).truthy = true := by
    simp [Val.truthy, Num.truthy]
  have e : tempContributors hugeTemperatureRows = hugeTemperatureRows := by
    simp only [tempContributors, hugeTemperatureRows, Vital.blank, List.filter_cons,
      List.filter_nil, h, if_true]
  rw [e]
  exact ⟨List.cons_ne_nil _ _, rfl⟩

/-! ## The divisor of the BMI quotient -/

theorem tiny_range_lo : (2 : ℚ) ^ (-505 : ℤ) ≤ 1 / 10 ^ 150 / 100 := by
  rw [zpow_neg, ← one_div, div_div]
  exact one_div_le_one_div_of_le (by norm_num) (by norm_num)

theorem tiny_range_hi : (10 : ℚ) ^ 150 / 100 ≤ 2 ^ (492 : ℤ) := by norm_num

/-- A number whose magnitude lies between two powers of two of the finite range rounds to a
double whose magnitude lies between them. -/
theorem Num.ofRat_between (q : ℚ) (k l : ℤ) (hk : -1074 ≤ k) (hl : -1074 ≤ l) (hl' : l < 1024)
    (h1 : 2 ^ k ≤ |q|) (h2 : |q| ≤ 2 ^ l) :
    ∃ r, Num.ofRat q = Num.fin r ∧ 2 ^ k ≤ |r| ∧ |r| ≤ 2 ^ l := by
  obtain ⟨e, hb⟩ := Num.ofRat_finite q l hl hl' h2
  rcases Num.ofRat_abs_ge q k hk h1 with h | h | ⟨_, h⟩
  · rw [e] at h; cases h
  · rw [e] at h; cases h
  · exact ⟨_, e, h, hb⟩

/-- For a height between `10^-150` and `10^150` in magnitude, `heightInMeters * heightInMeters`
is a non-zero finite double. -/
theorem bmiDivisor_ne_zero (h : ℚ) (h1 : 1 / 10 ^ 150 ≤ |h|) (h2 : |h| ≤ 10 ^ 150) :
    ∃ d : ℚ, bmiDivisor (Val.num (Num.fin h)) = Num.fin d ∧ d ≠ 0 := by
  have q1 : (2 : ℚ) ^ (-505 : ℤ) ≤ |h / 100| := by
    rw [abs_div, abs_of_pos (by norm_num : (0 : ℚ) < 100)]
    exact tiny_range_lo.trans (div_le_div_of_nonneg_right h1 (by norm_num))
  have q2 : |h / 100| ≤ 2 ^ (492 : ℤ) := by
    rw [abs_div, abs_of_pos (by norm_num : (0 : ℚ) < 100)]
    exact (div_le_div_of_nonneg_right h2 (by norm_num)).trans tiny_range_hi
  obtain ⟨a, ea, a1, a2⟩ := Num.ofRat_between (h / 100) (-505) 492 (by norm_num) (by norm_num)
    (by norm_num) q1 q2
  have p1 : (2 : ℚ) ^ (-1010 : ℤ) ≤ |a * a| := by
    rw [abs_mul, show (-1010 : ℤ) = -505 + -505 by norm_num, zpow_add₀ (by norm_num)]
    exact mul_le_mul a1 a1 (le_of_lt (two_zpow_pos _)) (abs_nonneg _)
  have p2 : |a * a| ≤ 2 ^ (984 : ℤ) := by
    rw [abs_mul, show (984 : ℤ) = 492 + 492 by norm_num, zpow_add₀ (by norm_num)]
    exact mul_le_mul a2 a2 (abs_nonneg _) (le_of_lt (two_zpow_pos _))
  obtain ⟨d, ed, d1, _⟩ := Num.ofRat_between (a * a) (-1010) 984 (by norm_num) (by norm_num)
    (by norm_num) p1 p2
  refine ⟨d, ?_, fun hd => ?_⟩
  · show ((Num.fin h).div (Num.fin 100)).mul ((Num.fin h).div (Num.fin 100)) = _
    rw [Num.div_fin, if_neg (by norm_num), ea, Num.mul_fin, ed]
  · rw [hd, abs_zero] at d1
    exact absurd d1 (not_le.mpr (two_zpow_pos _))

/-! ## Decimal text at a halfway point -/

theorem isDecimalText_96_0 : IsDecimalText "96.0" 96 := by
  refine ⟨false, ['9', '6'], ['0'], by decide,
    fun c hc => isDecimalDigit_of_mem c ?_, fun c hc => isDecimalDigit_of_mem c ?_, by decide, ?_⟩
  · revert c; decide
  · revert c; decide
  · simp [decimalValue, digitsValue]

theorem isDecimalText_96_1 : IsDecimalText "96.1" (961 / 10) := by
  refine ⟨false, ['9', '6'], ['1'], by decide,
    fun c hc => isDecimalDigit_of_mem c ?_, fun c hc => isDecimalDigit_of_mem c ?_, by decide, ?_⟩
  · revert c; decide
  · revert c; decide
  · simp [decimalValue, digitsValue]
    norm_num

theorem isDecimalText_70_35 : IsDecimalText "70.35" (1407 / 20) := by
  refine ⟨false, ['7', '0'], ['3', '5'], by decide,
    fun c hc => isDecimalDigit_of_mem c ?_, fun c hc => isDecimalDigit_of_mem c ?_, by decide, ?_⟩
  · revert c; decide
  · revert c; decide
  · simp [decimalValue, digitsValue]
    norm_num

/-! ## `ToNumber` on decimal text -/

theorem dropWhile_of_head (p : Char → Bool) (l : List Char) (h : ∀ c ∈ l.head?, p c = false) :
    l.dropWhile p = l := by
  cases l with
  | nil => rfl
  | cons c r => exact List.dropWhile_cons_of_neg (by simp [h c (by simp)])

/-- Trimming leaves a text without white space as it is. -/
theorem trim_of_no_whiteSpace (l : List Char) (h : ∀ c ∈ l, isStrWhiteSpaceChar c = false) :
    ((l.dropWhile isStrWhiteSpaceChar).reverse.dropWhile isStrWhiteSpaceChar).reverse = l := by
  rw [dropWhile_of_head _ l (fun c hc => h c (List.mem_of_mem_head? hc)),
    dropWhile_of_head _ l.reverse (fun c hc => h c (by
      rw [List.head?_reverse] at hc
      exact List.mem_of_mem_getLast? hc)), List.reverse_reverse]

/-- `StringToNumber` of a text without white space whose second character is none of the radix
letters is the decimal literal the whole text is, if it is one. -/
theorem stringToNumber_of_plain (s : String) (hne : s.data ≠ [])
    (hw : ∀ c ∈ s.data, isStrWhiteSpaceChar c = false)
    (hx : ∀ c ∈ s.data, c ≠ 'x' ∧ c ≠ 'X' ∧ c ≠ 'o' ∧ c ≠ 'O' ∧ c ≠ 'b' ∧ c ≠ 'B') :
    stringToNumber s =
      match parseDecimal s.data with
      | some (n, []) => n
      | _ => Num.nan := by
  unfold stringToNumber
  simp only [trim_of_no_whiteSpace s.data hw]
  split
  · rename_i heq
    exact absurd heq hne
  · rename_i r heq
    exact absurd rfl (hx 'x' (by rw [heq]; simp)).1
  · rename_i r heq
    exact absurd rfl (hx 'X' (by rw [heq]; simp)).2.1
  · rename_i r heq
    exact absurd rfl (hx 'o' (by rw [heq]; simp)).2.2.1
  · rename_i r heq
    exact absurd rfl (hx 'O' (by rw [heq]; simp)).2.2.2.1
  · rename_i r heq
    exact absurd rfl (hx 'b' (by rw [heq]; simp)).2.2.2.2.1
  · rename_i r heq
    exact absurd rfl (hx 'B' (by rw [heq]; simp)).2.2.2.2.2
  · rfl

theorem IsDecimalDigit.not_radix {c : Char} (h : IsDecimalDigit c) :
    c ≠ 'x' ∧ c ≠ 'X' ∧ c ≠ 'o' ∧ c ≠ 'O' ∧ c ≠ 'b' ∧ c ≠ 'B' := by
  obtain ⟨d, hd, rfl⟩ := h
  interval_cases d <;> decide

/-- Every character of decimal text is a digit, the minus sign or the point. -/
theorem decimalText_chars (neg : Bool) (ip fp : List Char) (hi : ∀ c ∈ ip, IsDecimalDigit c)
    (hf : ∀ c ∈ fp, IsDecimalDigit c) :
    ∀ c ∈ (decimalText neg ip fp).data, IsDecimalDigit c ∨ c = '-' ∨ c = '.' := by
  intro c hc
  have hc' : c ∈ (if neg then ['-'] else []) ++ ip ++ (if fp = [] then [] else '.' :: fp) := hc
  rw [List.mem_append, List.mem_append] at hc'
  rcases hc' with (hc' | hc') | hc'
  · cases neg
    · simp at hc'
    · simp at hc'
      exact Or.inr (Or.inl hc')
  · exact Or.inl (hi c hc')
  · by_cases e : fp = []
    · simp [e] at hc'
    · rw [if_neg e, List.mem_cons] at hc'
      rcases hc' with rfl | hc'
      · exact Or.inr (Or.inr rfl)
      · exact Or.inl (hf c hc')

/-- `ToNumber` reads decimal text as the double nearest to the number it denotes. -/
theorem stringToNumber_decimalText (s : String) (q : ℚ) (h : IsDecimalText s q) :
    stringToNumber s = Num.ofRat q := by
  obtain ⟨neg, ip, fp, hne, hi, hf, rfl, rfl⟩ := h
  have hch := decimalText_chars neg ip fp hi hf
  have hp := parseUnsignedDecimal_decimal ip fp hi hf hne
  have hd : (decimalText neg ip fp).data =
      (if neg then ['-'] else []) ++ ip ++ (if fp = [] then [] else '.' :: fp) := rfl
  rw [stringToNumber_of_plain _ (by
      rw [hd]
      obtain ⟨c, r, rfl⟩ := List.exists_cons_of_ne_nil hne
      cases neg <;> simp)
    (fun c hc => by
      rcases hch c hc with h | rfl | rfl
      · exact h.facts.2.1
      · decide
      · decide)
    (fun c hc => by
      rcases hch c hc with h | rfl | rfl
      · exact h.not_radix
      · decide
      · decide), hd]
  unfold decimalValue
  cases neg with
  | true =>
    have e : (if true = true then ['-'] else []) ++ ip ++ (if fp = [] then [] else '.' :: fp) =
        '-' :: (ip ++ (if fp = [] then [] else '.' :: fp)) := by simp
    rw [e, parseDecimal_minus, hp]
    simp only [Option.map_some', Num.neg_ofRat, if_true]
    congr 1
    ring
  | false =>
    obtain ⟨c, r, rfl⟩ := List.exists_cons_of_ne_nil hne
    have e : (if false = true then ['-'] else []) ++ (c :: r) ++
        (if fp = [] then [] else '.' :: fp) = c :: (r ++ (if fp = [] then [] else '.' :: fp)) := by
      simp
    rw [e, parseDecimal_digit c _ (hi c (List.mem_cons_self _ _))]
    have hp' : parseUnsignedDecimal (c :: (r ++ (if fp = [] then [] else '.' :: fp))) = _ := hp
    rw [hp']
    simp

theorem isDecimalText_70 : IsDecimalText "70" 70 := by
  refine ⟨false, ['7', '0'], [], by decide,
    fun c hc => isDecimalDigit_of_mem c ?_, fun c hc => isDecimalDigit_of_mem c ?_, by decide, ?_⟩
  · revert c; decide
  · revert c; decide
  · simp [decimalValue, digitsValue]

theorem isDecimalText_175 : IsDecimalText "175" 175 := by
  refine ⟨false, ['1', '7', '5'], [], by decide,
    fun c hc => isDecimalDigit_of_mem c ?_, fun c hc => isDecimalDigit_of_mem c ?_, by decide, ?_⟩
  · revert c; decide
  · revert c; decide
  · simp [decimalValue, digitsValue]

/-- The BMI expression uses its operands through `ToNumber` only. -/
theorem bmiOf_toNumber (weight height : Val) (w h : ℚ) (hw : weight.toNumber = Num.fin w)
    (hh : height.toNumber = Num.fin h) : bmiOf weight height = doubleBmi w h := by
  unfold bmiOf doubleBmi
  rw [hw, hh]

/-! ## Accuracy of the mean in double precision -/

theorem numSum_append_singleton (xs : List Num) (x : Num) :
    numSum (xs ++ [x]) = (numSum xs).add x := by
  simp only [numSum, List.foldl_append, List.foldl_cons, List.foldl_nil]

theorem step_error_bound : (1002002 : ℚ) * (1 / 2 ^ 53) ≤ 1 / (4 * 10 ^ 9) := by norm_num

/-- The sum of at most a thousand numbers between `1/2` and `1001`, added one by one in double
arithmetic, is a double within `2.5 * 10^-10` per term of the exact sum. -/
theorem numSum_near (xs : List ℚ) (h : ∀ x ∈ xs, 1 / 2 ≤ x ∧ x ≤ 1001) (hn : xs.length ≤ 1000) :
    ∃ a : ℚ, numSum (xs.map Num.fin) = Num.fin a ∧
      |a - xs.sum| ≤ xs.length * (1 / (4 * 10 ^ 9)) ∧
      (xs.length : ℚ) * (1 / 2) ≤ xs.sum ∧ xs.sum ≤ 1001 * xs.length := by
  induction xs using List.reverseRecOn with
  | nil => exact ⟨0, rfl, by simp, by simp, by simp⟩
  | append_singleton xs x ih =>
    have hx := h x (by simp)
    have hlen : xs.length + 1 ≤ 1000 := by simpa using hn
    obtain ⟨a, ea, ha, hlo, hhi⟩ := ih (fun y hy => h y (by simp [hy])) (by omega)
    have hl : (xs.length : ℚ) ≤ 999 := by
      have : xs.length ≤ 999 := by omega
      exact_mod_cast this
    have hl0 : (0 : ℚ) ≤ xs.length := Nat.cast_nonneg _
    obtain ⟨ha1, ha2⟩ := abs_le.mp ha
    have hq1 : (1 : ℚ) / 500 ≤ a + x := by nlinarith
    have hq2 : a + x ≤ 1002002 := by nlinarith
    obtain ⟨r, er, r1, r2⟩ := Num.ofRat_near_mid (a + x) hq1 (le_trans hq2 (by norm_num))
    have hpos : 0 ≤ a + x := le_trans (by norm_num) hq1
    have e1 : (a + x) * (1 / 2 ^ 53) ≤ 1 / (4 * 10 ^ 9) :=
      le_trans (mul_le_mul_of_nonneg_right hq2 (by norm_num)) step_error_bound
    refine ⟨r, ?_, ?_, ?_, ?_⟩
    · rw [List.map_append, List.map_singleton, numSum_append_singleton, ea, Num.add_fin, er]
    · rw [List.sum_append, List.sum_singleton, List.length_append, List.length_singleton,
        Nat.cast_add, Nat.cast_one, abs_le]
      constructor <;> nlinarith
    · rw [List.sum_append, List.sum_singleton, List.length_append, List.length_singleton,
        Nat.cast_add, Nat.cast_one]
      linarith
    · rw [List.sum_append, List.sum_singleton, List.length_append, List.length_singleton,
        Nat.cast_add, Nat.cast_one]
      linarith

/-- The mean of at most a thousand numbers between `1/2` and `1001`, as double arithmetic gives
it, is a double within `5 * 10^-10` of their exact mean. -/
theorem numMean_near (xs : List ℚ) (hne : xs ≠ []) (h : ∀ x ∈ xs, 1 / 2 ≤ x ∧ x ≤ 1001)
    (hn : xs.length ≤ 1000) :
    ∃ m : ℚ, numMean (xs.map Num.fin) = Num.fin m ∧ |m - mean xs| ≤ 1 / (2 * 10 ^ 9) ∧
      |m| < 10 ^ 21 := by
  obtain ⟨a, ea, ha, hlo, hhi⟩ := numSum_near xs h hn
  have hpos : 0 < xs.length := List.length_pos.mpr hne
  have hn0 : (0 : ℚ) < xs.length := by exact_mod_cast hpos
  obtain ⟨ha1, ha2⟩ := abs_le.mp ha
  have d1 : |a / xs.length - mean xs| ≤ 1 / (4 * 10 ^ 9) := by
    unfold mean
    rw [← sub_div, abs_div, abs_of_pos hn0, div_le_iff₀ hn0]
    calc |a - xs.sum| ≤ xs.length * (1 / (4 * 10 ^ 9)) := ha
      _ = 1 / (4 * 10 ^ 9) * xs.length := by ring
  have m1 : (1 : ℚ) / 2 ≤ mean xs := by
    unfold mean
    rw [le_div_iff₀ hn0]
    linarith
  have m2 : mean xs ≤ 1001 := by
    unfold mean
    rw [div_le_iff₀ hn0]
    linarith
  obtain ⟨d1a, d1b⟩ := abs_le.mp d1
  have q1 : (1 : ℚ) / 500 ≤ a / xs.length := by linarith
  have q2 : a / xs.length ≤ 1002 := by linarith
  obtain ⟨r, er, r1, r2⟩ := Num.ofRat_near_mid (a / xs.length) q1
    (le_trans q2 (by norm_num))
  have e1 : a / xs.length * (1 / 2 ^ 53) ≤ 1 / (4 * 10 ^ 9) :=
    le_trans (mul_le_mul_of_nonneg_right q2 (by norm_num)) (by norm_num)
  refine ⟨r, ?_, ?_, ?_⟩
  · show (numSum (xs.map Num.fin)).div (Num.fin ((xs.map Num.fin).length : ℚ)) = _
    rw [ea, List.length_map, Num.div_fin, if_neg (ne_of_gt hn0), er]
  · rw [abs_le]
    constructor <;> linarith
  · rw [abs_lt]
    constructor <;> linarith

theorem sum_near_of_forall₂ (ε : ℚ) (xs qs : List ℚ)
    (h : List.Forall₂ (fun x q => |x - q| ≤ ε) xs qs) :
    |xs.sum - qs.sum| ≤ qs.length * ε ∧ xs.length = qs.length := by
  induction h with
  | nil => simp
  | @cons x q xs' qs' hx _ ih =>
    obtain ⟨ih1, ih2⟩ := ih
    refine ⟨?_, by simp [ih2]⟩
    rw [List.sum_cons, List.sum_cons, List.length_cons, Nat.cast_add, Nat.cast_one]
    calc |x + xs'.sum - (q + qs'.sum)| = |(x - q) + (xs'.sum - qs'.sum)| := by ring_nf
      _ ≤ |x - q| + |xs'.sum - qs'.sum| := abs_add _ _
      _ ≤ ε + qs'.length * ε := add_le_add hx ih1
      _ = (qs'.length + 1) * ε := by ring

/-- Lists that agree entry by entry up to `ε` have means that agree up to `ε`. -/
theorem mean_near_of_forall₂ (ε : ℚ) (xs qs : List ℚ)
    (h : List.Forall₂ (fun x q => |x - q| ≤ ε) xs qs) (hne : qs ≠ []) :
    |mean xs - mean qs| ≤ ε := by
  have hs := sum_near_of_forall₂ ε xs qs h
  have hpos : 0 < qs.length := List.length_pos.mpr hne
  have hn0 : (0 : ℚ) < qs.length := by exact_mod_cast hpos
  unfold mean
  rw [hs.2, ← sub_div, abs_div, abs_of_pos hn0, div_le_iff₀ hn0]
  calc |xs.sum - qs.sum| ≤ qs.length * ε := hs.1
    _ = ε * qs.length := by ring

/-- Numbers between `1` and `1000` round to doubles between `1/2` and `1001`, each within
`2.5 * 10^-10` of the number it rounds. -/
theorem ofRat_list_near (qs : List ℚ) (h : ∀ q ∈ qs, 1 ≤ q ∧ q ≤ 1000) :
    ∃ xs : List ℚ, qs.map Num.ofRat = xs.map Num.fin ∧
      List.Forall₂ (fun x q => |x - q| ≤ 1 / (4 * 10 ^ 9)) xs qs ∧
      ∀ x ∈ xs, 1 / 2 ≤ x ∧ x ≤ 1001 := by
  induction qs with
  | nil => exact ⟨[], rfl, List.Forall₂.nil, by simp⟩
  | cons q qs ih =>
    obtain ⟨hq1, hq2⟩ := h q (by simp)
    obtain ⟨xs, e, hf, hb⟩ := ih (fun y hy => h y (by simp [hy]))
    obtain ⟨r, er, r1, r2⟩ := Num.ofRat_near_mid q (le_trans (by norm_num) hq1)
      (le_trans hq2 (by norm_num))
    have e1 : q * (1 / 2 ^ 53) ≤ 1 / (4 * 10 ^ 9) :=
      le_trans (mul_le_mul_of_nonneg_right hq2 (by norm_num)) (by norm_num)
    have e0 : 0 ≤ q * (1 / 2 ^ 53) := mul_nonneg (by linarith) (by norm_num)
    refine ⟨r :: xs, by rw [List.map_cons, List.map_cons, er, e], List.Forall₂.cons ?_ hf, ?_⟩
    · rw [abs_le]
      constructor <;> linarith
    · intro x hx
      rcases List.mem_cons.mp hx with rfl | hx
      · constructor <;> linarith
      · exact hb x hx

/-- A formatted average is within a twentieth, up to `10^-9`, of the exact mean of the doubles
averaged. -/
theorem toFixed1_numMean_near (xs : List ℚ) (hne : xs ≠ [])
    (h : ∀ x ∈ xs, 1 ≤ x ∧ x ≤ 1000) (hn : xs.length ≤ 1000) :
    ∃ q, isFixedOneDecimal (toFixed1 (numMean (xs.map Num.fin))) = true ∧
      IsDecimalText (toFixed1 (numMean (xs.map Num.fin))) q ∧
      |q - mean xs| ≤ 1 / 20 + 1 / 10 ^ 9 := by
  obtain ⟨m, em, hm, hb⟩ := numMean_near xs hne
    (fun x hx => ⟨le_trans (by norm_num) (h x hx).1, le_trans (h x hx).2 (by norm_num)⟩) hn
  obtain ⟨hf, r, hr, hrm⟩ := toFixed1_fixed m hb
  rw [em]
  refine ⟨r, hf, hr, ?_⟩
  calc |r - mean xs| = |(r - m) + (m - mean xs)| := by ring_nf
    _ ≤ |r - m| + |m - mean xs| := abs_add _ _
    _ ≤ 1 / 20 + 1 / (2 * 10 ^ 9) := add_le_add hrm hm
    _ ≤ 1 / 20 + 1 / 10 ^ 9 := by norm_num

/-- A formatted average of numbers read from decimal text is within a twentieth, up to
`10^-9`, of the exact mean of the numbers the texts denote. -/
theorem toFixed1_decimal_mean_near (qs : List ℚ) (hne : qs ≠ [])
    (h : ∀ q ∈ qs, 1 ≤ q ∧ q ≤ 1000) (hn : qs.length ≤ 1000) :
    ∃ r, isFixedOneDecimal (toFixed1 (numMean (qs.map Num.ofRat))) = true ∧
      IsDecimalText (toFixed1 (numMean (qs.map Num.ofRat))) r ∧
      |r - mean qs| ≤ 1 / 20 + 1 / 10 ^ 9 := by
  obtain ⟨xs, e, hf, hb⟩ := ofRat_list_near qs h
  have hl := (sum_near_of_forall₂ _ xs qs hf).2
  have hxne : xs ≠ [] := fun hx => hne (List.length_eq_zero.mp (by rw [← hl, hx]; rfl))
  obtain ⟨m, em, hm, hb21⟩ := numMean_near xs hxne hb (by rw [hl]; exact hn)
  obtain ⟨hfix, r, hr, hrm⟩ := toFixed1_fixed m hb21
  have hmean := mean_near_of_forall₂ _ xs qs hf hne
  rw [e, em]
  refine ⟨r, hfix, hr, ?_⟩
  calc |r - mean qs| = |(r - m) + (m - mean xs) + (mean xs - mean qs)| := by ring_nf
    _ ≤ |(r - m) + (m - mean xs)| + |mean xs - mean qs| := abs_add _ _
    _ ≤ |r - m| + |m - mean xs| + |mean xs - mean qs| :=
      add_le_add_right (abs_add _ _) _
    _ ≤ 1 / 20 + 1 / (2 * 10 ^ 9) + 1 / (4 * 10 ^ 9) :=
      add_le_add (add_le_add hrm hm) hmean
    _ ≤ 1 / 20 + 1 / 10 ^ 9 := by norm_num

/-- The two formatted averages of the summary are near the exact means. -/
theorem finish_decimal_avgs_near (vitals : List Vital) :
    DecimalAveragesNearMean vitals (finish (accumulate vitals)) := by
  obtain ⟨ht, hw⟩ := finish_decimal_avgs vitals
  have ne : ∀ (vs : List Vital) (f : Vital → Num) (xs : List ℚ), vs ≠ [] →
      vs.map f = xs.map Num.fin → xs ≠ [] := by
    intro vs f xs hv he hx
    rw [hx, List.map_nil, List.map_eq_nil_iff] at he
    exact hv he
  refine ⟨fun xs hne he h hn => ?_, fun xs hne he h hn => ?_⟩
  · obtain ⟨q, hf, hq, hb⟩ := toFixed1_numMean_near xs (ne _ _ xs hne he) h hn
    exact ⟨_, q, by rw [ht hne, he], hf, hq, hb⟩
  · obtain ⟨q, hf, hq, hb⟩ := toFixed1_numMean_near xs (ne _ _ xs hne he) h hn
    exact ⟨_, q, by rw [hw hne, he], hf, hq, hb⟩

/-- The formatted average of contributing decimal texts is near the exact mean of the numbers
they denote. -/
theorem decimal_text_avg_near (f : Vital → Val) (vs : List Vital) (qs : List ℚ) (hne : vs ≠ [])
    (hq : List.Forall₂ (fun v q => ∃ s, f v = Val.str s ∧ IsDecimalText s q) vs qs)
    (h : ∀ q ∈ qs, 1 ≤ q ∧ q ≤ 1000) (hn : qs.length ≤ 1000) :
    ∃ r, isFixedOneDecimal (toFixed1 (numMean (vs.map (fun v => parseFloat (f v))))) = true ∧
      IsDecimalText (toFixed1 (numMean (vs.map (fun v => parseFloat (f v))))) r ∧
      |r - mean qs| ≤ 1 / 20 + 1 / 10 ^ 9 := by
  have hqne : qs ≠ [] := fun hx => hne (by
    rw [hx] at hq
    cases hq
    rfl)
  rw [parseFloat_of_forall₂ f vs qs hq]
  exact toFixed1_decimal_mean_near qs hqne h hn

/-! ## Claims -/

/-- C1, counterexample: with a heart rate recorded as `0` and one recorded as `60`, the handler
reports `heart_rate.avg = 60`, whereas the rounded mean of the records in which the heart rate
is recorded (not null) is `30`. -/
theorem trends_average_skips_recorded_zero :
    (∃ t, getVitalsTrends (Except.ok (some zeroHeartRateRows)) = Response.ok t 2 ∧
      t.heart_rate.avg = 60) ∧
    (roundHalfUp (mean (recordedValues (fun v => v.heart_rate) zeroHeartRateRows)) : ℚ) = 30 := by
  constructor
  · refine ⟨_, getVitalsTrends_ok zeroHeartRateRows (by simp [zeroHeartRateRows]), ?_⟩
    simp [zeroHeartRateRows, finish, accumulate, step, stepBp, stepTemp, stepWeight, stepHr,
      stepO2, Acc.init, intTruthy, intValue, Val.truthy, roundAvg, Vital.blank]
    norm_num
  · simp [roundHalfUp, mean, recordedValues, zeroHeartRateRows, Vital.blank]
    norm_num

/-- C1, amended: for every non-empty sequence of rows the handler answers with a summary in
which each average is, by the metric's rounding policy, the arithmetic mean over exactly the
rows that pass the metric's truthiness test (value neither null nor zero; for blood pressure
both values): `Math.round` of the exact mean for the four integer averages, and for
temperature and weight `toFixed(1)` of the mean of the values read by `parseFloat`, summed in
input order and divided by their count in double arithmetic; for at most a thousand
contributing values between `1` and `1000` that text denotes a decimal within `0.05 + 10^-9`
of their exact mean. -/
theorem trends_average_is_mean_of_contributors (vitals : List Vital) (h : vitals ≠ []) :
    ∃ t, getVitalsTrends (Except.ok (some vitals)) = Response.ok t vitals.length ∧
      AveragesOverContributors vitals t ∧ DecimalAveragesNearMean vitals t := by
  refine ⟨_, getVitalsTrends_ok vitals h, ?_, finish_decimal_avgs_near vitals⟩
  obtain ⟨hb, hr, ho⟩ := finish_integer_avgs vitals
  obtain ⟨ht, hw⟩ := finish_decimal_avgs vitals
  exact ⟨hb, ht, hw, hr, ho⟩

/-- C1, witness of the amended statement: on the rows with heart rates `0` and `60` the row
with `60` is the only contributor and the average is `60`; on the rows with temperatures `98.6`
and `"99.2"` the temperature average is `"98.9"`. -/
theorem trends_average_is_mean_of_contributors_witness :
    (zeroHeartRateRows ≠ [] ∧
      ∃ t, getVitalsTrends (Except.ok (some zeroHeartRateRows)) =
          Response.ok t zeroHeartRateRows.length ∧
        AveragesOverContributors zeroHeartRateRows t ∧ t.heart_rate.avg = 60) ∧
    (temperatureRows ≠ [] ∧
      ∃ t, getVitalsTrends (Except.ok (some temperatureRows)) =
          Response.ok t temperatureRows.length ∧
        AveragesOverContributors temperatureRows t ∧ t.temperature.avg = Val.str "98.9") := by
  refine ⟨⟨List.cons_ne_nil _ _, ?_⟩, List.cons_ne_nil _ _, ?_⟩
  · obtain ⟨t, ht, ha, -⟩ :=
      trends_average_is_mean_of_contributors zeroHeartRateRows (List.cons_ne_nil _ _)
    refine ⟨t, ht, ha, ?_⟩
    obtain ⟨-, -, -, hr, -⟩ := ha
    rw [hr (by simp [hrContributors, zeroHeartRateRows, intTruthy, Vital.blank])]
    simp [hrContributors, zeroHeartRateRows, intTruthy, intValues, intValue, Vital.blank, mean,
      roundHalfUp]
    norm_num
  · obtain ⟨t, ht, ha, -⟩ :=
      trends_average_is_mean_of_contributors temperatureRows (List.cons_ne_nil _ _)
    refine ⟨t, ht, ha, ?_⟩
    obtain ⟨-, htemp, -, -, -⟩ := ha
    rw [htemp (by rw [temperatureRows_contributors]; exact List.cons_ne_nil _ _),
      temperatureRows_values, numMean_98_6_99_2, toFixed1_98_6_99_2]

/-- C2: when the fetched data is null or an empty array the handler answers not-found (status
404) with the message "No vitals data found" and no summary, and only then; it answers with a
summary exactly when the fetched array is non-empty. -/
theorem trends_not_found_iff_no_rows (data : Option (List Vital)) :
    (getVitalsTrends (Except.ok data) = Response.notFound "No vitals data found" ↔
      (data = none ∨ data = some [])) ∧
    ((getVitalsTrends (Except.ok data)).status = 404 ↔ (data = none ∨ data = some [])) ∧
    ((∃ t n, getVitalsTrends (Except.ok data) = Response.ok t n) ↔
      ∃ vitals, data = some vitals ∧ vitals ≠ []) ∧
    (∀ vitals, data = some vitals → vitals ≠ [] →
      getVitalsTrends (Except.ok data) =
        Response.ok (finish (accumulate vitals)) vitals.length) := by
  cases data with
  | none => simp [getVitalsTrends, Response.status]
  | some vitals =>
    cases vitals with
    | nil => simp [getVitalsTrends, Response.status]
    | cons v vs => simp [getVitalsTrends, Response.status]

/-- C3: a row in which the systolic or the diastolic value is missing leaves both
blood-pressure sums, the shared count and the blood-pressure readings of the loop as they
were, and the blood-pressure part of the summary is the same with or without that row. -/
theorem blood_pressure_needs_both_values (a : Acc) (before after : List Vital) (v : Vital)
    (h : v.blood_pressure_systolic = none ∨ v.blood_pressure_diastolic = none) :
    ((step a v).avg_systolic = a.avg_systolic ∧ (step a v).avg_diastolic = a.avg_diastolic ∧
      (step a v).bpCount = a.bpCount ∧ (step a v).bpReadings = a.bpReadings) ∧
    (finish (accumulate (before ++ v :: after))).blood_pressure =
      (finish (accumulate (before ++ after))).blood_pressure := by
  have hf : (intTruthy v.blood_pressure_systolic && intTruthy v.blood_pressure_diastolic)
      = false := by
    rcases h with h | h <;> simp [h, intTruthy]
  constructor
  · obtain ⟨h1, h2, h3, h4⟩ := step_bp a v
    rw [h1, h2, h3, h4]
    simp [stepBp, hf]
  · have hc : bpContributors (before ++ v :: after) = bpContributors (before ++ after) := by
      simp [bpContributors, List.filter_cons, hf]
    obtain ⟨p1, p2, p3, p4⟩ := accumulate_bp (before ++ v :: after)
    obtain ⟨q1, q2, q3, q4⟩ := accumulate_bp (before ++ after)
    simp only [finish, p1, p2, p3, p4, q1, q2, q3, q4, hc]

/-- C3, witness: the rows `{systolic: 120, diastolic: 80}`, `{systolic: 130}` give
`avg_systolic = 120`, `avg_diastolic = 80` and one reading. -/
theorem blood_pressure_needs_both_values_witness :
    (bpExampleHalf.blood_pressure_systolic = none ∨
      bpExampleHalf.blood_pressure_diastolic = none) ∧
    (finish (accumulate ([bpExampleFull] ++ bpExampleHalf :: []))).blood_pressure =
      { avg_systolic := 120, avg_diastolic := 80,
        readings := [{ date := "2024-05-02T09:00:00Z", systolic := 120, diastolic := 80 }] } :=
  ⟨Or.inr rfl,
    (blood_pressure_needs_both_values Acc.init [bpExampleFull] [] bpExampleHalf
      (Or.inr rfl)).2.trans (by
        simp [bpExampleFull, finish, accumulate, step, stepBp, stepTemp, stepWeight, stepHr,
          stepO2, Acc.init, intTruthy, intValue, Val.truthy, roundAvg, Vital.blank]
        norm_num)⟩

/-- C4, counterexample: with weight `0` and height `175`, both numeric and present in the body,
and no BMI supplied, `create` stores no BMI, whereas the stated formula gives `0`; with weight
`-0.25` and height `100` it stores `-0.2`, whereas rounding half away from zero gives `-0.3`;
and with weight `48` and height `160` it stores `18.7`, whereas the stated formula gives
`18.8`: the quotient of the doubles is a little below the exact `18.75`. -/
theorem create_bmi_zero_or_negative_weight :
    ((VitalsModel.createRow zeroWeightBody "t1" "t2" "t3").get "bmi" = Val.undefined ∧
      specBmi 0 175 = 0) ∧
    ((VitalsModel.createRow negativeWeightBody "t1" "t2" "t3").get "bmi" = Val.ofRat (-1 / 5) ∧
      specBmi (-1 / 4) 100 = -3 / 10) ∧
    ((VitalsModel.createRow halfwayBody "t1" "t2" "t3").get "bmi" = Val.ofRat (187 / 10) ∧
      specBmi 48 160 = 188 / 10) := by
  refine ⟨⟨?_, ?_⟩, ⟨?_, ?_⟩, ?_, ?_⟩
  · rw [createRow_bmi]
    simp [VitalsModel.createBmi, zeroWeightBody, Obj.get, List.lookup, Val.truthy, Num.truthy]
  · simp [specBmi, roundHalfAwayFromZero]
    norm_num
  · have hw : negativeWeightBody.get "weight" = Val.num (Num.fin (-1 / 4)) :=
      Val.ofRat_neg_quarter
    have hh : negativeWeightBody.get "height" = Val.num (Num.fin 100) := Val.ofRat_100
    rw [createRow_bmi, createBmi_of_numbers negativeWeightBody (-1 / 4) 100 hw hh (by decide)
      (by norm_num) (by norm_num), bmiOf_neg_quarter_100]
    rfl
  · simp [specBmi, roundHalfAwayFromZero]
    norm_num
  · have hw : halfwayBody.get "weight" = Val.num (Num.fin 48) := Val.ofRat_48
    have hh : halfwayBody.get "height" = Val.num (Num.fin 160) := Val.ofRat_160
    rw [createRow_bmi, createBmi_of_numbers halfwayBody 48 160 hw hh (by decide)
      (by norm_num) (by norm_num), bmiOf_48_160]
    rfl
  · simp [specBmi, roundHalfAwayFromZero]
    norm_num

/-- C4, amended: for every body whose weight and height are non-zero numbers and whose BMI is
not supplied (or falsy), `create` stores the value of
`Math.round((weight / ((height/100) * (height/100))) * 10) / 10` in double arithmetic, each
division and product rounded to the nearest double and `Math.round` taking a tie up. For a
weight from `1` to `1000` and a height from `10` to `1000` that value is the double of a
decimal with one digit after the point which lies within `0.05 + 10^-9` of the exact quotient
`weight / (height/100)^2`. -/
theorem create_bmi_computed (vitalsData : Obj) (w h : ℚ) (t1 t2 t3 : String)
    (hw : vitalsData.get "weight" = Val.num (Num.fin w))
    (hh : vitalsData.get "height" = Val.num (Num.fin h))
    (hb : (vitalsData.get "bmi").truthy = false) (hw0 : w ≠ 0) (hh0 : h ≠ 0) :
    (VitalsModel.createRow vitalsData t1 t2 t3).get "bmi" = Val.num (doubleBmi w h) ∧
    (1 ≤ w → w ≤ 1000 → 10 ≤ h → h ≤ 1000 →
      ∃ n : ℤ, (VitalsModel.createRow vitalsData t1 t2 t3).get "bmi" = Val.ofRat ((n : ℚ) / 10) ∧
        |(n : ℚ) / 10 - w / (h / 100) ^ 2| ≤ 1 / 20 + 1 / 10 ^ 9) := by
  have e : (VitalsModel.createRow vitalsData t1 t2 t3).get "bmi" = Val.num (doubleBmi w h) := by
    rw [createRow_bmi, createBmi_of_numbers vitalsData w h hw hh hb hw0 hh0, bmiOf_fin]
  refine ⟨e, fun h1 h2 h3 h4 => ?_⟩
  obtain ⟨n, hn, hb⟩ := doubleBmi_near w h h1 h2 h3 h4
  exact ⟨n, by rw [e, hn]; rfl, hb⟩

/-- C4, witness: weight `70` and height `175` give `bmi = 22.9`. -/
theorem create_bmi_computed_witness :
    (plainBody.get "weight" = Val.num (Num.fin 70) ∧
      plainBody.get "height" = Val.num (Num.fin 175) ∧
      (plainBody.get "bmi").truthy = false ∧ (70 : ℚ) ≠ 0 ∧ (175 : ℚ) ≠ 0) ∧
    (VitalsModel.createRow plainBody "t1" "t2" "t3").get "bmi" = Val.ofRat (229 / 10) :=
  ⟨⟨Val.ofRat_70, Val.ofRat_175, by decide, by norm_num, by norm_num⟩,
    (create_bmi_computed plainBody 70 175 "t1" "t2" "t3" Val.ofRat_70 Val.ofRat_175 (by decide)
      (by norm_num) (by norm_num)).1.trans (by rw [← bmiOf_fin, bmiOf_70_175]; rfl)⟩

/-- C5, counterexample: the body `{weight: 70, height: 175, bmi: 0}` supplies a BMI of `0`,
and `create` stores the recomputed `22.9`, not the supplied value. -/
theorem create_overwrites_zero_bmi :
    zeroBmiBody.lookup "bmi" = some (Val.ofRat 0) ∧
    (VitalsModel.createRow zeroBmiBody "t1" "t2" "t3").get "bmi" = Val.ofRat (229 / 10) := by
  refine ⟨rfl, ?_⟩
  have hw : zeroBmiBody.get "weight" = Val.num (Num.fin 70) := Val.ofRat_70
  have hh : zeroBmiBody.get "height" = Val.num (Num.fin 175) := Val.ofRat_175
  have hb : zeroBmiBody.get "bmi" = Val.num (Num.fin 0) := Val.ofRat_0
  rw [createRow_bmi, createBmi_of_numbers zeroBmiBody 70 175 hw hh (by rw [hb]; decide)
    (by norm_num) (by norm_num), bmiOf_70_175]
  rfl

/-- C5, amended: for every body whose supplied BMI is truthy (not `0`, `null`, `false` or the
empty string), `create` stores exactly the supplied BMI, whatever weight and height are. -/
theorem create_keeps_supplied_bmi (vitalsData : Obj) (t1 t2 t3 : String)
    (hb : (vitalsData.get "bmi").truthy = true) :
    (VitalsModel.createRow vitalsData t1 t2 t3).get "bmi" = vitalsData.get "bmi" := by
  rw [createRow_bmi]
  simp [VitalsModel.createBmi, hb]

/-- C5, witness: weight `70`, height `175` and supplied BMI `25.0` store `25.0`. -/
theorem create_keeps_supplied_bmi_witness :
    (suppliedBmiBody.get "bmi").truthy = true ∧
    (VitalsModel.createRow suppliedBmiBody "t1" "t2" "t3").get "bmi" = Val.ofRat 25 :=
  ⟨by simp [suppliedBmiBody, Obj.get, List.lookup, Val.truthy, Num.truthy],
    (create_keeps_supplied_bmi suppliedBmiBody "t1" "t2" "t3"
      (by simp [suppliedBmiBody, Obj.get, List.lookup, Val.truthy, Num.truthy])).trans rfl⟩

/-- C6, counterexample: the payload `{weight: 0, height: 170}` on a row storing weight `70`
supplies a weight, so the stated merged weight is `0` and the stated BMI is `0`; `update` takes
the stored `70` instead and writes `24.2`. -/
theorem update_ignores_supplied_zero_weight :
    (suppliedOrStored zeroWeightUpdate storedRow "weight" = Val.ofRat 0 ∧
      suppliedOrStored zeroWeightUpdate storedRow "height" = Val.ofRat 170 ∧
      bmiOf (Val.ofRat 0) (Val.ofRat 170) = Num.fin 0) ∧
    (writtenFields (VitalsModel.update (some storedRow) "v1" zeroWeightUpdate "now")).map
      (fun fields => fields.get "bmi") = some (Val.ofRat (121 / 5)) := by
  refine ⟨⟨rfl, rfl, ?_⟩, ?_⟩
  · rw [Val.ofRat_0, Val.ofRat_170, bmiOf_0_170]
  · have hw : (zeroWeightUpdate.get "weight").or (storedRow.get "weight") =
        Val.num (Num.fin 70) := by
      simp [zeroWeightUpdate, storedRow, Obj.get, List.lookup, Val.or, Val.truthy, Num.truthy]
    have hh : (zeroWeightUpdate.get "height").or (storedRow.get "height") =
        Val.num (Num.fin 170) := by
      simp [zeroWeightUpdate, storedRow, Obj.get, List.lookup, Val.or, Val.truthy, Num.truthy]
    have e := writtenBmi_of_recalculated storedRow zeroWeightUpdate "v1" "now"
      (Or.inr (by
        simp [zeroWeightUpdate, Obj.get, List.lookup, Val.truthy, Num.truthy]))
      (by rw [hw]; decide) (by rw [hh]; decide)
    rw [hw, hh, bmiOf_70_170] at e
    exact e

/-- C6, amended: for every update whose payload carries a truthy weight or a truthy height, on
a row the store finds, `update` reads the stored row and computes BMI from the merged view:
the weight used is the payload's weight if it is truthy and the stored weight otherwise, and
likewise the height; when both merged values are non-zero numbers the `bmi` written is the
value of `Math.round((weight / ((height/100) * (height/100))) * 10) / 10` on the merged weight
and height in double arithmetic, which for a weight from `1` to `1000` and a height from `10`
to `1000` is the double of a one-digit decimal within `0.05 + 10^-9` of the exact quotient. -/
theorem update_bmi_from_merged_view (current updates : Obj) (vitalsId now : String) (w h : ℚ)
    (ht : (updates.get "weight").truthy = true ∨ (updates.get "height").truthy = true)
    (hw : (updates.get "weight").or (current.get "weight") = Val.num (Num.fin w))
    (hh : (updates.get "height").or (current.get "height") = Val.num (Num.fin h))
    (hw0 : w ≠ 0) (hh0 : h ≠ 0) :
    VitalsModel.update (some current) vitalsId updates now =
      Except.ok [StoreCall.selectWeightHeight vitalsId,
        StoreCall.update vitalsId
          ((updates.set "bmi" (Val.num (doubleBmi w h))).set "updated_at" (Val.str now))] ∧
    (writtenFields (VitalsModel.update (some current) vitalsId updates now)).map
      (fun fields => fields.get "bmi") = some (Val.num (doubleBmi w h)) ∧
    (1 ≤ w → w ≤ 1000 → 10 ≤ h → h ≤ 1000 →
      ∃ n : ℤ, doubleBmi w h = Num.ofRat ((n : ℚ) / 10) ∧
        |(n : ℚ) / 10 - w / (h / 100) ^ 2| ≤ 1 / 20 + 1 / 10 ^ 9) := by
  have tw : ((updates.get "weight").or (current.get "weight")).truthy = true := by
    rw [hw]; exact Val.num_fin_truthy w hw0
  have th : ((updates.get "height").or (current.get "height")).truthy = true := by
    rw [hh]; exact Val.num_fin_truthy h hh0
  have e := update_recalculated current updates vitalsId now ht tw th
  have e' := writtenBmi_of_recalculated current updates vitalsId now ht tw th
  rw [hw, hh, bmiOf_fin] at e e'
  exact ⟨e, e', doubleBmi_near w h⟩

/-- C6, witness: updating only the weight, to `80`, on a row whose stored height is `180`
writes `bmi = 24.7`, computed from the new weight and the stored height. -/
theorem update_bmi_from_merged_view_witness :
    (((weightOnlyUpdate.get "weight").truthy = true ∨
        (weightOnlyUpdate.get "height").truthy = true) ∧
      (weightOnlyUpdate.get "weight").or (storedRow.get "weight") = Val.num (Num.fin 80) ∧
      (weightOnlyUpdate.get "height").or (storedRow.get "height") = Val.num (Num.fin 180) ∧
      (80 : ℚ) ≠ 0 ∧ (180 : ℚ) ≠ 0) ∧
    (writtenFields (VitalsModel.update (some storedRow) "v1" weightOnlyUpdate "now")).map
      (fun fields => fields.get "bmi") = some (Val.ofRat (247 / 10)) :=
  have t : (weightOnlyUpdate.get "weight").truthy = true := by
    simp [weightOnlyUpdate, Obj.get, List.lookup, Val.truthy, Num.truthy]
  have hw : (weightOnlyUpdate.get "weight").or (storedRow.get "weight") =
      Val.num (Num.fin 80) := by
    simp [weightOnlyUpdate, storedRow, Obj.get, List.lookup, Val.or, Val.truthy, Num.truthy]
  have hh : (weightOnlyUpdate.get "height").or (storedRow.get "height") =
      Val.num (Num.fin 180) := by
    simp [weightOnlyUpdate, storedRow, Obj.get, List.lookup, Val.or, Val.truthy]
  ⟨⟨Or.inl t, hw, hh, by norm_num, by norm_num⟩,
    (update_bmi_from_merged_view storedRow weightOnlyUpdate "v1" "now" 80 180 (Or.inl t) hw hh
      (by norm_num) (by norm_num)).2.1.trans (by rw [← bmiOf_fin, bmiOf_80_180]; rfl)⟩

/-- C7: for every payload containing neither weight nor height, `update` does not read the
stored row, and the fields it sends to the store are the payload with `updated_at` set:
every other property, `bmi` included, is as in the payload, present or absent. -/
theorem update_without_weight_height (current : Option Obj) (vitalsId now : String)
    (updates : Obj) (hw : updates.lookup "weight" = none) (hh : updates.lookup "height" = none) :
    VitalsModel.update current vitalsId updates now =
      Except.ok [StoreCall.update vitalsId (updates.set "updated_at" (Val.str now))] ∧
    readsStoredRow (VitalsModel.update current vitalsId updates now) = false ∧
    (∀ k, k ≠ "updated_at" →
      (updates.set "updated_at" (Val.str now)).lookup k = updates.lookup k) ∧
    (updates.set "updated_at" (Val.str now)).lookup "updated_at" = some (Val.str now) := by
  have e : VitalsModel.update current vitalsId updates now =
      Except.ok [StoreCall.update vitalsId (updates.set "updated_at" (Val.str now))] := by
    simp [VitalsModel.update, Obj.get, hw, hh, Val.truthy]
  refine ⟨e, ?_, fun k hk => Obj.lookup_set_ne _ _ _ _ hk, Obj.lookup_set_eq _ _ _⟩
  rw [e]
  simp [readsStoredRow]

/-- C7, witness: the payload `{notes, heart_rate}` is sent with `updated_at` added and no
`bmi`, without a read of the stored row. -/
theorem update_without_weight_height_witness :
    (notesUpdate.lookup "weight" = none ∧ notesUpdate.lookup "height" = none) ∧
    VitalsModel.update none "v1" notesUpdate "now" =
      Except.ok [StoreCall.update "v1"
        [("notes", Val.str "after exercise"), ("heart_rate", Val.ofRat 88),
         ("updated_at", Val.str "now")]] :=
  ⟨⟨by decide, by decide⟩,
    (update_without_weight_height none "v1" "now" notesUpdate (by decide) (by decide)).1.trans
      (by simp [notesUpdate, Obj.set])⟩

/-- C8, counterexample: of two rows with oxygen saturation recorded as `97` and as `0`, the
readings list of the summary holds only the first, although the metric is recorded (not null)
in both. -/
theorem trends_readings_drop_recorded_zero :
    (∃ t, getVitalsTrends (Except.ok (some zeroSaturationRows)) = Response.ok t 2 ∧
      t.oxygen_saturation.readings = [{ date := "2024-05-02T09:00:00Z", value := 97 }]) ∧
    recordedReadings (fun v => v.oxygen_saturation) zeroSaturationRows =
      [{ date := "2024-05-02T09:00:00Z", value := 97 },
       { date := "2024-05-01T09:00:00Z", value := 0 }] := by
  constructor
  · refine ⟨_, getVitalsTrends_ok zeroSaturationRows (by simp [zeroSaturationRows]), ?_⟩
    simp [zeroSaturationRows, finish, accumulate, step, stepBp, stepTemp, stepWeight, stepHr,
      stepO2, Acc.init, intTruthy, intValue, Val.truthy, Vital.blank]
  · simp [recordedReadings, zeroSaturationRows, Vital.blank]

/-- C8, amended: for every non-empty sequence of rows and every metric, the readings list of
the summary is exactly the list of entries of the rows that pass the metric's truthiness test
(value neither null nor zero; for blood pressure both values), in the order of the input. -/
theorem trends_readings_are_contributors_in_order (vitals : List Vital) (h : vitals ≠ []) :
    ∃ t, getVitalsTrends (Except.ok (some vitals)) = Response.ok t vitals.length ∧
      ReadingsOfContributors vitals t :=
  ⟨_, getVitalsTrends_ok vitals h, finish_readings vitals⟩

/-- C8, witness of the amended statement on the rows with saturations `97` and `0`. -/
theorem trends_readings_are_contributors_in_order_witness :
    zeroSaturationRows ≠ [] ∧
    ∃ t, getVitalsTrends (Except.ok (some zeroSaturationRows)) =
        Response.ok t zeroSaturationRows.length ∧
      ReadingsOfContributors zeroSaturationRows t :=
  ⟨List.cons_ne_nil _ _,
    trends_readings_are_contributors_in_order zeroSaturationRows (List.cons_ne_nil _ _)⟩

/-- C9: for every non-empty sequence of rows, each of `avg_systolic`, `avg_diastolic`,
`heart_rate.avg` and `oxygen_saturation.avg` whose metric has a contributing row is an integer
at distance at most one half from the exact quotient of the sum of the contributing values by
their count. -/
theorem rounded_averages_are_nearest_integers (vitals : List Vital) (h : vitals ≠ []) :
    ∃ t, getVitalsTrends (Except.ok (some vitals)) = Response.ok t vitals.length ∧
      RoundedAveragesNearest vitals t := by
  refine ⟨_, getVitalsTrends_ok vitals h, ?_⟩
  obtain ⟨hb, hr, ho⟩ := finish_integer_avgs vitals
  refine ⟨fun hne => ?_, fun hne => ?_, fun hne => ?_⟩
  · obtain ⟨e1, e2⟩ := hb hne
    refine ⟨⟨_, e1, ?_⟩, ⟨_, e2, ?_⟩⟩
    · have := roundHalfUp_near (mean (intValues (fun v => v.blood_pressure_systolic)
        (bpContributors vitals)))
      simpa [mean, intValues_length] using this
    · have := roundHalfUp_near (mean (intValues (fun v => v.blood_pressure_diastolic)
        (bpContributors vitals)))
      simpa [mean, intValues_length] using this
  · refine ⟨_, hr hne, ?_⟩
    have := roundHalfUp_near (mean (intValues (fun v => v.heart_rate) (hrContributors vitals)))
    simpa [mean, intValues_length] using this
  · refine ⟨_, ho hne, ?_⟩
    have := roundHalfUp_near (mean (intValues (fun v => v.oxygen_saturation)
      (o2Contributors vitals)))
    simpa [mean, intValues_length] using this

/-- C9, witness on three rows with heart rates `71`, `72`, `74`: the reported heart-rate
average is an integer within one half of `217/3`. -/
theorem rounded_averages_are_nearest_integers_witness :
    threeFullRows ≠ [] ∧
    ∃ t, getVitalsTrends (Except.ok (some threeFullRows)) =
        Response.ok t threeFullRows.length ∧
      RoundedAveragesNearest threeFullRows t ∧ IsNearestInteger (217 / 3) t.heart_rate.avg := by
  refine ⟨List.cons_ne_nil _ _, ?_⟩
  obtain ⟨t, ht, ha⟩ :=
    rounded_averages_are_nearest_integers threeFullRows (List.cons_ne_nil _ _)
  refine ⟨t, ht, ha, ?_⟩
  obtain ⟨-, hr, -⟩ := ha
  have h := hr (by simp [hrContributors, threeFullRows, intTruthy, Vital.blank])
  have e : (intValues (fun v => v.heart_rate) (hrContributors threeFullRows)).sum /
      ((hrContributors threeFullRows).length : ℚ) = 217 / 3 := by
    simp [hrContributors, threeFullRows, intTruthy, intValues, intValue, Vital.blank]
    norm_num
  rwa [e] at h

/-- C10, counterexample: a single row whose temperature is the number `1e21` gives
`temperature.avg = "1e+21"`, which is exponent notation: it has an `e` and is not fixed-point
text with one digit after the point. -/
theorem temperature_average_exponent_notation :
    (∃ t, getVitalsTrends (Except.ok (some hugeTemperatureRows)) = Response.ok t 1 ∧
      t.temperature.avg = Val.str "1e+21") ∧
    isFixedOneDecimal "1e+21" = false ∧ 'e' ∈ "1e+21".data := by
  refine ⟨⟨_, getVitalsTrends_ok hugeTemperatureRows (by simp [hugeTemperatureRows]), ?_⟩,
    by decide, by decide⟩
  rw [(finish_decimal_avgs hugeTemperatureRows).1 hugeTemperatureRows_values.1,
    hugeTemperatureRows_values.2, numMean_1e21, toFixed1_1e21]

/-- C10, amended: for every non-empty sequence of rows in which a row carries a truthy
temperature (respectively weight), when the mean of the contributing values, as double
arithmetic gives it, is finite and below `10^21` in magnitude, the reported average is
fixed-point text with exactly one digit after the point, and the decimal it denotes is within
one twentieth of that mean; for at most a thousand contributing values between `1` and `1000`
it is within `0.05 + 10^-9` of their exact mean. -/
theorem decimal_averages_fixed_point (vitals : List Vital) (h : vitals ≠ []) :
    ∃ t, getVitalsTrends (Except.ok (some vitals)) = Response.ok t vitals.length ∧
      FixedPointAverages vitals t ∧ DecimalAveragesNearMean vitals t := by
  refine ⟨_, getVitalsTrends_ok vitals h, ?_, finish_decimal_avgs_near vitals⟩
  obtain ⟨ht, hw⟩ := finish_decimal_avgs vitals
  refine ⟨fun m hne hq hm => ?_, fun m hne hq hm => ?_⟩
  · obtain ⟨hf, r, hr, hb⟩ := toFixed1_fixed m hm
    exact ⟨_, r, by rw [ht hne, hq], hf, hr, hb⟩
  · obtain ⟨hf, r, hr, hb⟩ := toFixed1_fixed m hm
    exact ⟨_, r, by rw [hw hne, hq], hf, hr, hb⟩

/-- C10, witness of the amended statement on rows with temperatures `98.6` and `"99.2"`: the
reported average is `"98.9"`, fixed-point text denoting a decimal within one twentieth of the
mean of the two doubles. -/
theorem decimal_averages_fixed_point_witness :
    temperatureRows ≠ [] ∧
    ∃ t, getVitalsTrends (Except.ok (some temperatureRows)) =
        Response.ok t temperatureRows.length ∧
      FixedPointAverages temperatureRows t ∧
      ∃ s q, t.temperature.avg = Val.str s ∧ isFixedOneDecimal s = true ∧
        IsDecimalText s q ∧ |q - 3479734399585485 / 35184372088832| ≤ 1 / 20 := by
  refine ⟨List.cons_ne_nil _ _, ?_⟩
  obtain ⟨t, ht, ha, -⟩ := decimal_averages_fixed_point temperatureRows (List.cons_ne_nil _ _)
  refine ⟨t, ht, ha, ?_⟩
  exact ha.1 _ (by rw [temperatureRows_contributors]; exact List.cons_ne_nil _ _)
    (by rw [temperatureRows_values, numMean_98_6_99_2]) (by norm_num [abs_lt])

/-- C11: for every non-empty sequence of rows and every metric that no row carries (more
generally, that no row passes the test of), the handler answers with a summary in which the
metric's average is the number `0` (both averages for blood pressure) and its readings list is
empty: the sum is left as it is and not divided by the zero count. -/
theorem trends_zero_for_uncarried_metric (m : Metric) (vitals : List Vital) (hne : vitals ≠ [])
    (h : ∀ v ∈ vitals, m.passes v = false) :
    ∃ t, getVitalsTrends (Except.ok (some vitals)) = Response.ok t vitals.length ∧ m.zeroIn t :=
  ⟨_, getVitalsTrends_ok vitals hne, finish_zero_of_no_contributor m vitals h⟩

/-- C11, witness: two rows with heart rates `0` and `60` carry no temperature, and the
temperature part of the summary is `avg = 0`, `readings = []`. -/
theorem trends_zero_for_uncarried_metric_witness :
    (zeroHeartRateRows ≠ [] ∧
      ∀ v ∈ zeroHeartRateRows, Metric.temperature.recorded v = false) ∧
    ∃ t, getVitalsTrends (Except.ok (some zeroHeartRateRows)) =
        Response.ok t zeroHeartRateRows.length ∧
      t.temperature.avg = Val.num (Num.fin 0) ∧ t.temperature.readings = [] :=
  ⟨⟨List.cons_ne_nil _ _, by decide⟩,
    trends_zero_for_uncarried_metric Metric.temperature zeroHeartRateRows (List.cons_ne_nil _ _)
      (fun v hv => Metric.passes_false_of_not_recorded _ v ((by decide :
        ∀ v ∈ zeroHeartRateRows, Metric.temperature.recorded v = false) v hv))⟩

/-- C12: inserting, at any position of the input, a row that does not carry a metric (more
generally, that fails the metric's test) leaves the metric's average and readings list in the
summary unchanged; the total count goes up by one. -/
theorem trends_metric_unchanged_by_foreign_row (m : Metric) (before after : List Vital)
    (v : Vital) (h : m.passes v = false) :
    ∃ s, getVitalsTrends (Except.ok (some (before ++ v :: after))) =
        Response.ok s ((before ++ after).length + 1) ∧
      m.sameIn s (finish (accumulate (before ++ after))) ∧
      (before ++ after ≠ [] →
        getVitalsTrends (Except.ok (some (before ++ after))) =
          Response.ok (finish (accumulate (before ++ after))) (before ++ after).length) := by
  refine ⟨_, ?_, finish_insert_of_not_passing m before after v h,
    fun hne => getVitalsTrends_ok _ hne⟩
  have := getVitalsTrends_ok (before ++ v :: after) (by simp)
  simpa [Nat.add_assoc] using this

/-- C12, witness: putting the row `{systolic: 130}`, which carries no heart rate, between three
rows with heart rates and two blank rows leaves the heart-rate part of the summary as it
was. -/
theorem trends_metric_unchanged_by_foreign_row_witness :
    Metric.heartRate.recorded bpExampleHalf = false ∧
    ∃ s, getVitalsTrends (Except.ok (some (threeFullRows ++ bpExampleHalf :: blankRows))) =
        Response.ok s ((threeFullRows ++ blankRows).length + 1) ∧
      Metric.heartRate.sameIn s (finish (accumulate (threeFullRows ++ blankRows))) ∧
      (threeFullRows ++ blankRows ≠ [] →
        getVitalsTrends (Except.ok (some (threeFullRows ++ blankRows))) =
          Response.ok (finish (accumulate (threeFullRows ++ blankRows)))
            (threeFullRows ++ blankRows).length) :=
  ⟨by decide,
    trends_metric_unchanged_by_foreign_row Metric.heartRate threeFullRows blankRows
      bpExampleHalf (Metric.passes_false_of_not_recorded _ _ (by decide))⟩

/-- C13, counterexample: `create` on the body `{weight: 70, height: 175, bmi: 25.0}` writes a
row in which weight and height are both present and `bmi` is `25`, whereas weight over squared
height in metres, rounded to one decimal place, is `22.9`. -/
theorem bmi_invariant_broken_by_supplied_bmi :
    (VitalsModel.createRow suppliedBmiBody "t1" "t2" "t3").get "weight" = Val.ofRat 70 ∧
    (VitalsModel.createRow suppliedBmiBody "t1" "t2" "t3").get "height" = Val.ofRat 175 ∧
    (VitalsModel.createRow suppliedBmiBody "t1" "t2" "t3").get "bmi" = Val.ofRat 25 ∧
    roundedBmi 70 175 = 229 / 10 := by
  refine ⟨?_, ?_, ?_, ?_⟩
  · unfold VitalsModel.createRow
    rw [Obj.get_set_ne _ _ _ _ (by decide), Obj.get_set_ne _ _ _ _ (by decide),
      Obj.get_set_ne _ _ _ _ (by decide), Obj.get_set_ne _ _ _ _ (by decide)]
    rfl
  · unfold VitalsModel.createRow
    rw [Obj.get_set_ne _ _ _ _ (by decide), Obj.get_set_ne _ _ _ _ (by decide),
      Obj.get_set_ne _ _ _ _ (by decide), Obj.get_set_ne _ _ _ _ (by decide)]
    rfl
  · rw [createRow_bmi, createBmi_of_supplied _ (by
      simp [suppliedBmiBody, Obj.get, List.lookup, Val.truthy, Num.truthy])]
    rfl
  · simp [roundedBmi, roundHalfUp]
    norm_num

/-- C13, amended: the `bmi` written by `create` is the value of
`Math.round((weight / ((height/100) * (height/100))) * 10) / 10` in double arithmetic when
weight and height are non-zero numbers and no truthy BMI is supplied, and is exactly what the
caller supplied when weight or height is missing or falsy; the `bmi` written by `update` on a
row the store finds is that value on the merged weight and height when the payload carries a
truthy weight or height and both merged values are non-zero numbers, and is exactly what the
payload supplied when the payload carries neither or a merged value is missing or falsy. For a
weight from `1` to `1000` and a height from `10` to `1000` the computed value is the double of
a decimal with one digit after the point within `0.05 + 10^-9` of the exact quotient
`weight / (height/100)^2`. -/
theorem bmi_written_by_create_and_update (vitalsData updates current : Obj)
    (t1 t2 t3 vitalsId now : String) :
    (∀ w h : ℚ, w ≠ 0 → h ≠ 0 →
      vitalsData.get "weight" = Val.num (Num.fin w) →
      vitalsData.get "height" = Val.num (Num.fin h) →
      (vitalsData.get "bmi").truthy = false →
      (VitalsModel.createRow vitalsData t1 t2 t3).get "bmi" = Val.num (doubleBmi w h)) ∧
    (((vitalsData.get "weight").truthy = false ∨ (vitalsData.get "height").truthy = false) →
      (VitalsModel.createRow vitalsData t1 t2 t3).get "bmi" = vitalsData.get "bmi") ∧
    (∀ w h : ℚ, w ≠ 0 → h ≠ 0 →
      ((updates.get "weight").truthy = true ∨ (updates.get "height").truthy = true) →
      (updates.get "weight").or (current.get "weight") = Val.num (Num.fin w) →
      (updates.get "height").or (current.get "height") = Val.num (Num.fin h) →
      writtenBmi (VitalsModel.update (some current) vitalsId updates now) =
        some (Val.num (doubleBmi w h))) ∧
    ((((updates.get "weight").truthy = false ∧ (updates.get "height").truthy = false) ∨
        ((updates.get "weight").or (current.get "weight")).truthy = false ∨
        ((updates.get "height").or (current.get "height")).truthy = false) →
      writtenBmi (VitalsModel.update (some current) vitalsId updates now) =
        some (updates.get "bmi")) ∧
    (∀ w h : ℚ, 1 ≤ w → w ≤ 1000 → 10 ≤ h → h ≤ 1000 →
      ∃ n : ℤ, doubleBmi w h = Num.ofRat ((n : ℚ) / 10) ∧
        |(n : ℚ) / 10 - w / (h / 100) ^ 2| ≤ 1 / 20 + 1 / 10 ^ 9) := by
  refine ⟨fun w h hw0 hh0 hw hh hb => ?_, fun hf => ?_, fun w h hw0 hh0 ht hw hh => ?_,
    fun hf => ?_, doubleBmi_near⟩
  · rw [createRow_bmi, createBmi_of_numbers vitalsData w h hw hh hb hw0 hh0, bmiOf_fin]
  · rw [createRow_bmi, createBmi_of_falsy vitalsData hf]
  · have e := writtenBmi_of_recalculated current updates vitalsId now ht
      (by rw [hw]; exact Val.num_fin_truthy w hw0) (by rw [hh]; exact Val.num_fin_truthy h hh0)
    rw [hw, hh, bmiOf_fin] at e
    exact e
  · rw [writtenBmi, update_not_recalculated current updates vitalsId now hf]
    simp only [Option.map]
    rw [Obj.get_set_ne _ _ _ _ (by decide)]

/-- C13, witness: `create` on `{weight: 70, height: 175}` writes `22.9` and on a body without
weight writes no BMI; `update` with `{weight: 80}` on a row storing height `180` writes `24.7`
and with `{bmi: 30}` writes `30`. -/
theorem bmi_written_by_create_and_update_witness :
    (VitalsModel.createRow plainBody "t1" "t2" "t3").get "bmi" = Val.ofRat (229 / 10) ∧
    (VitalsModel.createRow heightOnlyBody "t1" "t2" "t3").get "bmi" = Val.undefined ∧
    writtenBmi (VitalsModel.update (some storedRow) "v1" weightOnlyUpdate "now") =
      some (Val.ofRat (247 / 10)) ∧
    writtenBmi (VitalsModel.update (some storedRow) "v1" bmiOnlyUpdate "now") =
      some (Val.ofRat 30) :=
  have t : (weightOnlyUpdate.get "weight").truthy = true := by
    simp [weightOnlyUpdate, Obj.get, List.lookup, Val.truthy, Num.truthy]
  have hw : (weightOnlyUpdate.get "weight").or (storedRow.get "weight") =
      Val.num (Num.fin 80) := by
    simp [weightOnlyUpdate, storedRow, Obj.get, List.lookup, Val.or, Val.truthy, Num.truthy]
  have hh : (weightOnlyUpdate.get "height").or (storedRow.get "height") =
      Val.num (Num.fin 180) := by
    simp [weightOnlyUpdate, storedRow, Obj.get, List.lookup, Val.or, Val.truthy]
  ⟨((bmi_written_by_create_and_update plainBody [] [] "t1" "t2" "t3" "v1" "now").1 70 175
      (by norm_num) (by norm_num) Val.ofRat_70 Val.ofRat_175 (by decide)).trans (by
        rw [← bmiOf_fin, bmiOf_70_175]; rfl),
    ((bmi_written_by_create_and_update heightOnlyBody [] [] "t1" "t2" "t3" "v1" "now").2.1
      (Or.inl (by decide))).trans rfl,
    ((bmi_written_by_create_and_update [] weightOnlyUpdate storedRow "t1" "t2" "t3" "v1"
      "now").2.2.1 80 180 (by norm_num) (by norm_num) (Or.inl t) hw hh).trans (by
        rw [← bmiOf_fin, bmiOf_80_180]; rfl),
    ((bmi_written_by_create_and_update [] bmiOnlyUpdate storedRow "t1" "t2" "t3" "v1"
      "now").2.2.2.1 (Or.inl ⟨by decide, by decide⟩)).trans rfl⟩

/-- C14: for every body with no `bmi` in which `weight` or `height` is absent, the local `bmi`
of `create` stays `undefined` and the row handed to the store holds `bmi: undefined`, a
property that JSON serialisation leaves out. -/
theorem create_records_no_bmi (vitalsData : Obj) (t1 t2 t3 : String)
    (hb : vitalsData.lookup "bmi" = none)
    (h : vitalsData.lookup "weight" = none ∨ vitalsData.lookup "height" = none) :
    VitalsModel.createBmi vitalsData = Val.undefined ∧
    (VitalsModel.createRow vitalsData t1 t2 t3).get "bmi" = Val.undefined ∧
    VitalsModel.create vitalsData t1 t2 t3 =
      [StoreCall.insert (VitalsModel.createRow vitalsData t1 t2 t3)] := by
  have hu : vitalsData.get "bmi" = Val.undefined := by simp [Obj.get, hb]
  have hf : (vitalsData.get "weight").truthy = false ∨
      (vitalsData.get "height").truthy = false := by
    rcases h with h | h
    · left; simp [Obj.get, h, Val.truthy]
    · right; simp [Obj.get, h, Val.truthy]
  have e : VitalsModel.createBmi vitalsData = Val.undefined := by
    rw [createBmi_of_falsy vitalsData hf, hu]
  exact ⟨e, by rw [createRow_bmi, e], rfl⟩

/-- C14, witness: the body `{patient_id, doctor_id, height: 175}` has no weight and no BMI,
and the row sent to the store has `bmi: undefined`. -/
theorem create_records_no_bmi_witness :
    (heightOnlyBody.lookup "bmi" = none ∧
      (heightOnlyBody.lookup "weight" = none ∨ heightOnlyBody.lookup "height" = none)) ∧
    (VitalsModel.createRow heightOnlyBody "t1" "t2" "t3").get "bmi" = Val.undefined :=
  ⟨⟨by decide, Or.inl (by decide)⟩,
    (create_records_no_bmi heightOnlyBody "t1" "t2" "t3" (by decide) (Or.inl (by decide))).2.1⟩

/-- C15, counterexample: a weight that is not a number is not treated as absent. With
`weight: true` and height `175`, `create` computes and stores `bmi = 0.3`; with the weight a
single space it stores `bmi = 0`; in neither body is a BMI supplied. -/
theorem create_bmi_from_non_numeric_weight :
    (booleanWeightBody.lookup "bmi" = none ∧
      (VitalsModel.createRow booleanWeightBody "t1" "t2" "t3").get "bmi" = Val.ofRat (3 / 10)) ∧
    (blankWeightBody.lookup "bmi" = none ∧
      (VitalsModel.createRow blankWeightBody "t1" "t2" "t3").get "bmi" = Val.ofRat 0) := by
  have h175 : (Val.ofRat 175).truthy = true := by
    rw [Val.ofRat_175]
    exact Val.num_fin_truthy _ (by norm_num)
  have n175 : (Val.ofRat 175).toNumber = Num.fin 175 := by
    rw [Val.ofRat_175]
    rfl
  refine ⟨⟨by decide, ?_⟩, by decide, ?_⟩
  · rw [createRow_bmi, createBmi_of_truthy booleanWeightBody (by decide) h175 (by decide)]
    have e : bmiOf (booleanWeightBody.get "weight") (booleanWeightBody.get "height") =
        doubleBmi 1 175 := bmiOf_toNumber _ _ 1 175 rfl n175
    rw [e, ← bmiOf_fin, bmiOf_1_175]
    rfl
  · rw [createRow_bmi, createBmi_of_truthy blankWeightBody (by decide) h175 (by decide)]
    have b : (Val.str " ").toNumber = Num.fin 0 := by
      simp [Val.toNumber, stringToNumber, isStrWhiteSpaceChar]
    have e : bmiOf (blankWeightBody.get "weight") (blankWeightBody.get "height") =
        doubleBmi 0 175 := bmiOf_toNumber _ _ 0 175 b n175
    rw [e, ← bmiOf_fin, bmiOf_0_175, Val.ofRat_0]

/-- C15, amended: the BMI derivation applies its truthiness test and then the numeric coercion
of `/`. `create` always proceeds to the insert; a falsy weight or height (absent, `null`,
`false`, `0`, the empty string) is treated as absent and `bmi` is as supplied; truthy weight
and height that read as the numbers `w` and `h` are used as those numbers when no truthy BMI
is supplied, `bmi` being the value of the BMI expression on `w` and `h` in double arithmetic;
truthy weight and height of which one does not read as a number give `bmi = NaN` when no
truthy BMI is supplied. `update` on a row the store finds raises no exception and proceeds to
the write; when the payload carries a truthy weight or height and the merged weight and height
are truthy, it writes the value of the BMI expression on the numbers they read as, and `NaN`
when one of them does not read as a number. A value reads as a number by `ToNumber`: `true`
as `1`, a blank string as `0`, and decimal text, which is truthy, as the double nearest to the
number it denotes. -/
theorem bmi_derivation_on_non_numbers (vitalsData updates current : Obj)
    (t1 t2 t3 vitalsId now : String) :
    VitalsModel.create vitalsData t1 t2 t3 =
      [StoreCall.insert (VitalsModel.createRow vitalsData t1 t2 t3)] ∧
    (((vitalsData.get "weight").truthy = false ∨ (vitalsData.get "height").truthy = false) →
      (VitalsModel.createRow vitalsData t1 t2 t3).get "bmi" = vitalsData.get "bmi") ∧
    (∀ w h : ℚ, (vitalsData.get "weight").truthy = true →
      (vitalsData.get "height").truthy = true → (vitalsData.get "bmi").truthy = false →
      (vitalsData.get "weight").toNumber = Num.fin w →
      (vitalsData.get "height").toNumber = Num.fin h →
      (VitalsModel.createRow vitalsData t1 t2 t3).get "bmi" = Val.num (doubleBmi w h)) ∧
    ((vitalsData.get "weight").truthy = true → (vitalsData.get "height").truthy = true →
      (vitalsData.get "bmi").truthy = false →
      ((vitalsData.get "weight").toNumber = Num.nan ∨
        (vitalsData.get "height").toNumber = Num.nan) →
      (VitalsModel.createRow vitalsData t1 t2 t3).get "bmi" = Val.num Num.nan) ∧
    (∃ calls, VitalsModel.update (some current) vitalsId updates now = Except.ok calls) ∧
    (∀ w h : ℚ,
      ((updates.get "weight").truthy = true ∨ (updates.get "height").truthy = true) →
      ((updates.get "weight").or (current.get "weight")).truthy = true →
      ((updates.get "height").or (current.get "height")).truthy = true →
      ((updates.get "weight").or (current.get "weight")).toNumber = Num.fin w →
      ((updates.get "height").or (current.get "height")).toNumber = Num.fin h →
      writtenBmi (VitalsModel.update (some current) vitalsId updates now) =
        some (Val.num (doubleBmi w h))) ∧
    (((updates.get "weight").truthy = true ∨ (updates.get "height").truthy = true) →
      ((updates.get "weight").or (current.get "weight")).truthy = true →
      ((updates.get "height").or (current.get "height")).truthy = true →
      (((updates.get "weight").or (current.get "weight")).toNumber = Num.nan ∨
        ((updates.get "height").or (current.get "height")).toNumber = Num.nan) →
      writtenBmi (VitalsModel.update (some current) vitalsId updates now) =
        some (Val.num Num.nan)) ∧
    ((Val.bool true).toNumber = Num.fin 1 ∧ (Val.str " ").toNumber = Num.fin 0 ∧
      ∀ s q, IsDecimalText s q →
        (Val.str s).truthy = true ∧ (Val.str s).toNumber = Num.ofRat q) := by
  refine ⟨rfl, fun hf => ?_, fun w h hw hh hb nw nh => ?_, fun hw hh hb hn => ?_,
    update_total_of_found current updates vitalsId now, fun w h ht hw hh nw nh => ?_,
    fun ht hw hh hn => ?_, rfl, ?_, fun s q hs => ⟨decimalText_truthy s q hs, ?_⟩⟩
  · rw [createRow_bmi, createBmi_of_falsy vitalsData hf]
  · rw [createRow_bmi, createBmi_of_truthy vitalsData hw hh hb, bmiOf_toNumber _ _ w h nw nh]
  · rw [createRow_bmi, createBmi_of_truthy vitalsData hw hh hb, bmiOf_nan _ _ hn]
  · rw [writtenBmi_of_recalculated current updates vitalsId now ht hw hh,
      bmiOf_toNumber _ _ w h nw nh]
  · rw [writtenBmi_of_recalculated current updates vitalsId now ht hw hh, bmiOf_nan _ _ hn]
  · simp [Val.toNumber, stringToNumber, isStrWhiteSpaceChar]
  · exact stringToNumber_decimalText s q hs

/-- C15, witness: `create` on `{weight: "abc", height: 175}` stores `bmi = NaN`, and `update`
with `{height: "abc"}` on a row storing weight `70` writes `bmi = NaN`; `create` on
`{weight: "70", height: "175"}`, both numeric text, stores `bmi = 22.9`. -/
theorem bmi_derivation_on_non_numbers_witness :
    (VitalsModel.createRow textWeightBody "t1" "t2" "t3").get "bmi" = Val.num Num.nan ∧
    writtenBmi (VitalsModel.update (some storedRow) "v1" textHeightUpdate "now") =
      some (Val.num Num.nan) ∧
    (VitalsModel.createRow numericTextBody "t1" "t2" "t3").get "bmi" = Val.ofRat (229 / 10) :=
  have h175 : (Val.ofRat 175).truthy = true := by
    rw [Val.ofRat_175]
    exact Val.num_fin_truthy _ (by norm_num)
  have h70 : (Val.ofRat 70).truthy = true := by
    rw [Val.ofRat_70]
    exact Val.num_fin_truthy _ (by norm_num)
  have tw : ((textHeightUpdate.get "weight").or (storedRow.get "weight")).truthy = true := by
    have : (textHeightUpdate.get "weight").truthy = false := by decide
    rw [Val.or, this, if_neg (by decide)]
    exact h70
  have n70 : (numericTextBody.get "weight").toNumber = Num.fin 70 :=
    ((bmi_derivation_on_non_numbers [] [] [] "t1" "t2" "t3" "v1" "now").2.2.2.2.2.2.2.2.2 "70" 70
      isDecimalText_70).2.trans (Val.num.inj Val.ofRat_70)
  have n175 : (numericTextBody.get "height").toNumber = Num.fin 175 :=
    ((bmi_derivation_on_non_numbers [] [] [] "t1" "t2" "t3" "v1" "now").2.2.2.2.2.2.2.2.2 "175"
      175 isDecimalText_175).2.trans (Val.num.inj Val.ofRat_175)
  ⟨(bmi_derivation_on_non_numbers textWeightBody [] [] "t1" "t2" "t3" "v1" "now").2.2.2.1
      (by decide) h175 (by decide) (Or.inl (by
        simp [textWeightBody, Obj.get, List.lookup, Val.toNumber, stringToNumber,
          isStrWhiteSpaceChar, parseDecimal, parseUnsignedDecimal, parseExponent, digitsValue])),
    (bmi_derivation_on_non_numbers [] textHeightUpdate storedRow "t1" "t2" "t3" "v1"
      "now").2.2.2.2.2.2.1 (Or.inr (by decide)) tw (by decide) (Or.inr (by
        simp [textHeightUpdate, storedRow, Obj.get, List.lookup, Val.toNumber, Val.or,
          Val.truthy, stringToNumber, isStrWhiteSpaceChar, parseDecimal, parseUnsignedDecimal,
          parseExponent, digitsValue])),
    ((bmi_derivation_on_non_numbers numericTextBody [] [] "t1" "t2" "t3" "v1" "now").2.2.1 70
      175 (by decide) (by decide) (by decide) n70 n175).trans (by
        rw [← bmiOf_fin, bmiOf_70_175]; rfl)⟩

/-- C16: for every request body, `updateVitals` runs `VitalsModel.update` on a payload that has
none of `id`, `patient_id`, `doctor_id`, `recorded_at`, `created_at`, and in which every other
property of the body is kept, with its value and in its place. -/
theorem update_vitals_strips_identifying_fields (current : Option Obj)
    (answer : Except String Obj) (vitalsId now : String) (body : Obj) :
    (updateVitals current answer vitalsId body now).2 =
      VitalsModel.update current vitalsId (updateVitals.updates body) now ∧
    (∀ k ∈ protectedFields, (updateVitals.updates body).lookup k = none) ∧
    (∀ k, k ∉ protectedFields → (updateVitals.updates body).lookup k = body.lookup k) ∧
    List.Sublist (updateVitals.updates body) body := by
  refine ⟨rfl, fun k hk => ?_, fun k hk => ?_, ?_⟩
  · rw [updates_lookup, if_pos hk]
  · rw [updates_lookup, if_neg hk]
  · unfold updateVitals.updates
    exact (((((Obj.delete_sublist _ _).trans (Obj.delete_sublist _ _)).trans
      (Obj.delete_sublist _ _)).trans (Obj.delete_sublist _ _)).trans (Obj.delete_sublist _ _))

/-- C16, witness: of the body `{id, patient_id, weight: 80, created_at}` only the weight is
forwarded. -/
theorem update_vitals_strips_identifying_fields_witness :
    (updateVitals.updates tamperingBody).lookup "patient_id" = none ∧
    (updateVitals.updates tamperingBody).lookup "weight" = some (Val.ofRat 80) :=
  ⟨(update_vitals_strips_identifying_fields none (Except.ok []) "v1" "now" tamperingBody).2.1
      "patient_id" (by decide),
    ((update_vitals_strips_identifying_fields none (Except.ok []) "v1" "now" tamperingBody).2.2.1
      "weight" (by decide)).trans rfl⟩

/-- C17: for every non-empty sequence of rows the handler answers with a summary whose
`total_readings` is the number of rows, whatever the rows carry. -/
theorem trends_total_readings_is_row_count (vitals : List Vital) (h : vitals ≠ []) :
    (∃ t, getVitalsTrends (Except.ok (some vitals)) = Response.ok t vitals.length) ∧
    ∀ t n, getVitalsTrends (Except.ok (some vitals)) = Response.ok t n → n = vitals.length := by
  refine ⟨⟨_, getVitalsTrends_ok vitals h⟩, fun t n hr => ?_⟩
  rw [getVitalsTrends_ok vitals h] at hr
  injection hr with _ hn
  exact hn.symm

/-- C17, witness: two rows in which nothing is recorded give `total_readings = 2`. -/
theorem trends_total_readings_is_row_count_witness :
    blankRows ≠ [] ∧
    (∃ t, getVitalsTrends (Except.ok (some blankRows)) = Response.ok t 2) ∧
    ∀ t n, getVitalsTrends (Except.ok (some blankRows)) = Response.ok t n → n = 2 :=
  ⟨List.cons_ne_nil _ _, trends_total_readings_is_row_count blankRows (List.cons_ne_nil _ _)⟩

/-- C18, counterexample: a caller who supplies the integer limit `0` is asked `10` rows for,
not `0`; and a caller who supplies the integer limit `9007199254740993`, which is `2^53 + 1`
and not a double, is asked `9007199254740992` rows for. -/
theorem trends_limit_zero_becomes_ten :
    (intText 0 = "0" ∧
      (getVitalsTrends.query "p1" (some "0")).limit = Num.fin 10) ∧
    (getVitalsTrends.query "p1" (some "9007199254740993")).limit =
      Num.fin 9007199254740992 := by
  have p : parseIntString "9007199254740993" = Num.fin 9007199254740992 := by
    have d : parseIntString "9007199254740993" = Num.ofRat 9007199254740993 := by
      simp [parseIntString, parseIntChars, isStrWhiteSpaceChar, digitsValue]
    rw [d, ofRat_9007199254740993]
  refine ⟨⟨by decide, ?_⟩, ?_⟩
  · simp [getVitalsTrends.query, VitalsModel.getByPatientId, getVitalsTrends.limit, parseInt,
      parseIntString, parseIntChars, isStrWhiteSpaceChar, digitsValue, Num.truthy,
      Num.ofRat_zero]
  · have t : (Num.fin 9007199254740992).truthy = true :=
      decide_eq_true (by norm_num : (9007199254740992 : ℚ) ≠ 0)
    show (if (parseIntString "9007199254740993").truthy then
      parseIntString "9007199254740993" else Num.fin 10) = _
    rw [p, if_pos t]

/-- C18, amended: the number of rows `getVitalsTrends` asks the store for is `10` when the
caller supplies no limit; for a non-zero integer limit it is the limit rounded to a double,
which is exactly the caller's limit whenever its magnitude is at most `2^53`; an integer limit
of `0` gives `10` as well. -/
theorem trends_limit_default_and_override (patientId : String) (n : ℤ) (h : n ≠ 0) :
    (getVitalsTrends.query patientId none).limit = Num.fin 10 ∧
    (getVitalsTrends.query patientId (some (intText n))).limit = Num.ofRat n ∧
    (|(n : ℚ)| ≤ 2 ^ 53 →
      (getVitalsTrends.query patientId (some (intText n))).limit = Num.fin n) ∧
    (getVitalsTrends.query patientId (some (intText 0))).limit = Num.fin 10 := by
  have h1 : (2 : ℚ) ^ (0 : ℤ) ≤ |(n : ℚ)| := by
    rw [zpow_zero, ← Int.cast_abs]
    exact_mod_cast Int.one_le_abs h
  have t : (Num.ofRat (n : ℚ)).truthy = true := by
    rcases Num.ofRat_abs_ge (n : ℚ) 0 (by norm_num) h1 with e | e | ⟨e, hb⟩
    · rw [e]; rfl
    · rw [e]; rfl
    · rw [e]
      have : roundedValue (n : ℚ) ≠ 0 := fun h0 => by
        rw [h0, abs_zero, zpow_zero] at hb
        exact absurd hb (by norm_num)
      simp [Num.truthy, this]
  have e : (getVitalsTrends.query patientId (some (intText n))).limit = Num.ofRat n := by
    simp [getVitalsTrends.query, VitalsModel.getByPatientId, getVitalsTrends.limit, parseInt,
      parseIntString_intText, t]
  refine ⟨?_, e, fun hb => ?_, ?_⟩
  · simp [getVitalsTrends.query, VitalsModel.getByPatientId, getVitalsTrends.limit, parseInt,
      Num.truthy]
  · rw [e, Num.ofRat_intCast_le n hb]
  · simp [getVitalsTrends.query, VitalsModel.getByPatientId, getVitalsTrends.limit, parseInt,
      parseIntString_intText, Num.truthy, Num.ofRat_zero]

/-- C18, witness: the query string `limit=25` asks the store for `25` rows. -/
theorem trends_limit_default_and_override_witness :
    (25 : ℤ) ≠ 0 ∧ intText 25 = "25" ∧
    (getVitalsTrends.query "p1" (some (intText 25))).limit = Num.fin 25 :=
  ⟨by decide, by decide,
    ((trends_limit_default_and_override "p1" 25 (by decide)).2.2.1 (by norm_num)).trans
      (by norm_num)⟩

/-- C19: for every non-empty sequence of rows, when the contributing temperatures
(respectively weights) are held as decimal text, each text is read as the number it denotes,
rounded to a double, before it is added, and the reported average is `toFixed(1)` of the mean
of those numbers in double arithmetic, never a concatenation of the texts; a row whose value is
decimal text always contributes; for at most a thousand texts denoting numbers between `1` and
`1000` the reported average is fixed-point text with one digit after the point, denoting a
decimal within `0.05 + 10^-9` of the exact mean of the numbers denoted; and in general the
reported text has one digit after the point and denotes a decimal within one twentieth of the
mean computed, when that mean is below `10^21` in magnitude. -/
theorem decimal_text_is_averaged_numerically (vitals : List Vital) (h : vitals ≠ []) :
    ∃ t, getVitalsTrends (Except.ok (some vitals)) = Response.ok t vitals.length ∧
      DecimalTextAveraged vitals t ∧ FixedPointAverages vitals t := by
  refine ⟨_, getVitalsTrends_ok vitals h, ?_, ?_⟩
  · obtain ⟨ht, hw⟩ := finish_decimal_avgs vitals
    refine ⟨fun qs hne hq => ?_, fun qs hne hq => ?_,
      fun v hv s q hs hd => ?_, fun v hv s q hs hd => ?_, fun qs hne hq hb hn => ?_,
      fun qs hne hq hb hn => ?_⟩
    · rw [ht hne, parseFloat_of_forall₂ _ _ _ hq]
    · rw [hw hne, parseFloat_of_forall₂ _ _ _ hq]
    · refine ⟨?_, by rw [hs, parseFloat, parseFloatString_decimalText s q hd]⟩
      simp only [tempContributors, List.mem_filter]
      exact ⟨hv, by rw [hs]; exact decimalText_truthy s q hd⟩
    · refine ⟨?_, by rw [hs, parseFloat, parseFloatString_decimalText s q hd]⟩
      simp only [weightContributors, List.mem_filter]
      exact ⟨hv, by rw [hs]; exact decimalText_truthy s q hd⟩
    · obtain ⟨r, hf, hr, hrb⟩ :=
        decimal_text_avg_near (fun v => v.temperature) _ qs hne hq hb hn
      exact ⟨_, r, ht hne, hf, hr, hrb⟩
    · obtain ⟨r, hf, hr, hrb⟩ := decimal_text_avg_near (fun v => v.weight) _ qs hne hq hb hn
      exact ⟨_, r, hw hne, hf, hr, hrb⟩
  · obtain ⟨ht, hw⟩ := finish_decimal_avgs vitals
    refine ⟨fun m hne hq hm => ?_, fun m hne hq hm => ?_⟩
    · obtain ⟨hf, r, hr, hb⟩ := toFixed1_fixed m hm
      exact ⟨_, r, by rw [ht hne, hq], hf, hr, hb⟩
    · obtain ⟨hf, r, hr, hb⟩ := toFixed1_fixed m hm
      exact ⟨_, r, by rw [hw hne, hq], hf, hr, hb⟩

/-- C19, witness: two rows holding the texts `"98.6"` and `"99.2"` give the average `"98.9"`,
the mean of `98.6` and `99.2`; two rows holding the texts `"96.0"` and `"96.1"` give `"96.0"`,
the mean of the two doubles being a little below `96.05`, and that text denotes a decimal
within `0.05 + 10^-9` of the exact mean `96.05`; and the single weight `"70.35"` gives
`"70.3"`, the double it denotes being a little below `70.35`. -/
theorem decimal_text_is_averaged_numerically_witness :
    (textTemperatureRows ≠ [] ∧
      ∃ t, getVitalsTrends (Except.ok (some textTemperatureRows)) =
          Response.ok t textTemperatureRows.length ∧
        DecimalTextAveraged textTemperatureRows t ∧ t.temperature.avg = Val.str "98.9") ∧
    (halfwayTextRows ≠ [] ∧
      ∃ t, getVitalsTrends (Except.ok (some halfwayTextRows)) =
          Response.ok t halfwayTextRows.length ∧
        t.temperature.avg = Val.str "96.0" ∧ t.weight.avg = Val.str "70.3" ∧
        ∃ s r, t.temperature.avg = Val.str s ∧ isFixedOneDecimal s = true ∧
          IsDecimalText s r ∧ |r - mean [96, 961 / 10]| ≤ 1 / 20 + 1 / 10 ^ 9) := by
  refine ⟨⟨List.cons_ne_nil _ _, ?_⟩, List.cons_ne_nil _ _, ?_⟩
  · obtain ⟨t, ht, ha, -⟩ :=
      decimal_text_is_averaged_numerically textTemperatureRows (List.cons_ne_nil _ _)
    refine ⟨t, ht, ha, ?_⟩
    have hc : tempContributors textTemperatureRows = textTemperatureRows := by decide
    have h := ha.1 [493 / 5, 496 / 5] (by rw [hc]; exact List.cons_ne_nil _ _) (by
      rw [hc]
      exact List.Forall₂.cons ⟨"98.6", rfl, isDecimalText_98_6⟩
        (List.Forall₂.cons ⟨"99.2", rfl, isDecimalText_99_2⟩ List.Forall₂.nil))
    rw [h]
    simp only [List.map_cons, List.map_nil]
    rw [numMean_98_6_99_2, toFixed1_98_6_99_2]
  · obtain ⟨t, ht, ha, -⟩ :=
      decimal_text_is_averaged_numerically halfwayTextRows (List.cons_ne_nil _ _)
    have hc : tempContributors halfwayTextRows = halfwayTextRows := by decide
    have hq : List.Forall₂ (fun v q => ∃ s, v.temperature = Val.str s ∧ IsDecimalText s q)
        (tempContributors halfwayTextRows) [96, 961 / 10] := by
      rw [hc]
      exact List.Forall₂.cons ⟨"96.0", rfl, isDecimalText_96_0⟩
        (List.Forall₂.cons ⟨"96.1", rfl, isDecimalText_96_1⟩ List.Forall₂.nil)
    refine ⟨t, ht, ?_, ?_, ?_⟩
    · have h := ha.1 [96, 961 / 10] (by rw [hc]; exact List.cons_ne_nil _ _) hq
      rw [h]
      simp only [List.map_cons, List.map_nil]
      rw [numMean_96_0_96_1, toFixed1_96_0_96_1]
    · have hc : weightContributors halfwayTextRows =
          [{ Vital.blank "2024-05-02T09:00:00Z" with
             temperature := Val.str "96.0", weight := Val.str "70.35" }] := by decide
      have h := ha.2.1 [1407 / 20] (by rw [hc]; exact List.cons_ne_nil _ _) (by
        rw [hc]
        exact List.Forall₂.cons ⟨"70.35", rfl, isDecimalText_70_35⟩ List.Forall₂.nil)
      rw [h]
      simp only [List.map_cons, List.map_nil]
      rw [numMean_70_35, toFixed1_70_35]
    · refine ha.2.2.2.2.1 [96, 961 / 10] (by rw [hc]; exact List.cons_ne_nil _ _) hq
        (fun q hq => ?_) (by decide)
      simp only [List.mem_cons, List.mem_singleton, List.not_mem_nil, or_false] at hq
      rcases hq with rfl | rfl <;> norm_num

/-- C20, counterexample: the body `{patient_id: 0, doctor_id: "d1", heart_rate: 72}` carries
both identifiers, and `recordVitals` rejects it with status 400 without a store call. -/
theorem record_vitals_rejects_zero_identifier :
    (zeroPatientBody.lookup "patient_id" = some (Val.ofRat 0) ∧
      zeroPatientBody.lookup "doctor_id" = some (Val.str "d1")) ∧
    recordVitals (Except.ok zeroPatientBody) zeroPatientBody "t1" "t2" "t3" =
      ({ status := 400,
         body := ReplyBody.error "Patient ID and Doctor ID are required" none }, []) := by
  refine ⟨⟨rfl, by decide⟩, ?_⟩
  simp [recordVitals, zeroPatientBody, Obj.get, List.lookup, Val.truthy, Num.truthy]

/-- C20, amended: `recordVitals` rejects a request with status 400, and then makes no store
call, if and only if `patient_id` or `doctor_id` is missing from the body or falsy (`null`,
`false`, `0`, the empty string); for every body in which both are truthy it calls
`VitalsModel.create` with that body, and answers 201 with the created row when the store
succeeds and 500 when it fails. -/
theorem record_vitals_validation (answer : Except String Obj) (vitalsData : Obj)
    (t1 t2 t3 : String) :
    ((recordVitals answer vitalsData t1 t2 t3).1.status = 400 ↔
      ((vitalsData.get "patient_id").truthy = false ∨
        (vitalsData.get "doctor_id").truthy = false)) ∧
    ((recordVitals answer vitalsData t1 t2 t3).1.status = 400 →
      recordVitals answer vitalsData t1 t2 t3 =
        ({ status := 400,
           body := ReplyBody.error "Patient ID and Doctor ID are required" none }, [])) ∧
    ((vitalsData.get "patient_id").truthy = true → (vitalsData.get "doctor_id").truthy = true →
      (recordVitals answer vitalsData t1 t2 t3).2 = VitalsModel.create vitalsData t1 t2 t3 ∧
      (∀ vitals, answer = Except.ok vitals →
        (recordVitals answer vitalsData t1 t2 t3).1 =
          { status := 201,
            body := ReplyBody.vitals "Vitals recorded successfully" vitals }) ∧
      (∀ details, answer = Except.error details →
        (recordVitals answer vitalsData t1 t2 t3).1 = internalServerError details)) := by
  by_cases hp : (vitalsData.get "patient_id").truthy = true
  · by_cases hd : (vitalsData.get "doctor_id").truthy = true
    · cases answer with
      | ok vitals => simp [recordVitals, hp, hd]
      | error details => simp [recordVitals, hp, hd, internalServerError]
    · simp [recordVitals, hp, hd]
  · simp [recordVitals, hp]

/-- C20, witness: the body `{patient_id: "p1", doctor_id: "d1", weight: 70, height: 175}` is
handed to `VitalsModel.create` and answered with 201 and the row the store returns. -/
theorem record_vitals_validation_witness :
    ((plainBody.get "patient_id").truthy = true ∧ (plainBody.get "doctor_id").truthy = true) ∧
    (recordVitals (Except.ok plainBody) plainBody "t1" "t2" "t3").2 =
      VitalsModel.create plainBody "t1" "t2" "t3" ∧
    (recordVitals (Except.ok plainBody) plainBody "t1" "t2" "t3").1 =
      { status := 201, body := ReplyBody.vitals "Vitals recorded successfully" plainBody } :=
  ⟨⟨by decide, by decide⟩,
    ((record_vitals_validation (Except.ok plainBody) plainBody "t1" "t2" "t3").2.2
      (by decide) (by decide)).1,
    ((record_vitals_validation (Except.ok plainBody) plainBody "t1" "t2" "t3").2.2
      (by decide) (by decide)).2.1 plainBody rfl⟩

/-- C21: the doctor object of every successful answer of `loginDoctor`, `getDoctorProfile` and
`updateDoctorProfile` is the stored row without `password_hash`, so it has no such property;
and two stored doctors that differ only in `password_hash` get the same `getDoctorProfile`
answer. -/
theorem doctor_replies_hide_password (fetched : Except String (Option Obj))
    (touched : Except String Obj) (answer : Except String (Option Obj)) (body : Obj)
    (doctorId now : String) :
    (∀ d, (loginDoctor fetched touched body now).1.returnedDoctor = some d →
      d.lookup "password_hash" = none) ∧
    (∀ d, (getDoctorProfile fetched doctorId).1.returnedDoctor = some d →
      d.lookup "password_hash" = none) ∧
    (∀ d, (updateDoctorProfile answer doctorId body now).1.returnedDoctor = some d →
      d.lookup "password_hash" = none) ∧
    (∀ d₁ d₂ : Obj, d₁.delete "password_hash" = d₂.delete "password_hash" →
      getDoctorProfile (Except.ok (some d₁)) doctorId =
        getDoctorProfile (Except.ok (some d₂)) doctorId) := by
  refine ⟨fun d h => ?_, fun d h => ?_, fun d h => ?_, fun d₁ d₂ h => ?_⟩
  · obtain ⟨doctor, -, rfl⟩ := loginDoctor_returnedDoctor fetched touched body now d h
    exact Obj.lookup_delete_eq _ _
  · cases fetched with
    | error e => simp [getDoctorProfile, DoctorReply.returnedDoctor, doctorServerError] at h
    | ok o =>
      cases o with
      | none => simp [getDoctorProfile, DoctorReply.returnedDoctor] at h
      | some doctor =>
        simp [getDoctorProfile, DoctorReply.returnedDoctor] at h
        rw [← h]
        exact Obj.lookup_delete_eq _ _
  · cases answer with
    | error e => simp [updateDoctorProfile, DoctorReply.returnedDoctor, doctorServerError] at h
    | ok o =>
      cases o with
      | none => simp [updateDoctorProfile, DoctorReply.returnedDoctor, doctorServerError] at h
      | some doctor =>
        simp [updateDoctorProfile, DoctorReply.returnedDoctor] at h
        rw [← h]
        exact Obj.lookup_delete_eq _ _
  · simp only [getDoctorProfile, h]

/-- C21, witness: the profile of a stored doctor with password `"s3cret"` is answered with
status 200 and a doctor object without `password_hash`, the same as for the doctor who differs
only in the password. -/
theorem doctor_replies_hide_password_witness :
    (getDoctorProfile (Except.ok (some verifiedDoctor)) "u1").1.status = 200 ∧
    (∃ d, (getDoctorProfile (Except.ok (some verifiedDoctor)) "u1").1.returnedDoctor = some d ∧
      d.lookup "password_hash" = none) ∧
    getDoctorProfile (Except.ok (some verifiedDoctor)) "u1" =
      getDoctorProfile (Except.ok (some verifiedDoctorOtherPassword)) "u1" :=
  ⟨rfl,
    ⟨_, rfl, (doctor_replies_hide_password (Except.ok (some verifiedDoctor))
      (Except.ok verifiedDoctor) (Except.ok none) [] "u1" "now").2.1 _ rfl⟩,
    (doctor_replies_hide_password (Except.ok (some verifiedDoctor)) (Except.ok verifiedDoctor)
      (Except.ok none) [] "u1" "now").2.2.2 verifiedDoctor verifiedDoctorOtherPassword
      (by decide)⟩

/-- C22, counterexample: with every stated condition met (identifier and password supplied, a
doctor found, the stored `password_hash` equal to the password, `is_verified` true and
`verification_status` `'verified'`) `loginDoctor` answers 500 when the write of `last_login`
fails, and answers 400 when the supplied `doctor_id` is `0`. -/
theorem login_doctor_not_always_success :
    (verifiedDoctor.get "password_hash" = loginBody.get "password" ∧
      verifiedDoctor.get "is_verified" = Val.bool true ∧
      verifiedDoctor.get "verification_status" = Val.str "verified") ∧
    ((loginBody.lookup "doctor_id").isSome = true ∧ (loginBody.lookup "password").isSome = true ∧
      (loginDoctor (Except.ok (some verifiedDoctor)) (Except.error "connection lost") loginBody
        "now").1.status = 500) ∧
    ((zeroIdLoginBody.lookup "doctor_id").isSome = true ∧
      (zeroIdLoginBody.lookup "password").isSome = true ∧
      zeroIdLoginBody.get "password" = loginBody.get "password" ∧
      (loginDoctor (Except.ok (some verifiedDoctor)) (Except.ok verifiedDoctor) zeroIdLoginBody
        "now").1.status = 400) := by
  refine ⟨⟨by decide, by decide, by decide⟩, ⟨by decide, by decide, ?_⟩,
    by decide, by decide, by decide, ?_⟩
  · simp [loginDoctor, loginBody, verifiedDoctor, Obj.get, List.lookup, Val.truthy, Val.strictEq,
      doctorServerError]
  · simp [loginDoctor, zeroIdLoginBody, Obj.get, List.lookup, Val.truthy, Num.truthy]

/-- C22, amended: `loginDoctor` answers 200 if and only if `doctor_id` and `password` are both
truthy, the store returns a doctor, the stored `password_hash` is strictly equal to the
password, `is_verified` is truthy, `verification_status` is `'verified'` and the write of
`last_login` succeeds. Otherwise it answers with the first failing check, in the order 400
(an input missing or falsy), 404 (no doctor), 401 (password mismatch), 403 (not verified), and
with 500 when a store call fails. `last_login` is written exactly when every check passes. -/
theorem login_doctor_cascade (fetched : Except String (Option Obj))
    (touched : Except String Obj) (body : Obj) (now : String) :
    ((loginDoctor fetched touched body now).1.status = 200 ↔
      LoginChecksPass fetched body ∧ ∃ row, touched = Except.ok row) ∧
    (((body.get "doctor_id").truthy = false ∨ (body.get "password").truthy = false) →
      (loginDoctor fetched touched body now).1.status = 400) ∧
    ((body.get "doctor_id").truthy = true → (body.get "password").truthy = true →
      (fetched = Except.ok none → (loginDoctor fetched touched body now).1.status = 404) ∧
      (∀ details, fetched = Except.error details →
        (loginDoctor fetched touched body now).1.status = 500) ∧
      (∀ doctor, fetched = Except.ok (some doctor) →
        ((doctor.get "password_hash").strictEq (body.get "password") = false →
          (loginDoctor fetched touched body now).1.status = 401) ∧
        ((doctor.get "password_hash").strictEq (body.get "password") = true →
          ((doctor.get "is_verified").truthy = false ∨
            (doctor.get "verification_status").strictEq (Val.str "verified") = false) →
          (loginDoctor fetched touched body now).1.status = 403))) ∧
    (LoginChecksPass fetched body → ∀ details, touched = Except.error details →
      (loginDoctor fetched touched body now).1.status = 500) ∧
    ((∃ c ∈ (loginDoctor fetched touched body now).2, c.writesLastLogin = true) ↔
      LoginChecksPass fetched body) := by
  by_cases h1 : (body.get "doctor_id").truthy = true
  swap
  · simp [loginDoctor, LoginChecksPass, h1]
  by_cases h2 : (body.get "password").truthy = true
  swap
  · simp [loginDoctor, LoginChecksPass, h1, h2]
  cases fetched with
  | error e =>
    simp [loginDoctor, LoginChecksPass, h1, h2, doctorServerError, DoctorModel.getByDoctorId,
      DoctorCall.writesLastLogin]
  | ok o =>
    cases o with
    | none =>
      simp [loginDoctor, LoginChecksPass, h1, h2, DoctorModel.getByDoctorId,
        DoctorCall.writesLastLogin]
    | some doctor =>
      by_cases h3 : (doctor.get "password_hash").strictEq (body.get "password") = true
      swap
      · simp [loginDoctor, LoginChecksPass, h1, h2, h3, DoctorModel.getByDoctorId,
          DoctorCall.writesLastLogin]
      by_cases h4 : (doctor.get "is_verified").truthy = true
      swap
      · simp [loginDoctor, LoginChecksPass, h1, h2, h3, h4, DoctorModel.getByDoctorId,
          DoctorCall.writesLastLogin]
      by_cases h5 : (doctor.get "verification_status").strictEq (Val.str "verified") = true
      swap
      · simp [loginDoctor, LoginChecksPass, h1, h2, h3, h4, h5, DoctorModel.getByDoctorId,
          DoctorCall.writesLastLogin]
      cases touched with
      | error e =>
        simp [loginDoctor, LoginChecksPass, h1, h2, h3, h4, h5, doctorServerError,
          DoctorModel.getByDoctorId, DoctorModel.updateLastLogin, DoctorCall.writesLastLogin,
          List.lookup]
      | ok row =>
        simp [loginDoctor, LoginChecksPass, h1, h2, h3, h4, h5, DoctorModel.getByDoctorId,
          DoctorModel.updateLastLogin, DoctorCall.writesLastLogin, List.lookup]

/-- C22, witness: the body `{doctor_id: "D1", password: "s3cret"}` against the verified stored
doctor with that password is answered with 200, and `last_login` is written. -/
theorem login_doctor_cascade_witness :
    LoginChecksPass (Except.ok (some verifiedDoctor)) loginBody ∧
    (loginDoctor (Except.ok (some verifiedDoctor)) (Except.ok verifiedDoctor) loginBody
      "now").1.status = 200 ∧
    ∃ c ∈ (loginDoctor (Except.ok (some verifiedDoctor)) (Except.ok verifiedDoctor) loginBody
      "now").2, c.writesLastLogin = true :=
  have hp : LoginChecksPass (Except.ok (some verifiedDoctor)) loginBody :=
    ⟨by decide, by decide, verifiedDoctor, rfl, by decide, by decide, by decide⟩
  ⟨hp,
    (login_doctor_cascade (Except.ok (some verifiedDoctor)) (Except.ok verifiedDoctor) loginBody
      "now").1.mpr ⟨hp, verifiedDoctor, rfl⟩,
    (login_doctor_cascade (Except.ok (some verifiedDoctor)) (Except.ok verifiedDoctor) loginBody
      "now").2.2.2.2.mpr hp⟩

/-- C23: for every request body, `updateDoctorProfile` calls `DoctorModel.update` with a
payload that has none of `id`, `doctor_id`, `password_hash`, `is_verified`,
`verification_status`, `created_at`, and in which every other property of the body is kept,
with its value and in its place. -/
theorem update_doctor_profile_strips_protected_fields (answer : Except String (Option Obj))
    (doctorId now : String) (body : Obj) :
    (updateDoctorProfile answer doctorId body now).2 =
      [DoctorModel.update doctorId (updateDoctorProfile.updates body) now] ∧
    (∀ k ∈ protectedDoctorFields, (updateDoctorProfile.updates body).lookup k = none) ∧
    (∀ k, k ∉ protectedDoctorFields →
      (updateDoctorProfile.updates body).lookup k = body.lookup k) ∧
    List.Sublist (updateDoctorProfile.updates body) body := by
  refine ⟨rfl, fun k hk => ?_, fun k hk => ?_, ?_⟩
  · rw [doctor_updates_lookup, if_pos hk]
  · rw [doctor_updates_lookup, if_neg hk]
  · unfold updateDoctorProfile.updates
    exact ((((((Obj.delete_sublist _ _).trans (Obj.delete_sublist _ _)).trans
      (Obj.delete_sublist _ _)).trans (Obj.delete_sublist _ _)).trans
      (Obj.delete_sublist _ _)).trans (Obj.delete_sublist _ _))

/-- C23, witness: of the body `{name, password_hash, is_verified}` only the name is
forwarded. -/
theorem update_doctor_profile_strips_protected_fields_witness :
    (updateDoctorProfile.updates escalatingBody).lookup "password_hash" = none ∧
    (updateDoctorProfile.updates escalatingBody).lookup "is_verified" = none ∧
    (updateDoctorProfile.updates escalatingBody).lookup "name" = some (Val.str "B. Rao") :=
  ⟨(update_doctor_profile_strips_protected_fields (Except.ok none) "u1" "now"
      escalatingBody).2.1 "password_hash" (by decide),
    (update_doctor_profile_strips_protected_fields (Except.ok none) "u1" "now"
      escalatingBody).2.1 "is_verified" (by decide),
    ((update_doctor_profile_strips_protected_fields (Except.ok none) "u1" "now"
      escalatingBody).2.2.1 "name" (by decide)).trans (by decide)⟩

/-- C24: a row whose value for a metric is the number `0` (for blood pressure: systolic `0` or
diastolic `0`) fails the metric's test, as a row in which the metric is not recorded does; both
leave the metric's sum, counter and readings of the loop as they were, and the metric's part
of the summary is the same with or without the row. -/
theorem zero_value_is_treated_as_unrecorded (m : Metric) (v : Vital) (h : m.isZero v) :
    m.passes v = false ∧
    (∀ u, m.recorded u = false → m.passes u = false) ∧
    (∀ a, m.sameAcc (step a v) a) ∧
    (∀ a u, m.recorded u = false → m.sameAcc (step a v) (step a u)) ∧
    (∀ before after, m.sameIn (finish (accumulate (before ++ v :: after)))
      (finish (accumulate (before ++ after)))) := by
  have hp := Metric.passes_false_of_isZero m v h
  refine ⟨hp, fun u hu => Metric.passes_false_of_not_recorded m u hu,
    fun a => step_of_not_passing m a v hp, fun a u hu => ?_,
    fun before after => finish_insert_of_not_passing m before after v hp⟩
  exact Metric.sameAcc_symm_trans m _ _ a (step_of_not_passing m a v hp)
    (step_of_not_passing m a u (Metric.passes_false_of_not_recorded m u hu))

/-- C24, witness: a row with heart rate `0` adds nothing to the heart-rate sum, counter and
readings, and the blank row, which records no heart rate, does the same. -/
theorem zero_value_is_treated_as_unrecorded_witness :
    Metric.heartRate.isZero zeroHeartRateRow ∧
    Metric.heartRate.recorded (Vital.blank "2024-05-01T09:00:00Z") = false ∧
    Metric.heartRate.sameAcc (step (accumulate threeFullRows) zeroHeartRateRow)
      (step (accumulate threeFullRows) (Vital.blank "2024-05-01T09:00:00Z")) :=
  ⟨rfl, by decide,
    (zero_value_is_treated_as_unrecorded Metric.heartRate zeroHeartRateRow rfl).2.2.2.1
      (accumulate threeFullRows) (Vital.blank "2024-05-01T09:00:00Z") (by decide)⟩

/-- C25, counterexample: the payload `{weight: 0, bmi: 30}` supplies a weight, and on a row
storing weight `70` and height `180` the merged weight and height are both present; `update`
does not read the stored row and writes the payload's `bmi = 30`, not a recomputed value
(`0` from the supplied weight, `21.6` from the stored one). -/
theorem update_keeps_bmi_for_zero_weight :
    (zeroWeightBmiUpdate.lookup "weight" = some (Val.ofRat 0) ∧
      suppliedOrStored zeroWeightBmiUpdate storedRow "height" = Val.ofRat 180) ∧
    (readsStoredRow (VitalsModel.update (some storedRow) "v1" zeroWeightBmiUpdate "now") = false ∧
      writtenBmi (VitalsModel.update (some storedRow) "v1" zeroWeightBmiUpdate "now") =
        some (Val.ofRat 30)) ∧
    (bmiOf (Val.ofRat 0) (Val.ofRat 180) = Num.fin 0 ∧
      bmiOf (Val.ofRat 70) (Val.ofRat 180) = Num.ofRat (108 / 5)) := by
  have t : (zeroWeightBmiUpdate.get "weight").truthy = false := by
    simp [zeroWeightBmiUpdate, Obj.get, List.lookup, Val.truthy, Num.truthy]
  refine ⟨⟨rfl, rfl⟩, ⟨?_, ?_⟩, ?_, ?_⟩
  · simp [VitalsModel.update, zeroWeightBmiUpdate, Obj.get, List.lookup, Val.truthy, Num.truthy,
      readsStoredRow]
  · rw [writtenBmi_of_not_recalculated _ _ _ _ (Or.inl ⟨t, by decide⟩)]
    rfl
  · rw [Val.ofRat_0, Val.ofRat_180, bmiOf_0_180]
  · rw [Val.ofRat_70, Val.ofRat_180, bmiOf_70_180]

/-- C25, amended: on a row the store finds, for every update payload that carries a truthy
weight or a truthy height and whose merged weight and height are both truthy, the `bmi`
written is the recomputed value, whatever `bmi` the payload contains; for non-zero numbers
that value is `Math.round((weight / ((height/100) * (height/100))) * 10) / 10` on the merged
weight and height in double arithmetic, which for a weight from `1` to `1000` and a height
from `10` to `1000` is the double of a one-digit decimal within `0.05 + 10^-9` of the exact
quotient; when the merged weight or the merged height is missing or falsy, the payload's
`bmi`, if any, is written unchanged. -/
theorem update_recomputed_bmi_replaces_supplied (current updates : Obj)
    (vitalsId now : String) :
    (((updates.get "weight").truthy = true ∨ (updates.get "height").truthy = true) →
      ((updates.get "weight").or (current.get "weight")).truthy = true →
      ((updates.get "height").or (current.get "height")).truthy = true →
      writtenBmi (VitalsModel.update (some current) vitalsId updates now) =
        some (Val.num (bmiOf ((updates.get "weight").or (current.get "weight"))
          ((updates.get "height").or (current.get "height"))))) ∧
    (∀ w h : ℚ, w ≠ 0 → h ≠ 0 →
      ((updates.get "weight").truthy = true ∨ (updates.get "height").truthy = true) →
      (updates.get "weight").or (current.get "weight") = Val.num (Num.fin w) →
      (updates.get "height").or (current.get "height") = Val.num (Num.fin h) →
      writtenBmi (VitalsModel.update (some current) vitalsId updates now) =
          some (Val.num (doubleBmi w h)) ∧
        (1 ≤ w → w ≤ 1000 → 10 ≤ h → h ≤ 1000 →
          ∃ n : ℤ, doubleBmi w h = Num.ofRat ((n : ℚ) / 10) ∧
            |(n : ℚ) / 10 - w / (h / 100) ^ 2| ≤ 1 / 20 + 1 / 10 ^ 9)) ∧
    ((((updates.get "weight").or (current.get "weight")).truthy = false ∨
        ((updates.get "height").or (current.get "height")).truthy = false) →
      writtenBmi (VitalsModel.update (some current) vitalsId updates now) =
        some (updates.get "bmi")) := by
  refine ⟨fun ht hw hh => writtenBmi_of_recalculated current updates vitalsId now ht hw hh,
    fun w h hw0 hh0 ht hw hh => ⟨?_, doubleBmi_near w h⟩,
    fun hf => writtenBmi_of_not_recalculated current updates vitalsId now (Or.inr hf)⟩
  rw [writtenBmi_of_recalculated current updates vitalsId now ht
    (by rw [hw]; exact Val.num_fin_truthy w hw0) (by rw [hh]; exact Val.num_fin_truthy h hh0),
    hw, hh, bmiOf_fin]

/-- C25, witness: the payload `{weight: 80, bmi: 30}` on a row storing height `180` writes the
recomputed `24.7`, not the payload's `30`; on a row storing height `160` it writes `31.2`, the
double quotient being a little below the exact `31.25`. -/
theorem update_recomputed_bmi_replaces_supplied_witness :
    weightAndBmiUpdate.get "bmi" = Val.ofRat 30 ∧
    writtenBmi (VitalsModel.update (some storedRow) "v1" weightAndBmiUpdate "now") =
      some (Val.ofRat (247 / 10)) ∧
    writtenBmi (VitalsModel.update (some storedRow160) "v1" weightAndBmiUpdate "now") =
      some (Val.ofRat (156 / 5)) :=
  have t : (weightAndBmiUpdate.get "weight").truthy = true := by
    simp [weightAndBmiUpdate, Obj.get, List.lookup, Val.truthy, Num.truthy]
  have hw : ∀ row : Obj, (weightAndBmiUpdate.get "weight").or (row.get "weight") =
      Val.num (Num.fin 80) := fun row => by
    simp [weightAndBmiUpdate, Obj.get, List.lookup, Val.or, Val.truthy, Num.truthy]
  have hh : (weightAndBmiUpdate.get "height").or (storedRow.get "height") =
      Val.num (Num.fin 180) := by
    simp [weightAndBmiUpdate, storedRow, Obj.get, List.lookup, Val.or, Val.truthy]
  have hh' : (weightAndBmiUpdate.get "height").or (storedRow160.get "height") =
      Val.num (Num.fin 160) := by
    simp [weightAndBmiUpdate, storedRow160, Obj.get, List.lookup, Val.or, Val.truthy]
  ⟨rfl,
    ((update_recomputed_bmi_replaces_supplied storedRow weightAndBmiUpdate "v1" "now").2.1 80 180
      (by norm_num) (by norm_num) (Or.inl t) (hw _) hh).1.trans (by
        rw [← bmiOf_fin, bmiOf_80_180]; rfl),
    ((update_recomputed_bmi_replaces_supplied storedRow160 weightAndBmiUpdate "v1" "now").2.1 80
      160 (by norm_num) (by norm_num) (Or.inl t) (hw _) hh').1.trans (by
        rw [← bmiOf_fin, bmiOf_80_160]; rfl)⟩

/-- C26, counterexample: the height `1e-162` is a non-zero number, and with weight `70` and no
BMI supplied `create` evaluates the quotient; `height / 100` is a non-zero double whose square
is below half the least positive double, so `heightInMeters * heightInMeters` is `0`, the
division divides by zero and the `bmi` written is `Infinity`. The same happens in `update` with
the payload `{height: 1e-162}` on a row storing weight `70`. -/
theorem bmi_divisor_underflows_to_zero :
    (tinyHeightBody.get "weight" = Val.ofRat 70 ∧
      tinyHeightBody.get "height" = Val.ofRat (1 / 10 ^ 162) ∧
      Val.ofRat (1 / 10 ^ 162) = Val.num (Num.fin (8104522595470689 / 2 ^ 591)) ∧
      (8104522595470689 / 2 ^ 591 : ℚ) ≠ 0) ∧
    (VitalsModel.createComputes tinyHeightBody = true ∧
      bmiDivisor (tinyHeightBody.get "height") = Num.fin 0 ∧
      VitalsModel.createBmi tinyHeightBody = Val.num Num.posInf) ∧
    (VitalsModel.updateComputes storedRow tinyHeightUpdate = true ∧
      bmiDivisor ((tinyHeightUpdate.get "height").or (storedRow.get "height")) = Num.fin 0 ∧
      writtenBmi (VitalsModel.update (some storedRow) "v1" tinyHeightUpdate "now") =
        some (Val.num Num.posInf)) := by
  have e : Val.ofRat (1 / 10 ^ 162) = Val.num (Num.fin (8104522595470689 / 2 ^ 591)) := by
    rw [Val.ofRat, ofRat_tiny]
  have n0 : (8104522595470689 / 2 ^ 591 : ℚ) ≠ 0 := by norm_num
  have th : (Val.num (Num.fin (8104522595470689 / 2 ^ 591))).truthy = true :=
    Val.num_fin_truthy _ n0
  have hh : tinyHeightBody.get "height" = Val.num (Num.fin (8104522595470689 / 2 ^ 591)) :=
    e ▸ rfl
  have hw : tinyHeightBody.get "weight" = Val.num (Num.fin 70) := Val.ofRat_70
  have hb : (tinyHeightBody.get "bmi").truthy = false := by decide
  have d0 : bmiDivisor (Val.num (Num.fin (8104522595470689 / 2 ^ 591))) = Num.fin 0 := by
    show ((Num.fin (8104522595470689 / 2 ^ 591)).div (Num.fin 100)).mul
      ((Num.fin (8104522595470689 / 2 ^ 591)).div (Num.fin 100)) = _
    rw [div_tiny, mul_tiny]
  have b : bmiOf (Val.num (Num.fin 70)) (Val.num (Num.fin (8104522595470689 / 2 ^ 591))) =
      Num.posInf := by
    show (((((Num.fin 70).div (((Num.fin (8104522595470689 / 2 ^ 591)).div (Num.fin 100)).mul
      ((Num.fin (8104522595470689 / 2 ^ 591)).div (Num.fin 100)))).mul (Num.fin 10)).round).div
      (Num.fin 10)) = _
    rw [div_tiny, mul_tiny, Num.div_fin, if_pos rfl]
    simp [Num.infOfSign, Num.sgn, Num.mul, Num.round, Num.div]
    norm_num
  have uh : (tinyHeightUpdate.get "height").or (storedRow.get "height") =
      Val.num (Num.fin (8104522595470689 / 2 ^ 591)) := by
    have : tinyHeightUpdate.get "height" = Val.num (Num.fin (8104522595470689 / 2 ^ 591)) :=
      e ▸ rfl
    rw [this, Val.or, th, if_pos rfl]
  have uw : (tinyHeightUpdate.get "weight").or (storedRow.get "weight") =
      Val.num (Num.fin 70) := by
    have : (tinyHeightUpdate.get "weight").truthy = false := by decide
    rw [Val.or, this, if_neg (by decide)]
    exact Val.ofRat_70
  have ut : (tinyHeightUpdate.get "height").truthy = true := by
    have : tinyHeightUpdate.get "height" = Val.num (Num.fin (8104522595470689 / 2 ^ 591)) :=
      e ▸ rfl
    rw [this, th]
  have t70 : (Val.num (Num.fin 70)).truthy = true := Val.num_fin_truthy _ (by norm_num)
  refine ⟨⟨rfl, rfl, e, n0⟩, ⟨?_, ?_, ?_⟩, ?_, ?_, ?_⟩
  · simp only [VitalsModel.createComputes, hw, hh, hb, t70, th, Bool.and_self, Bool.not_false]
  · rw [hh, d0]
  · unfold VitalsModel.createBmi
    simp only [hw, hh, hb, t70, th, Bool.and_self, Bool.not_false, if_true, b]
  · simp only [VitalsModel.updateComputes, ut, uw, uh, t70, th, Bool.or_true, Bool.and_self]
  · rw [uh, d0]
  · rw [writtenBmi_of_recalculated storedRow tinyHeightUpdate "v1" "now" (Or.inr ut)
      (by rw [uw, t70]) (by rw [uh, th]), uw, uh, b]

/-- C26, amended: for a weight and a height that are numbers, whenever `create` or `update`
evaluates `weight / (heightInMeters * heightInMeters)` the height is non-zero and the `bmi`
written is the value of the BMI expression in double arithmetic; when moreover the height is
between `10^-150` and `10^150` in magnitude, the divisor `heightInMeters * heightInMeters` is a
non-zero finite number, so the division does not divide by zero. A height of `0` makes neither
of them evaluate the quotient, and the `bmi` written is the one supplied. -/
theorem bmi_divisor_nonzero_in_range (vitalsData updates current : Obj)
    (vitalsId now : String) :
    (∀ w h : ℚ, vitalsData.get "weight" = Val.num (Num.fin w) →
      vitalsData.get "height" = Val.num (Num.fin h) →
      VitalsModel.createComputes vitalsData = true →
      h ≠ 0 ∧ VitalsModel.createBmi vitalsData = Val.num (doubleBmi w h) ∧
        (1 / 10 ^ 150 ≤ |h| → |h| ≤ 10 ^ 150 →
          ∃ d : ℚ, bmiDivisor (vitalsData.get "height") = Num.fin d ∧ d ≠ 0)) ∧
    (vitalsData.get "height" = Val.num (Num.fin 0) →
      VitalsModel.createComputes vitalsData = false ∧
        VitalsModel.createBmi vitalsData = vitalsData.get "bmi") ∧
    (∀ w h : ℚ, (updates.get "weight").or (current.get "weight") = Val.num (Num.fin w) →
      (updates.get "height").or (current.get "height") = Val.num (Num.fin h) →
      VitalsModel.updateComputes current updates = true →
      h ≠ 0 ∧
        writtenBmi (VitalsModel.update (some current) vitalsId updates now) =
          some (Val.num (doubleBmi w h)) ∧
        (1 / 10 ^ 150 ≤ |h| → |h| ≤ 10 ^ 150 →
          ∃ d : ℚ, bmiDivisor ((updates.get "height").or (current.get "height")) = Num.fin d ∧
            d ≠ 0)) ∧
    ((updates.get "height").or (current.get "height") = Val.num (Num.fin 0) →
      VitalsModel.updateComputes current updates = false ∧
        writtenBmi (VitalsModel.update (some current) vitalsId updates now) =
          some (updates.get "bmi")) := by
  have z : (Val.num (Num.fin 0)).truthy = false := by
    simp [Val.truthy, Num.truthy]
  refine ⟨fun w h hw hh hc => ?_, fun hh => ?_, fun w h hw hh hc => ?_, fun hh => ?_⟩
  · simp only [VitalsModel.createComputes, hw, hh, Bool.and_eq_true, Bool.not_eq_true',
      Val.num_fin_truthy_iff] at hc
    obtain ⟨⟨hw0, hh0⟩, hb⟩ := hc
    refine ⟨hh0, ?_, fun h1 h2 => ?_⟩
    · rw [createBmi_of_numbers vitalsData w h hw hh hb hw0 hh0, bmiOf_fin]
    · rw [hh]
      exact bmiDivisor_ne_zero h h1 h2
  · refine ⟨by simp [VitalsModel.createComputes, hh, z], ?_⟩
    exact createBmi_of_falsy vitalsData (Or.inr (by rw [hh, z]))
  · simp only [VitalsModel.updateComputes, hw, hh, Bool.and_eq_true, Bool.or_eq_true,
      Val.num_fin_truthy_iff] at hc
    obtain ⟨ht, hw0, hh0⟩ := hc
    refine ⟨hh0, ?_, fun h1 h2 => ?_⟩
    · rw [writtenBmi_of_recalculated current updates vitalsId now ht
        (by rw [hw]; exact Val.num_fin_truthy w hw0) (by rw [hh]; exact Val.num_fin_truthy h hh0),
        hw, hh, bmiOf_fin]
    · rw [hh]
      exact bmiDivisor_ne_zero h h1 h2
  · refine ⟨by simp [VitalsModel.updateComputes, hh, z], ?_⟩
    exact writtenBmi_of_not_recalculated current updates vitalsId now
      (Or.inr (Or.inr (by rw [hh, z])))

/-- C26, witness: `create` on `{weight: 70, height: 175}` evaluates the quotient with a non-zero
height and a non-zero finite divisor and writes `22.9`, and on `{weight: 70, height: 0}` it
computes no BMI. -/
theorem bmi_divisor_nonzero_in_range_witness :
    (175 : ℚ) ≠ 0 ∧
    VitalsModel.createBmi plainBody = Val.ofRat (229 / 10) ∧
    (∃ d : ℚ, bmiDivisor (plainBody.get "height") = Num.fin d ∧ d ≠ 0) ∧
    VitalsModel.createBmi zeroHeightBody = Val.undefined :=
  have c : VitalsModel.createComputes plainBody = true := by
    simp [VitalsModel.createComputes, plainBody, Obj.get, List.lookup, Val.truthy, Num.truthy]
  have h := (bmi_divisor_nonzero_in_range plainBody [] [] "v1" "now").1 70 175 Val.ofRat_70
    Val.ofRat_175 c
  ⟨h.1, h.2.1.trans (by rw [← bmiOf_fin, bmiOf_70_175]; rfl),
    h.2.2 (by norm_num [abs_of_pos]) (by norm_num [abs_of_pos]),
    ((bmi_divisor_nonzero_in_range zeroHeightBody [] [] "v1" "now").2.1
      Val.ofRat_0).2.trans rfl⟩

/-- C27: for every non-empty sequence of rows and every metric, the readings list of the
summary is as long as the metric's counter after the loop, which is the number of rows that
entered the average, and that number is at most `total_readings`. -/
theorem readings_length_is_count (m : Metric) (vitals : List Vital) (h : vitals ≠ []) :
    ∃ t n, getVitalsTrends (Except.ok (some vitals)) = Response.ok t n ∧
      m.readingsLength t = m.count (accumulate vitals) ∧
      m.count (accumulate vitals) = (vitals.filter m.passes).length ∧
      m.count (accumulate vitals) ≤ n := by
  obtain ⟨hc, hr⟩ := count_and_readings m vitals
  refine ⟨_, _, getVitalsTrends_ok vitals h, hr, hc, ?_⟩
  rw [hc]
  exact List.length_filter_le _ _

/-- C27, witness: of the two rows with heart rates `0` and `60` one enters the heart-rate
average, and the summary has one heart-rate reading. -/
theorem readings_length_is_count_witness :
    zeroHeartRateRows ≠ [] ∧
    ∃ t n, getVitalsTrends (Except.ok (some zeroHeartRateRows)) = Response.ok t n ∧
      Metric.heartRate.readingsLength t = 1 ∧ 1 ≤ n := by
  refine ⟨List.cons_ne_nil _ _, ?_⟩
  obtain ⟨t, n, ht, h1, h2, h3⟩ :=
    readings_length_is_count Metric.heartRate zeroHeartRateRows (List.cons_ne_nil _ _)
  have hc : (zeroHeartRateRows.filter Metric.heartRate.passes).length = 1 := by decide
  rw [hc] at h2
  rw [h2] at h1 h3
  exact ⟨t, n, ht, h1, h3⟩

/-- C28: for every non-empty sequence of rows, each of `avg_systolic`, `avg_diastolic`,
`heart_rate.avg` and `oxygen_saturation.avg` whose metric has a contributing row lies between
the least and the greatest of the contributing values, inclusive. -/
theorem rounded_averages_within_range (vitals : List Vital) (h : vitals ≠ []) :
    ∃ t, getVitalsTrends (Except.ok (some vitals)) = Response.ok t vitals.length ∧
      RoundedAveragesWithinRange vitals t := by
  refine ⟨_, getVitalsTrends_ok vitals h, ?_⟩
  obtain ⟨hb, hr, ho⟩ := finish_integer_avgs vitals
  have ne_of_min : ∀ (f : Vital → Option ℤ) (vs : List Vital) (lo : ℤ),
      IsMinimumOf (contributingValues f vs) lo → vs ≠ [] := by
    intro f vs lo hlo hnil
    rw [hnil] at hlo
    exact absurd hlo.1 (by simp [contributingValues])
  refine ⟨fun lo hi hlo hhi => ?_, fun lo hi hlo hhi => ?_, fun lo hi hlo hhi => ?_,
    fun lo hi hlo hhi => ?_⟩
  · rw [(hb (ne_of_min _ _ lo hlo)).1]
    exact withinRange_of_rounded_mean _ _ lo hi hlo hhi
  · rw [(hb (ne_of_min _ _ lo hlo)).2]
    exact withinRange_of_rounded_mean _ _ lo hi hlo hhi
  · rw [hr (ne_of_min _ _ lo hlo)]
    exact withinRange_of_rounded_mean _ _ lo hi hlo hhi
  · rw [ho (ne_of_min _ _ lo hlo)]
    exact withinRange_of_rounded_mean _ _ lo hi hlo hhi

/-- C28, witness: on three rows with heart rates `71`, `72`, `74` the reported heart-rate
average lies between `71` and `74`. -/
theorem rounded_averages_within_range_witness :
    threeFullRows ≠ [] ∧
    ∃ t, getVitalsTrends (Except.ok (some threeFullRows)) =
        Response.ok t threeFullRows.length ∧
      71 ≤ t.heart_rate.avg ∧ t.heart_rate.avg ≤ 74 := by
  refine ⟨List.cons_ne_nil _ _, ?_⟩
  obtain ⟨t, ht, -, -, hr, -⟩ :=
    rounded_averages_within_range threeFullRows (List.cons_ne_nil _ _)
  have hv : contributingValues (fun v => v.heart_rate) (hrContributors threeFullRows) =
      [71, 72, 74] := by decide
  rw [hv] at hr
  have := hr 71 74 ⟨by decide, by decide⟩ ⟨by decide, by decide⟩
  exact ⟨t, ht, by exact_mod_cast this.1, by exact_mod_cast this.2⟩

/-- C29: the row `create` hands to the store has every property of the caller's body other
than `bmi`, `recorded_at`, `created_at` and `updated_at` unchanged, and its three time stamps
are the readings of the clock taken by `create`, whatever the body supplies for them. -/
theorem create_keeps_fields_and_sets_timestamps (vitalsData : Obj) (t1 t2 t3 : String) :
    VitalsModel.create vitalsData t1 t2 t3 =
      [StoreCall.insert (VitalsModel.createRow vitalsData t1 t2 t3)] ∧
    (∀ k, k ∉ createdFields →
      (VitalsModel.createRow vitalsData t1 t2 t3).lookup k = vitalsData.lookup k) ∧
    (VitalsModel.createRow vitalsData t1 t2 t3).lookup "recorded_at" = some (Val.str t1) ∧
    (VitalsModel.createRow vitalsData t1 t2 t3).lookup "created_at" = some (Val.str t2) ∧
    (VitalsModel.createRow vitalsData t1 t2 t3).lookup "updated_at" = some (Val.str t3) :=
  ⟨rfl, fun k hk => createRow_lookup vitalsData t1 t2 t3 k hk,
    createRow_timestamps vitalsData t1 t2 t3⟩

/-- C29, witness: a body that supplies `recorded_at: "1999-01-01T00:00:00.000Z"` is stored with
the clock's reading for `recorded_at` and with its `heart_rate` unchanged. -/
theorem create_keeps_fields_and_sets_timestamps_witness :
    backdatedBody.lookup "recorded_at" = some (Val.str "1999-01-01T00:00:00.000Z") ∧
    (VitalsModel.createRow backdatedBody "2024-05-02T09:00:00.000Z" "2024-05-02T09:00:00.001Z"
      "2024-05-02T09:00:00.001Z").lookup "recorded_at" =
        some (Val.str "2024-05-02T09:00:00.000Z") ∧
    (VitalsModel.createRow backdatedBody "2024-05-02T09:00:00.000Z" "2024-05-02T09:00:00.001Z"
      "2024-05-02T09:00:00.001Z").lookup "heart_rate" = some (Val.ofRat 72) :=
  ⟨by decide,
    (create_keeps_fields_and_sets_timestamps backdatedBody "2024-05-02T09:00:00.000Z"
      "2024-05-02T09:00:00.001Z" "2024-05-02T09:00:00.001Z").2.2.1,
    ((create_keeps_fields_and_sets_timestamps backdatedBody "2024-05-02T09:00:00.000Z"
      "2024-05-02T09:00:00.001Z" "2024-05-02T09:00:00.001Z").2.1 "heart_rate"
      (by decide)).trans rfl⟩

/-- C30, the failing input: in a time zone five hours behind UTC, on 14 March 2025, the date of
birth `2007-03-15` is read as the local date 14 March 2007 and accepted, although the
applicant is 17, the eighteenth birthday being the next day. -/
theorem date_of_birth_accepted_a_day_early :
    CalDate.valid { year := 2007, month := 3, day := 15 } ∧
    localDateOfUtcMidnight (-300) { year := 2007, month := 3, day := 15 } =
      { year := 2007, month := 3, day := 14 } ∧
    validateForm.dateOfBirthError (-300) { year := 2025, month := 3, day := 14 }
      (some { year := 2007, month := 3, day := 15 }) = none ∧
    ageOn { year := 2007, month := 3, day := 15 } { year := 2025, month := 3, day := 14 } = 17 := by
  refine ⟨by unfold CalDate.valid; decide, by decide, by decide, by decide⟩

end DHR
